import Mathlib

/-!
# bun-webgpu: the C shim over the Dawn WebGPU API

A shallow embedding of `src/c/lib.c` and `src/zig-c/lib.c`.

Every exported routine `zwgpuX` wraps the native routine `wgpuX`.  The native
library, `malloc` and the width of `size_t` are not part of the sources; they
are collected in an environment `Env` over which every statement quantifies.
What a wrapper does is recorded as an `Outcome`: the sequence of observable
events (native calls with their positional arguments, lines printed, `malloc`
and `memcpy` calls) and the value returned.  Wrappers that go through a pointer
also take the memory `Mem`; undefined behaviour of C (reading or writing through
a pointer that references no object) is the result `none`.
-/

namespace BunWebgpu

/-! ## Data model -/

/-- An address.  `NULL` is the address `0`; handles, enums and unsigned integers
are machine words as well. -/
abbrev Addr := Nat

/-- The null pointer. -/
def NULL : Addr := 0

/-- A struct passed by value whose layout is declared in `webgpu.h` (not part of
the sources): its object representation, a sequence of words.  The shim only
ever copies such a value as a whole. -/
abbrev StructVal := List Nat

/-- The two members of `WGPUSupportedFeatures` the shim reads and writes:
`size_t featureCount` and `const WGPUFeatureName* features`. -/
structure WGPUSupportedFeatures where
  featureCount : Nat
  features : Addr
  deriving DecidableEq

/-- The struct `WGPUFuture`, of which the shim reads the member `uint64_t id`. -/
structure WGPUFuture where
  id : Nat
  deriving DecidableEq

/-- The value of `sizeof(WGPUFeatureName)`: `WGPUFeatureName` is a 32-bit enum of
`webgpu.h`. -/
def sizeof_WGPUFeatureName : Nat := 4

/-- The conversion `(size_t)v` of an unsigned value on a target whose `size_t`
has `w` bits. -/
def toSizeT (w : Nat) (v : Nat) : Nat := v % 2 ^ w

/-- The conversion of an integer value to `bool`: `0` becomes `false` (the word
`0`), everything else `true` (the word `1`). -/
def toBool (v : Nat) : Nat := if v = 0 then 0 else 1

/-- The native entry points of the Dawn WebGPU API that the shim calls. -/
inductive NativeFn
  | wgpuCreateInstance
  | wgpuInstanceRelease
  | wgpuInstanceRequestAdapter
  | wgpuInstanceCreateSurface
  | wgpuInstanceProcessEvents
  | wgpuInstanceWaitAny
  | wgpuInstanceAddRef
  | wgpuAdapterRelease
  | wgpuAdapterGetInfo
  | wgpuAdapterRequestDevice
  | wgpuAdapterCreateDevice
  | wgpuAdapterGetFeatures
  | wgpuAdapterGetLimits
  | wgpuDeviceRelease
  | wgpuDeviceGetQueue
  | wgpuDeviceCreateBuffer
  | wgpuDeviceCreateTexture
  | wgpuDeviceCreateSampler
  | wgpuDeviceCreateShaderModule
  | wgpuDeviceCreateBindGroupLayout
  | wgpuDeviceCreateBindGroup
  | wgpuDeviceCreatePipelineLayout
  | wgpuDeviceCreateRenderPipeline
  | wgpuDeviceCreateComputePipeline
  | wgpuDeviceCreateCommandEncoder
  | wgpuDeviceCreateQuerySet
  | wgpuDeviceGetLimits
  | wgpuDeviceHasFeature
  | wgpuDeviceGetFeatures
  | wgpuSupportedFeaturesFreeMembers
  | wgpuDevicePushErrorScope
  | wgpuDevicePopErrorScope
  | wgpuDeviceTick
  | wgpuDeviceDestroy
  | wgpuQueueRelease
  | wgpuQueueSubmit
  | wgpuQueueWriteBuffer
  | wgpuQueueWriteTexture
  | wgpuQueueOnSubmittedWorkDone
  | wgpuBufferMapAsync
  | wgpuBufferUnmap
  | wgpuBufferRelease
  | wgpuBufferGetMappedRange
  | wgpuBufferGetConstMappedRange
  | wgpuBufferDestroy
  | wgpuTextureCreateView
  | wgpuTextureDestroy
  | wgpuTextureRelease
  | wgpuTextureViewRelease
  | wgpuSamplerRelease
  | wgpuShaderModuleGetCompilationInfo
  | wgpuShaderModuleRelease
  | wgpuBindGroupLayoutRelease
  | wgpuBindGroupRelease
  | wgpuPipelineLayoutRelease
  | wgpuQuerySetDestroy
  | wgpuQuerySetRelease
  | wgpuRenderPipelineRelease
  | wgpuComputePipelineRelease
  | wgpuCommandEncoderBeginRenderPass
  | wgpuCommandEncoderBeginComputePass
  | wgpuCommandEncoderClearBuffer
  | wgpuCommandEncoderCopyBufferToBuffer
  | wgpuCommandEncoderCopyBufferToTexture
  | wgpuCommandEncoderCopyTextureToBuffer
  | wgpuCommandEncoderCopyTextureToTexture
  | wgpuCommandEncoderFinish
  | wgpuCommandEncoderRelease
  | wgpuRenderPassEncoderSetScissorRect
  | wgpuRenderPassEncoderSetViewport
  | wgpuRenderPassEncoderSetPipeline
  | wgpuRenderPassEncoderSetBindGroup
  | wgpuRenderPassEncoderSetVertexBuffer
  | wgpuRenderPassEncoderSetIndexBuffer
  | wgpuRenderPassEncoderDraw
  | wgpuRenderPassEncoderDrawIndexed
  | wgpuRenderPassEncoderEnd
  | wgpuRenderPassEncoderRelease
  | wgpuComputePassEncoderSetPipeline
  | wgpuComputePassEncoderSetBindGroup
  | wgpuComputePassEncoderDispatchWorkgroups
  | wgpuComputePassEncoderDispatchWorkgroupsIndirect
  | wgpuComputePassEncoderEnd
  | wgpuComputePassEncoderRelease
  | wgpuCommandBufferRelease
  | wgpuSurfaceConfigure
  | wgpuSurfaceUnconfigure
  | wgpuSurfaceGetCurrentTexture
  | wgpuSurfacePresent
  | wgpuSurfaceRelease
  | wgpuAdapterInfoFreeMembers
  | wgpuSurfaceCapabilitiesFreeMembers
  | wgpuSharedBufferMemoryEndAccessStateFreeMembers
  | wgpuSharedTextureMemoryEndAccessStateFreeMembers
  deriving DecidableEq

/-- An argument in a call: a machine word (handle, pointer, enum or unsigned
integer), a signed integer, a `float` (its bit pattern; the shim performs no
floating-point operation), a struct passed by value, or the address of the
local variable `temp_dawn_features_struct`. -/
inductive Arg
  | word (v : Nat)
  | int (v : Int)
  | float (bits : Nat)
  | struct (s : StructVal)
  | features (s : WGPUSupportedFeatures)
  | tempRef
  deriving DecidableEq

/-- A call of a native entry point with its positional arguments. -/
structure NativeCall where
  fn : NativeFn
  args : List Arg
  deriving DecidableEq

/-- What a wrapper does that can be observed from outside. -/
inductive Event
  | call (c : NativeCall)
  | print (line : String)
  | malloc (size : Nat) (result : Addr)
  | memcpy (dst : Addr) (src : Addr) (len : Nat)
  deriving DecidableEq

/-- Everything the shim depends on and does not define: the width of `size_t`,
the value a native call returns (a word; ignored for `void` functions), the
`WGPUFuture` a native request returns, the struct `wgpuDeviceGetFeatures`
stores through its out-pointer, and the pointer `malloc` returns for a size. -/
structure Env where
  sizeBits : Nat
  native : NativeCall → Nat
  nativeFuture : NativeCall → WGPUFuture
  nativeFeatures : Nat → WGPUSupportedFeatures
  mallocResult : Nat → Addr

/-- The events of a call of a wrapper and the value it returns (`none` for a
`void` wrapper). -/
structure Outcome where
  trace : List Event
  ret : Option Nat
  deriving DecidableEq

/-- The native calls among the events, in order. -/
def nativeCalls : List Event → List NativeCall
  | [] => []
  | Event.call c :: es => c :: nativeCalls es
  | _ :: es => nativeCalls es

/-- Body `return wgpuX(args);`. -/
def forward (E : Env) (c : NativeCall) : Outcome :=
  ⟨[Event.call c], some (E.native c)⟩

/-- Body `wgpuX(args);` of a `void` wrapper. -/
def forwardVoid (_E : Env) (c : NativeCall) : Outcome :=
  ⟨[Event.call c], none⟩

/-- Body `return wgpuX(args);` of a wrapper declared `bool` around a native
function returning `WGPUBool`. -/
def forwardBool (E : Env) (c : NativeCall) : Outcome :=
  ⟨[Event.call c], some (toBool (E.native c))⟩

/-- Body `WGPUFuture future = wgpuX(args); return future.id;`. -/
def forwardFuture (E : Env) (c : NativeCall) : Outcome :=
  let future : WGPUFuture := E.nativeFuture c
  ⟨[Event.call c], some future.id⟩

/-! ## Memory -/

/-- The objects a pointer argument can reference: by-value structs (callback
infos and the structs of the `FreeMembers` routines), `WGPUSupportedFeatures`
structs, and arrays of `WGPUFeatureName` (by base address). -/
structure Mem where
  structs : Addr → Option StructVal
  featureStructs : Addr → Option WGPUSupportedFeatures
  arrays : Addr → Option (List Nat)

/-- The struct `*p`; `none` when `p` is `NULL` or references no struct. -/
def Mem.loadStruct (m : Mem) (p : Addr) : Option StructVal :=
  if p = NULL then none else m.structs p

/-- The `WGPUSupportedFeatures` struct `*p`. -/
def Mem.loadFeatures (m : Mem) (p : Addr) : Option WGPUSupportedFeatures :=
  if p = NULL then none else m.featureStructs p

/-- The array of feature names at base address `p`. -/
def Mem.loadArray (m : Mem) (p : Addr) : Option (List Nat) :=
  if p = NULL then none else m.arrays p

/-- The assignment `p->featureCount = v`. -/
def Mem.storeFeatureCount (m : Mem) (p : Addr) (v : Nat) : Option Mem :=
  match m.loadFeatures p with
  | none => none
  | some s =>
    some ⟨m.structs, fun a => if a = p then some ⟨v, s.features⟩ else m.featureStructs a, m.arrays⟩

/-- The assignment `p->features = v`. -/
def Mem.storeFeaturesPtr (m : Mem) (p : Addr) (v : Addr) : Option Mem :=
  match m.loadFeatures p with
  | none => none
  | some s =>
    some ⟨m.structs, fun a => if a = p then some ⟨s.featureCount, v⟩ else m.featureStructs a, m.arrays⟩

/-- The call `memcpy(dst, src, len)` between arrays of feature names: both
arrays must exist, be distinct and hold at least `len` bytes; the first
`len / sizeof(WGPUFeatureName)` elements of `dst` become those of `src`. -/
def memcpy (m : Mem) (dst src : Addr) (len : Nat) : Option Mem :=
  match m.loadArray src, m.loadArray dst with
  | some s, some d =>
    if dst ≠ src ∧ len ≤ sizeof_WGPUFeatureName * s.length
        ∧ len ≤ sizeof_WGPUFeatureName * d.length then
      let k := len / sizeof_WGPUFeatureName
      some ⟨m.structs, m.featureStructs,
        fun a => if a = dst then some (s.take k ++ d.drop k) else m.arrays a⟩
    else none
  | _, _ => none

/-- The call `malloc(size)`: the environment chooses the pointer; when it is not
`NULL` a new array of `size / sizeof(WGPUFeatureName)` elements (of unspecified
content, here zeros) exists at that address. -/
def malloc (E : Env) (m : Mem) (size : Nat) : Addr × Mem :=
  let p := E.mallocResult size
  if p = NULL then (NULL, m)
  else (p, ⟨m.structs, m.featureStructs,
    fun a => if a = p then some (List.replicate (size / sizeof_WGPUFeatureName) 0) else m.arrays a⟩)

/-! ## The wrappers of `src/c/lib.c`

Each definition transcribes the exported function of the same name, parameter
by parameter and argument by argument.  The parameter `instance` of the source
is written `inst` (the word is reserved).  A wrapper that reads through a pointer
takes the memory `m` before its own parameters. -/

namespace C

def zwgpuCreateInstance (E : Env) (descriptor : Nat) : Outcome :=
  forward E ⟨.wgpuCreateInstance, [.word descriptor]⟩

def zwgpuInstanceRelease (E : Env) (inst : Nat) : Outcome :=
  forwardVoid E ⟨.wgpuInstanceRelease, [.word inst]⟩

def zwgpuInstanceCreateSurface (E : Env) (inst : Nat) (descriptor : Nat) : Outcome :=
  forward E ⟨.wgpuInstanceCreateSurface, [.word inst, .word descriptor]⟩

def zwgpuInstanceProcessEvents (E : Env) (inst : Nat) : Outcome :=
  forwardVoid E ⟨.wgpuInstanceProcessEvents, [.word inst]⟩

def zwgpuInstanceWaitAny (E : Env) (inst : Nat) (future_count : Nat) (futures : Nat) (timeout_ns : Nat) : Outcome :=
  forward E ⟨.wgpuInstanceWaitAny, [.word inst, .word (toSizeT E.sizeBits future_count), .word futures, .word timeout_ns]⟩

def zwgpuInstanceAddRef (E : Env) (inst : Nat) : Outcome :=
  forwardVoid E ⟨.wgpuInstanceAddRef, [.word inst]⟩

def zwgpuAdapterRelease (E : Env) (adapter : Nat) : Outcome :=
  forwardVoid E ⟨.wgpuAdapterRelease, [.word adapter]⟩

def zwgpuAdapterGetInfo (E : Env) (adapter : Nat) (info_ptr : Nat) : Outcome :=
  forward E ⟨.wgpuAdapterGetInfo, [.word adapter, .word info_ptr]⟩

def zwgpuAdapterCreateDevice (E : Env) (adapter : Nat) (descriptor : Nat) : Outcome :=
  forward E ⟨.wgpuAdapterCreateDevice, [.word adapter, .word descriptor]⟩

def zwgpuAdapterGetFeatures (E : Env) (adapter : Nat) (features : Nat) : Outcome :=
  forwardVoid E ⟨.wgpuAdapterGetFeatures, [.word adapter, .word features]⟩

def zwgpuAdapterGetLimits (E : Env) (adapter : Nat) (limits : Nat) : Outcome :=
  forward E ⟨.wgpuAdapterGetLimits, [.word adapter, .word limits]⟩

def zwgpuDeviceRelease (E : Env) (device : Nat) : Outcome :=
  forwardVoid E ⟨.wgpuDeviceRelease, [.word device]⟩

def zwgpuDeviceGetQueue (E : Env) (device : Nat) : Outcome :=
  forward E ⟨.wgpuDeviceGetQueue, [.word device]⟩

def zwgpuDeviceCreateBuffer (E : Env) (device : Nat) (descriptor : Nat) : Outcome :=
  forward E ⟨.wgpuDeviceCreateBuffer, [.word device, .word descriptor]⟩

def zwgpuDeviceCreateTexture (E : Env) (device : Nat) (descriptor : Nat) : Outcome :=
  forward E ⟨.wgpuDeviceCreateTexture, [.word device, .word descriptor]⟩

def zwgpuDeviceCreateSampler (E : Env) (device : Nat) (descriptor : Nat) : Outcome :=
  forward E ⟨.wgpuDeviceCreateSampler, [.word device, .word descriptor]⟩

def zwgpuDeviceCreateShaderModule (E : Env) (device : Nat) (descriptor : Nat) : Outcome :=
  forward E ⟨.wgpuDeviceCreateShaderModule, [.word device, .word descriptor]⟩

def zwgpuDeviceCreateBindGroupLayout (E : Env) (device : Nat) (descriptor : Nat) : Outcome :=
  forward E ⟨.wgpuDeviceCreateBindGroupLayout, [.word device, .word descriptor]⟩

def zwgpuDeviceCreateBindGroup (E : Env) (device : Nat) (descriptor : Nat) : Outcome :=
  forward E ⟨.wgpuDeviceCreateBindGroup, [.word device, .word descriptor]⟩

def zwgpuDeviceCreatePipelineLayout (E : Env) (device : Nat) (descriptor : Nat) : Outcome :=
  forward E ⟨.wgpuDeviceCreatePipelineLayout, [.word device, .word descriptor]⟩

def zwgpuDeviceCreateRenderPipeline (E : Env) (device : Nat) (descriptor : Nat) : Outcome :=
  forward E ⟨.wgpuDeviceCreateRenderPipeline, [.word device, .word descriptor]⟩

def zwgpuDeviceCreateComputePipeline (E : Env) (device : Nat) (descriptor : Nat) : Outcome :=
  forward E ⟨.wgpuDeviceCreateComputePipeline, [.word device, .word descriptor]⟩

def zwgpuDeviceCreateCommandEncoder (E : Env) (device : Nat) (descriptor : Nat) : Outcome :=
  forward E ⟨.wgpuDeviceCreateCommandEncoder, [.word device, .word descriptor]⟩

def zwgpuDeviceCreateQuerySet (E : Env) (device : Nat) (descriptor : Nat) : Outcome :=
  forward E ⟨.wgpuDeviceCreateQuerySet, [.word device, .word descriptor]⟩

def zwgpuDeviceGetLimits (E : Env) (device : Nat) (limits : Nat) : Outcome :=
  forward E ⟨.wgpuDeviceGetLimits, [.word device, .word limits]⟩

def zwgpuDeviceHasFeature (E : Env) (device : Nat) (feature : Nat) : Outcome :=
  forwardBool E ⟨.wgpuDeviceHasFeature, [.word device, .word feature]⟩

def zwgpuDevicePushErrorScope (E : Env) (device : Nat) (filter : Nat) : Outcome :=
  forwardVoid E ⟨.wgpuDevicePushErrorScope, [.word device, .word filter]⟩

def zwgpuDeviceTick (E : Env) (device : Nat) : Outcome :=
  forwardVoid E ⟨.wgpuDeviceTick, [.word device]⟩

def zwgpuDeviceDestroy (E : Env) (device : Nat) : Outcome :=
  forwardVoid E ⟨.wgpuDeviceDestroy, [.word device]⟩

def zwgpuQueueRelease (E : Env) (queue : Nat) : Outcome :=
  forwardVoid E ⟨.wgpuQueueRelease, [.word queue]⟩

def zwgpuQueueSubmit (E : Env) (queue : Nat) (command_count : Nat) (commands : Nat) : Outcome :=
  forwardVoid E ⟨.wgpuQueueSubmit, [.word queue, .word (toSizeT E.sizeBits command_count), .word commands]⟩

def zwgpuQueueWriteBuffer (E : Env) (queue : Nat) (buffer : Nat) (buffer_offset : Nat) (data : Nat) (size : Nat) : Outcome :=
  forwardVoid E ⟨.wgpuQueueWriteBuffer, [.word queue, .word buffer, .word buffer_offset, .word data, .word (toSizeT E.sizeBits size)]⟩

def zwgpuQueueWriteTexture (E : Env) (queue : Nat) (destination : Nat) (data : Nat) (data_size : Nat) (data_layout : Nat) (write_size : Nat) : Outcome :=
  forwardVoid E ⟨.wgpuQueueWriteTexture, [.word queue, .word destination, .word data, .word data_size, .word data_layout, .word write_size]⟩

def zwgpuBufferUnmap (E : Env) (buffer : Nat) : Outcome :=
  forwardVoid E ⟨.wgpuBufferUnmap, [.word buffer]⟩

def zwgpuBufferRelease (E : Env) (buffer : Nat) : Outcome :=
  forwardVoid E ⟨.wgpuBufferRelease, [.word buffer]⟩

def zwgpuBufferGetMappedRange (E : Env) (buffer : Nat) (offset : Nat) (size : Nat) : Outcome :=
  forward E ⟨.wgpuBufferGetMappedRange, [.word buffer, .word (toSizeT E.sizeBits offset), .word (toSizeT E.sizeBits size)]⟩

def zwgpuBufferGetConstMappedRange (E : Env) (buffer : Nat) (offset : Nat) (size : Nat) : Outcome :=
  forward E ⟨.wgpuBufferGetConstMappedRange, [.word buffer, .word (toSizeT E.sizeBits offset), .word (toSizeT E.sizeBits size)]⟩

def zwgpuBufferDestroy (E : Env) (buffer : Nat) : Outcome :=
  forwardVoid E ⟨.wgpuBufferDestroy, [.word buffer]⟩

def zwgpuTextureCreateView (E : Env) (texture : Nat) (descriptor : Nat) : Outcome :=
  forward E ⟨.wgpuTextureCreateView, [.word texture, .word descriptor]⟩

def zwgpuTextureDestroy (E : Env) (texture : Nat) : Outcome :=
  forwardVoid E ⟨.wgpuTextureDestroy, [.word texture]⟩

def zwgpuTextureRelease (E : Env) (texture : Nat) : Outcome :=
  forwardVoid E ⟨.wgpuTextureRelease, [.word texture]⟩

def zwgpuTextureViewRelease (E : Env) (texture_view : Nat) : Outcome :=
  forwardVoid E ⟨.wgpuTextureViewRelease, [.word texture_view]⟩

def zwgpuSamplerRelease (E : Env) (sampler : Nat) : Outcome :=
  forwardVoid E ⟨.wgpuSamplerRelease, [.word sampler]⟩

def zwgpuShaderModuleRelease (E : Env) (shader_module : Nat) : Outcome :=
  forwardVoid E ⟨.wgpuShaderModuleRelease, [.word shader_module]⟩

def zwgpuBindGroupLayoutRelease (E : Env) (bind_group_layout : Nat) : Outcome :=
  forwardVoid E ⟨.wgpuBindGroupLayoutRelease, [.word bind_group_layout]⟩

def zwgpuBindGroupRelease (E : Env) (bind_group : Nat) : Outcome :=
  forwardVoid E ⟨.wgpuBindGroupRelease, [.word bind_group]⟩

def zwgpuPipelineLayoutRelease (E : Env) (pipeline_layout : Nat) : Outcome :=
  forwardVoid E ⟨.wgpuPipelineLayoutRelease, [.word pipeline_layout]⟩

def zwgpuQuerySetDestroy (E : Env) (query_set : Nat) : Outcome :=
  forwardVoid E ⟨.wgpuQuerySetDestroy, [.word query_set]⟩

def zwgpuQuerySetRelease (E : Env) (query_set : Nat) : Outcome :=
  forwardVoid E ⟨.wgpuQuerySetRelease, [.word query_set]⟩

def zwgpuRenderPipelineRelease (E : Env) (render_pipeline : Nat) : Outcome :=
  forwardVoid E ⟨.wgpuRenderPipelineRelease, [.word render_pipeline]⟩

def zwgpuComputePipelineRelease (E : Env) (compute_pipeline : Nat) : Outcome :=
  forwardVoid E ⟨.wgpuComputePipelineRelease, [.word compute_pipeline]⟩

def zwgpuCommandEncoderBeginRenderPass (E : Env) (encoder : Nat) (descriptor : Nat) : Outcome :=
  forward E ⟨.wgpuCommandEncoderBeginRenderPass, [.word encoder, .word descriptor]⟩

def zwgpuCommandEncoderBeginComputePass (E : Env) (encoder : Nat) (descriptor : Nat) : Outcome :=
  forward E ⟨.wgpuCommandEncoderBeginComputePass, [.word encoder, .word descriptor]⟩

def zwgpuCommandEncoderClearBuffer (E : Env) (encoder : Nat) (buffer : Nat) (offset : Nat) (size : Nat) : Outcome :=
  forwardVoid E ⟨.wgpuCommandEncoderClearBuffer, [.word encoder, .word buffer, .word offset, .word size]⟩

def zwgpuCommandEncoderCopyBufferToBuffer (E : Env) (encoder : Nat) (source : Nat) (source_offset : Nat) (destination : Nat) (destination_offset : Nat) (size : Nat) : Outcome :=
  forwardVoid E ⟨.wgpuCommandEncoderCopyBufferToBuffer, [.word encoder, .word source, .word source_offset, .word destination, .word destination_offset, .word size]⟩

def zwgpuCommandEncoderCopyBufferToTexture (E : Env) (encoder : Nat) (source : Nat) (destination : Nat) (copy_size : Nat) : Outcome :=
  forwardVoid E ⟨.wgpuCommandEncoderCopyBufferToTexture, [.word encoder, .word source, .word destination, .word copy_size]⟩

def zwgpuCommandEncoderCopyTextureToBuffer (E : Env) (encoder : Nat) (source : Nat) (destination : Nat) (copy_size : Nat) : Outcome :=
  forwardVoid E ⟨.wgpuCommandEncoderCopyTextureToBuffer, [.word encoder, .word source, .word destination, .word copy_size]⟩

def zwgpuCommandEncoderCopyTextureToTexture (E : Env) (encoder : Nat) (source : Nat) (destination : Nat) (copy_size : Nat) : Outcome :=
  forwardVoid E ⟨.wgpuCommandEncoderCopyTextureToTexture, [.word encoder, .word source, .word destination, .word copy_size]⟩

def zwgpuCommandEncoderFinish (E : Env) (encoder : Nat) (descriptor : Nat) : Outcome :=
  forward E ⟨.wgpuCommandEncoderFinish, [.word encoder, .word descriptor]⟩

def zwgpuCommandEncoderRelease (E : Env) (encoder : Nat) : Outcome :=
  forwardVoid E ⟨.wgpuCommandEncoderRelease, [.word encoder]⟩

def zwgpuRenderPassEncoderSetScissorRect (E : Env) (encoder : Nat) (x : Nat) (y : Nat) (width : Nat) (height : Nat) : Outcome :=
  forwardVoid E ⟨.wgpuRenderPassEncoderSetScissorRect, [.word encoder, .word x, .word y, .word width, .word height]⟩

def zwgpuRenderPassEncoderSetViewport (E : Env) (encoder : Nat) (x : Nat) (y : Nat) (width : Nat) (height : Nat) (min_depth : Nat) (max_depth : Nat) : Outcome :=
  forwardVoid E ⟨.wgpuRenderPassEncoderSetViewport, [.word encoder, .float x, .float y, .float width, .float height, .float min_depth, .float max_depth]⟩

def zwgpuRenderPassEncoderSetPipeline (E : Env) (encoder : Nat) (pipeline : Nat) : Outcome :=
  forwardVoid E ⟨.wgpuRenderPassEncoderSetPipeline, [.word encoder, .word pipeline]⟩

def zwgpuRenderPassEncoderSetBindGroup (E : Env) (encoder : Nat) (group_index : Nat) (group : Nat) (dynamic_offset_count : Nat) (dynamic_offsets : Nat) : Outcome :=
  forwardVoid E ⟨.wgpuRenderPassEncoderSetBindGroup, [.word encoder, .word group_index, .word group, .word (toSizeT E.sizeBits dynamic_offset_count), .word dynamic_offsets]⟩

def zwgpuRenderPassEncoderSetVertexBuffer (E : Env) (encoder : Nat) (slot : Nat) (buffer : Nat) (offset : Nat) (size : Nat) : Outcome :=
  forwardVoid E ⟨.wgpuRenderPassEncoderSetVertexBuffer, [.word encoder, .word slot, .word buffer, .word offset, .word size]⟩

def zwgpuRenderPassEncoderSetIndexBuffer (E : Env) (encoder : Nat) (buffer : Nat) (format : Nat) (offset : Nat) (size : Nat) : Outcome :=
  forwardVoid E ⟨.wgpuRenderPassEncoderSetIndexBuffer, [.word encoder, .word buffer, .word format, .word offset, .word size]⟩

def zwgpuRenderPassEncoderDraw (E : Env) (encoder : Nat) (vertex_count : Nat) (instance_count : Nat) (first_vertex : Nat) (first_instance : Nat) : Outcome :=
  forwardVoid E ⟨.wgpuRenderPassEncoderDraw, [.word encoder, .word vertex_count, .word instance_count, .word first_vertex, .word first_instance]⟩

def zwgpuRenderPassEncoderDrawIndexed (E : Env) (encoder : Nat) (index_count : Nat) (instance_count : Nat) (first_index : Nat) (base_vertex : Int) (first_instance : Nat) : Outcome :=
  forwardVoid E ⟨.wgpuRenderPassEncoderDrawIndexed, [.word encoder, .word index_count, .word instance_count, .word first_index, .int base_vertex, .word first_instance]⟩

def zwgpuRenderPassEncoderEnd (E : Env) (encoder : Nat) : Outcome :=
  forwardVoid E ⟨.wgpuRenderPassEncoderEnd, [.word encoder]⟩

def zwgpuRenderPassEncoderRelease (E : Env) (encoder : Nat) : Outcome :=
  forwardVoid E ⟨.wgpuRenderPassEncoderRelease, [.word encoder]⟩

def zwgpuComputePassEncoderSetPipeline (E : Env) (encoder : Nat) (pipeline : Nat) : Outcome :=
  forwardVoid E ⟨.wgpuComputePassEncoderSetPipeline, [.word encoder, .word pipeline]⟩

def zwgpuComputePassEncoderSetBindGroup (E : Env) (encoder : Nat) (group_index : Nat) (group : Nat) (dynamic_offset_count : Nat) (dynamic_offsets : Nat) : Outcome :=
  forwardVoid E ⟨.wgpuComputePassEncoderSetBindGroup, [.word encoder, .word group_index, .word group, .word (toSizeT E.sizeBits dynamic_offset_count), .word dynamic_offsets]⟩

def zwgpuComputePassEncoderDispatchWorkgroups (E : Env) (encoder : Nat) (count_x : Nat) (count_y : Nat) (count_z : Nat) : Outcome :=
  forwardVoid E ⟨.wgpuComputePassEncoderDispatchWorkgroups, [.word encoder, .word count_x, .word count_y, .word count_z]⟩

def zwgpuComputePassEncoderDispatchWorkgroupsIndirect (E : Env) (encoder : Nat) (indirect_buffer : Nat) (indirect_offset : Nat) : Outcome :=
  forwardVoid E ⟨.wgpuComputePassEncoderDispatchWorkgroupsIndirect, [.word encoder, .word indirect_buffer, .word indirect_offset]⟩

def zwgpuComputePassEncoderEnd (E : Env) (encoder : Nat) : Outcome :=
  forwardVoid E ⟨.wgpuComputePassEncoderEnd, [.word encoder]⟩

def zwgpuComputePassEncoderRelease (E : Env) (encoder : Nat) : Outcome :=
  forwardVoid E ⟨.wgpuComputePassEncoderRelease, [.word encoder]⟩

def zwgpuCommandBufferRelease (E : Env) (command_buffer : Nat) : Outcome :=
  forwardVoid E ⟨.wgpuCommandBufferRelease, [.word command_buffer]⟩

def zwgpuSurfaceConfigure (E : Env) (surface : Nat) (config : Nat) : Outcome :=
  forwardVoid E ⟨.wgpuSurfaceConfigure, [.word surface, .word config]⟩

def zwgpuSurfaceUnconfigure (E : Env) (surface : Nat) : Outcome :=
  forwardVoid E ⟨.wgpuSurfaceUnconfigure, [.word surface]⟩

def zwgpuSurfaceGetCurrentTexture (E : Env) (surface : Nat) (surface_texture : Nat) : Outcome :=
  forwardVoid E ⟨.wgpuSurfaceGetCurrentTexture, [.word surface, .word surface_texture]⟩

def zwgpuSurfacePresent (E : Env) (surface : Nat) : Outcome :=
  forwardVoid E ⟨.wgpuSurfacePresent, [.word surface]⟩

def zwgpuSurfaceRelease (E : Env) (surface : Nat) : Outcome :=
  forwardVoid E ⟨.wgpuSurfaceRelease, [.word surface]⟩

def zwgpuInstanceRequestAdapter (E : Env) (m : Mem) (inst : Nat) (options : Nat) (callback_info_ptr : Nat) : Option Outcome :=
  if callback_info_ptr = NULL then
    let dummy_future : WGPUFuture := ⟨0⟩
    some ⟨[Event.print "[C WRAPPER ERROR] zwgpuInstanceRequestAdapter: callback_info_ptr is NULL!\n"], some dummy_future.id⟩
  else
    match m.loadStruct callback_info_ptr with
    | none => none
    | some s => some (forwardFuture E ⟨.wgpuInstanceRequestAdapter, [.word inst, .word options, .struct s]⟩)

def zwgpuAdapterRequestDevice (E : Env) (m : Mem) (adapter : Nat) (descriptor : Nat) (callback_info_ptr : Nat) : Option Outcome :=
  if callback_info_ptr = NULL then
    let dummy_future : WGPUFuture := ⟨0⟩
    some ⟨[Event.print "[C WRAPPER ERROR] zwgpuAdapterRequestDevice: callback_info_ptr is NULL!\n"], some dummy_future.id⟩
  else
    match m.loadStruct callback_info_ptr with
    | none => none
    | some s => some (forwardFuture E ⟨.wgpuAdapterRequestDevice, [.word adapter, .word descriptor, .struct s]⟩)

def zwgpuDevicePopErrorScope (E : Env) (m : Mem) (device : Nat) (callback_info_ptr : Nat) : Option Outcome :=
  if callback_info_ptr = NULL then
    let dummy_future : WGPUFuture := ⟨0⟩
    some ⟨[Event.print "[C WRAPPER ERROR] zwgpuDevicePopErrorScope: callback_info_ptr is NULL!\n"], some dummy_future.id⟩
  else
    match m.loadStruct callback_info_ptr with
    | none => none
    | some s => some (forwardFuture E ⟨.wgpuDevicePopErrorScope, [.word device, .struct s]⟩)

def zwgpuQueueOnSubmittedWorkDone (E : Env) (m : Mem) (queue : Nat) (callback_info_ptr : Nat) : Option Outcome :=
  if callback_info_ptr = NULL then
    let dummy_future : WGPUFuture := ⟨0⟩
    some ⟨[Event.print "[C WRAPPER ERROR] zwgpuQueueOnSubmittedWorkDone: callback_info_ptr is NULL!\n"], some dummy_future.id⟩
  else
    match m.loadStruct callback_info_ptr with
    | none => none
    | some s => some (forwardFuture E ⟨.wgpuQueueOnSubmittedWorkDone, [.word queue, .struct s]⟩)

def zwgpuBufferMapAsync (E : Env) (m : Mem) (buffer : Nat) (mode : Nat) (offset : Nat) (size : Nat) (callback_info_ptr : Nat) : Option Outcome :=
  if callback_info_ptr = NULL then
    let dummy_future : WGPUFuture := ⟨0⟩
    some ⟨[Event.print "[C WRAPPER ERROR] zwgpuBufferMapAsync: callback_info_ptr is NULL!\n"], some dummy_future.id⟩
  else
    match m.loadStruct callback_info_ptr with
    | none => none
    | some s => some (forwardFuture E ⟨.wgpuBufferMapAsync, [.word buffer, .word mode, .word offset, .word size, .struct s]⟩)

def zwgpuShaderModuleGetCompilationInfo (E : Env) (m : Mem) (shader_module : Nat) (callback_info_ptr : Nat) : Option Outcome :=
  if callback_info_ptr = NULL then
    let dummy_future : WGPUFuture := ⟨0⟩
    some ⟨[Event.print "[C WRAPPER ERROR] zwgpuShaderModuleGetCompilationInfo: callback_info_ptr is NULL!\n"], some dummy_future.id⟩
  else
    match m.loadStruct callback_info_ptr with
    | none => none
    | some s => some (forwardFuture E ⟨.wgpuShaderModuleGetCompilationInfo, [.word shader_module, .struct s]⟩)

def zwgpuAdapterInfoFreeMembers (E : Env) (m : Mem) (value_ptr : Nat) : Option Outcome :=
  if value_ptr = NULL then
    some ⟨[Event.print "[C WRAPPER ERROR] zwgpuAdapterInfoFreeMembers: value_ptr is NULL!\n"], none⟩
  else
    match m.loadStruct value_ptr with
    | none => none
    | some s => some (forwardVoid E ⟨.wgpuAdapterInfoFreeMembers, [.struct s]⟩)

def zwgpuSurfaceCapabilitiesFreeMembers (E : Env) (m : Mem) (value_ptr : Nat) : Option Outcome :=
  if value_ptr = NULL then
    some ⟨[Event.print "[C WRAPPER ERROR] zwgpuSurfaceCapabilitiesFreeMembers: value_ptr is NULL!\n"], none⟩
  else
    match m.loadStruct value_ptr with
    | none => none
    | some s => some (forwardVoid E ⟨.wgpuSurfaceCapabilitiesFreeMembers, [.struct s]⟩)

def zwgpuSupportedFeaturesFreeMembers (E : Env) (m : Mem) (value_ptr : Nat) : Option Outcome :=
  if value_ptr = NULL then
    some ⟨[Event.print "[C WRAPPER ERROR] zwgpuSupportedFeaturesFreeMembers: value_ptr is NULL!\n"], none⟩
  else
    match m.loadFeatures value_ptr with
    | none => none
    | some s => some (forwardVoid E ⟨.wgpuSupportedFeaturesFreeMembers, [.features s]⟩)

def zwgpuSharedBufferMemoryEndAccessStateFreeMembers (E : Env) (m : Mem) (value_ptr : Nat) : Option Outcome :=
  if value_ptr = NULL then
    some ⟨[Event.print "[C WRAPPER ERROR] zwgpuSharedBufferMemoryEndAccessStateFreeMembers: value_ptr is NULL!\n"], none⟩
  else
    match m.loadStruct value_ptr with
    | none => none
    | some s => some (forwardVoid E ⟨.wgpuSharedBufferMemoryEndAccessStateFreeMembers, [.struct s]⟩)

def zwgpuSharedTextureMemoryEndAccessStateFreeMembers (E : Env) (m : Mem) (value_ptr : Nat) : Option Outcome :=
  if value_ptr = NULL then
    some ⟨[Event.print "[C WRAPPER ERROR] zwgpuSharedTextureMemoryEndAccessStateFreeMembers: value_ptr is NULL!\n"], none⟩
  else
    match m.loadStruct value_ptr with
    | none => none
    | some s => some (forwardVoid E ⟨.wgpuSharedTextureMemoryEndAccessStateFreeMembers, [.struct s]⟩)

/-- The routine `zwgpuDeviceGetFeatures` of `src/c/lib.c`: the feature names are
copied into the storage the caller's struct already points to.  The memory `m`
is the memory as `wgpuDeviceGetFeatures` leaves it; the wrapper touches no
memory before that call. -/
def zwgpuDeviceGetFeatures (E : Env) (m : Mem) (device : Nat) (js_features_struct_ptr : Nat) :
    Option (Outcome × Mem) :=
  let temp_dawn_features_struct : WGPUSupportedFeatures := E.nativeFeatures device
  let get := Event.call ⟨.wgpuDeviceGetFeatures, [.word device, .tempRef]⟩
  let free := Event.call ⟨.wgpuSupportedFeaturesFreeMembers, [.features temp_dawn_features_struct]⟩
  if temp_dawn_features_struct.featureCount > 0 ∧ temp_dawn_features_struct.features ≠ NULL then
    match m.loadFeatures js_features_struct_ptr with
    | none => none
    | some js =>
      let len := toSizeT E.sizeBits (sizeof_WGPUFeatureName * temp_dawn_features_struct.featureCount)
      match memcpy m js.features temp_dawn_features_struct.features len with
      | none => none
      | some m1 =>
        match m1.storeFeatureCount js_features_struct_ptr temp_dawn_features_struct.featureCount with
        | none => none
        | some m2 =>
          some (⟨[get, Event.memcpy js.features temp_dawn_features_struct.features len, free], none⟩, m2)
  else
    match m.storeFeatureCount js_features_struct_ptr 0 with
    | none => none
    | some m1 =>
      match m1.storeFeaturesPtr js_features_struct_ptr NULL with
      | none => none
      | some m2 => some (⟨[get, free], none⟩, m2)

end C

/-! ## The wrappers of `src/zig-c/lib.c`

Each definition transcribes the exported function of the same name.  Here the
callback infos and the structs of the `FreeMembers` routines are parameters
passed by value, and no wrapper has a null guard. -/

namespace ZigC

def zwgpuCreateInstance (E : Env) (descriptor : Nat) : Outcome :=
  forward E ⟨.wgpuCreateInstance, [.word descriptor]⟩

def zwgpuInstanceRelease (E : Env) (inst : Nat) : Outcome :=
  forwardVoid E ⟨.wgpuInstanceRelease, [.word inst]⟩

def zwgpuInstanceRequestAdapter (E : Env) (inst : Nat) (options : Nat) (callback_info : StructVal) : Outcome :=
  forwardFuture E ⟨.wgpuInstanceRequestAdapter, [.word inst, .word options, .struct callback_info]⟩

def zwgpuInstanceCreateSurface (E : Env) (inst : Nat) (descriptor : Nat) : Outcome :=
  forward E ⟨.wgpuInstanceCreateSurface, [.word inst, .word descriptor]⟩

def zwgpuInstanceProcessEvents (E : Env) (inst : Nat) : Outcome :=
  forwardVoid E ⟨.wgpuInstanceProcessEvents, [.word inst]⟩

def zwgpuInstanceWaitAny (E : Env) (inst : Nat) (future_count : Nat) (futures : Nat) (timeout_ns : Nat) : Outcome :=
  forward E ⟨.wgpuInstanceWaitAny, [.word inst, .word (toSizeT E.sizeBits future_count), .word futures, .word timeout_ns]⟩

def zwgpuInstanceAddRef (E : Env) (inst : Nat) : Outcome :=
  forwardVoid E ⟨.wgpuInstanceAddRef, [.word inst]⟩

def zwgpuAdapterRelease (E : Env) (adapter : Nat) : Outcome :=
  forwardVoid E ⟨.wgpuAdapterRelease, [.word adapter]⟩

def zwgpuAdapterGetInfo (E : Env) (adapter : Nat) (info_ptr : Nat) : Outcome :=
  forward E ⟨.wgpuAdapterGetInfo, [.word adapter, .word info_ptr]⟩

def zwgpuAdapterRequestDevice (E : Env) (adapter : Nat) (descriptor : Nat) (callback_info : StructVal) : Outcome :=
  forwardFuture E ⟨.wgpuAdapterRequestDevice, [.word adapter, .word descriptor, .struct callback_info]⟩

def zwgpuAdapterCreateDevice (E : Env) (adapter : Nat) (descriptor : Nat) : Outcome :=
  forward E ⟨.wgpuAdapterCreateDevice, [.word adapter, .word descriptor]⟩

def zwgpuAdapterGetFeatures (E : Env) (adapter : Nat) (features : Nat) : Outcome :=
  forwardVoid E ⟨.wgpuAdapterGetFeatures, [.word adapter, .word features]⟩

def zwgpuAdapterGetLimits (E : Env) (adapter : Nat) (limits : Nat) : Outcome :=
  forward E ⟨.wgpuAdapterGetLimits, [.word adapter, .word limits]⟩

def zwgpuDeviceRelease (E : Env) (device : Nat) : Outcome :=
  forwardVoid E ⟨.wgpuDeviceRelease, [.word device]⟩

def zwgpuDeviceGetQueue (E : Env) (device : Nat) : Outcome :=
  forward E ⟨.wgpuDeviceGetQueue, [.word device]⟩

def zwgpuDeviceCreateBuffer (E : Env) (device : Nat) (descriptor : Nat) : Outcome :=
  forward E ⟨.wgpuDeviceCreateBuffer, [.word device, .word descriptor]⟩

def zwgpuDeviceCreateTexture (E : Env) (device : Nat) (descriptor : Nat) : Outcome :=
  forward E ⟨.wgpuDeviceCreateTexture, [.word device, .word descriptor]⟩

def zwgpuDeviceCreateSampler (E : Env) (device : Nat) (descriptor : Nat) : Outcome :=
  forward E ⟨.wgpuDeviceCreateSampler, [.word device, .word descriptor]⟩

def zwgpuDeviceCreateShaderModule (E : Env) (device : Nat) (descriptor : Nat) : Outcome :=
  forward E ⟨.wgpuDeviceCreateShaderModule, [.word device, .word descriptor]⟩

def zwgpuDeviceCreateBindGroupLayout (E : Env) (device : Nat) (descriptor : Nat) : Outcome :=
  forward E ⟨.wgpuDeviceCreateBindGroupLayout, [.word device, .word descriptor]⟩

def zwgpuDeviceCreateBindGroup (E : Env) (device : Nat) (descriptor : Nat) : Outcome :=
  forward E ⟨.wgpuDeviceCreateBindGroup, [.word device, .word descriptor]⟩

def zwgpuDeviceCreatePipelineLayout (E : Env) (device : Nat) (descriptor : Nat) : Outcome :=
  forward E ⟨.wgpuDeviceCreatePipelineLayout, [.word device, .word descriptor]⟩

def zwgpuDeviceCreateRenderPipeline (E : Env) (device : Nat) (descriptor : Nat) : Outcome :=
  forward E ⟨.wgpuDeviceCreateRenderPipeline, [.word device, .word descriptor]⟩

def zwgpuDeviceCreateComputePipeline (E : Env) (device : Nat) (descriptor : Nat) : Outcome :=
  forward E ⟨.wgpuDeviceCreateComputePipeline, [.word device, .word descriptor]⟩

def zwgpuDeviceCreateCommandEncoder (E : Env) (device : Nat) (descriptor : Nat) : Outcome :=
  forward E ⟨.wgpuDeviceCreateCommandEncoder, [.word device, .word descriptor]⟩

def zwgpuDeviceCreateQuerySet (E : Env) (device : Nat) (descriptor : Nat) : Outcome :=
  forward E ⟨.wgpuDeviceCreateQuerySet, [.word device, .word descriptor]⟩

def zwgpuDeviceGetLimits (E : Env) (device : Nat) (limits : Nat) : Outcome :=
  forward E ⟨.wgpuDeviceGetLimits, [.word device, .word limits]⟩

def zwgpuDeviceHasFeature (E : Env) (device : Nat) (feature : Nat) : Outcome :=
  forwardBool E ⟨.wgpuDeviceHasFeature, [.word device, .word feature]⟩

def zwgpuDevicePushErrorScope (E : Env) (device : Nat) (filter : Nat) : Outcome :=
  forwardVoid E ⟨.wgpuDevicePushErrorScope, [.word device, .word filter]⟩

def zwgpuDevicePopErrorScope (E : Env) (device : Nat) (callback_info : StructVal) : Outcome :=
  forwardFuture E ⟨.wgpuDevicePopErrorScope, [.word device, .struct callback_info]⟩

def zwgpuDeviceTick (E : Env) (device : Nat) : Outcome :=
  forwardVoid E ⟨.wgpuDeviceTick, [.word device]⟩

def zwgpuDeviceDestroy (E : Env) (device : Nat) : Outcome :=
  forwardVoid E ⟨.wgpuDeviceDestroy, [.word device]⟩

def zwgpuQueueRelease (E : Env) (queue : Nat) : Outcome :=
  forwardVoid E ⟨.wgpuQueueRelease, [.word queue]⟩

def zwgpuQueueSubmit (E : Env) (queue : Nat) (command_count : Nat) (commands : Nat) : Outcome :=
  forwardVoid E ⟨.wgpuQueueSubmit, [.word queue, .word (toSizeT E.sizeBits command_count), .word commands]⟩

def zwgpuQueueWriteBuffer (E : Env) (queue : Nat) (buffer : Nat) (buffer_offset : Nat) (data : Nat) (size : Nat) : Outcome :=
  forwardVoid E ⟨.wgpuQueueWriteBuffer, [.word queue, .word buffer, .word buffer_offset, .word data, .word (toSizeT E.sizeBits size)]⟩

def zwgpuQueueWriteTexture (E : Env) (queue : Nat) (destination : Nat) (data : Nat) (data_size : Nat) (data_layout : Nat) (write_size : Nat) : Outcome :=
  forwardVoid E ⟨.wgpuQueueWriteTexture, [.word queue, .word destination, .word data, .word data_size, .word data_layout, .word write_size]⟩

def zwgpuQueueOnSubmittedWorkDone (E : Env) (queue : Nat) (callback_info : StructVal) : Outcome :=
  forwardFuture E ⟨.wgpuQueueOnSubmittedWorkDone, [.word queue, .struct callback_info]⟩

def zwgpuBufferMapAsync (E : Env) (buffer : Nat) (mode : Nat) (offset : Nat) (size : Nat) (callback_info : StructVal) : Outcome :=
  forwardFuture E ⟨.wgpuBufferMapAsync, [.word buffer, .word mode, .word offset, .word size, .struct callback_info]⟩

def zwgpuBufferUnmap (E : Env) (buffer : Nat) : Outcome :=
  forwardVoid E ⟨.wgpuBufferUnmap, [.word buffer]⟩

def zwgpuBufferRelease (E : Env) (buffer : Nat) : Outcome :=
  forwardVoid E ⟨.wgpuBufferRelease, [.word buffer]⟩

def zwgpuBufferGetMappedRange (E : Env) (buffer : Nat) (offset : Nat) (size : Nat) : Outcome :=
  forward E ⟨.wgpuBufferGetMappedRange, [.word buffer, .word (toSizeT E.sizeBits offset), .word (toSizeT E.sizeBits size)]⟩

def zwgpuBufferGetConstMappedRange (E : Env) (buffer : Nat) (offset : Nat) (size : Nat) : Outcome :=
  forward E ⟨.wgpuBufferGetConstMappedRange, [.word buffer, .word (toSizeT E.sizeBits offset), .word (toSizeT E.sizeBits size)]⟩

def zwgpuBufferDestroy (E : Env) (buffer : Nat) : Outcome :=
  forwardVoid E ⟨.wgpuBufferDestroy, [.word buffer]⟩

def zwgpuTextureCreateView (E : Env) (texture : Nat) (descriptor : Nat) : Outcome :=
  forward E ⟨.wgpuTextureCreateView, [.word texture, .word descriptor]⟩

def zwgpuTextureDestroy (E : Env) (texture : Nat) : Outcome :=
  forwardVoid E ⟨.wgpuTextureDestroy, [.word texture]⟩

def zwgpuTextureRelease (E : Env) (texture : Nat) : Outcome :=
  forwardVoid E ⟨.wgpuTextureRelease, [.word texture]⟩

def zwgpuTextureViewRelease (E : Env) (texture_view : Nat) : Outcome :=
  forwardVoid E ⟨.wgpuTextureViewRelease, [.word texture_view]⟩

def zwgpuSamplerRelease (E : Env) (sampler : Nat) : Outcome :=
  forwardVoid E ⟨.wgpuSamplerRelease, [.word sampler]⟩

def zwgpuShaderModuleGetCompilationInfo (E : Env) (shader_module : Nat) (callback_info : StructVal) : Outcome :=
  forwardFuture E ⟨.wgpuShaderModuleGetCompilationInfo, [.word shader_module, .struct callback_info]⟩

def zwgpuShaderModuleRelease (E : Env) (shader_module : Nat) : Outcome :=
  forwardVoid E ⟨.wgpuShaderModuleRelease, [.word shader_module]⟩

def zwgpuBindGroupLayoutRelease (E : Env) (bind_group_layout : Nat) : Outcome :=
  forwardVoid E ⟨.wgpuBindGroupLayoutRelease, [.word bind_group_layout]⟩

def zwgpuBindGroupRelease (E : Env) (bind_group : Nat) : Outcome :=
  forwardVoid E ⟨.wgpuBindGroupRelease, [.word bind_group]⟩

def zwgpuPipelineLayoutRelease (E : Env) (pipeline_layout : Nat) : Outcome :=
  forwardVoid E ⟨.wgpuPipelineLayoutRelease, [.word pipeline_layout]⟩

def zwgpuQuerySetDestroy (E : Env) (query_set : Nat) : Outcome :=
  forwardVoid E ⟨.wgpuQuerySetDestroy, [.word query_set]⟩

def zwgpuQuerySetRelease (E : Env) (query_set : Nat) : Outcome :=
  forwardVoid E ⟨.wgpuQuerySetRelease, [.word query_set]⟩

def zwgpuRenderPipelineRelease (E : Env) (render_pipeline : Nat) : Outcome :=
  forwardVoid E ⟨.wgpuRenderPipelineRelease, [.word render_pipeline]⟩

def zwgpuComputePipelineRelease (E : Env) (compute_pipeline : Nat) : Outcome :=
  forwardVoid E ⟨.wgpuComputePipelineRelease, [.word compute_pipeline]⟩

def zwgpuCommandEncoderBeginRenderPass (E : Env) (encoder : Nat) (descriptor : Nat) : Outcome :=
  forward E ⟨.wgpuCommandEncoderBeginRenderPass, [.word encoder, .word descriptor]⟩

def zwgpuCommandEncoderBeginComputePass (E : Env) (encoder : Nat) (descriptor : Nat) : Outcome :=
  forward E ⟨.wgpuCommandEncoderBeginComputePass, [.word encoder, .word descriptor]⟩

def zwgpuCommandEncoderClearBuffer (E : Env) (encoder : Nat) (buffer : Nat) (offset : Nat) (size : Nat) : Outcome :=
  forwardVoid E ⟨.wgpuCommandEncoderClearBuffer, [.word encoder, .word buffer, .word offset, .word size]⟩

def zwgpuCommandEncoderCopyBufferToBuffer (E : Env) (encoder : Nat) (source : Nat) (source_offset : Nat) (destination : Nat) (destination_offset : Nat) (size : Nat) : Outcome :=
  forwardVoid E ⟨.wgpuCommandEncoderCopyBufferToBuffer, [.word encoder, .word source, .word source_offset, .word destination, .word destination_offset, .word size]⟩

def zwgpuCommandEncoderCopyBufferToTexture (E : Env) (encoder : Nat) (source : Nat) (destination : Nat) (copy_size : Nat) : Outcome :=
  forwardVoid E ⟨.wgpuCommandEncoderCopyBufferToTexture, [.word encoder, .word source, .word destination, .word copy_size]⟩

def zwgpuCommandEncoderCopyTextureToBuffer (E : Env) (encoder : Nat) (source : Nat) (destination : Nat) (copy_size : Nat) : Outcome :=
  forwardVoid E ⟨.wgpuCommandEncoderCopyTextureToBuffer, [.word encoder, .word source, .word destination, .word copy_size]⟩

def zwgpuCommandEncoderCopyTextureToTexture (E : Env) (encoder : Nat) (source : Nat) (destination : Nat) (copy_size : Nat) : Outcome :=
  forwardVoid E ⟨.wgpuCommandEncoderCopyTextureToTexture, [.word encoder, .word source, .word destination, .word copy_size]⟩

def zwgpuCommandEncoderFinish (E : Env) (encoder : Nat) (descriptor : Nat) : Outcome :=
  forward E ⟨.wgpuCommandEncoderFinish, [.word encoder, .word descriptor]⟩

def zwgpuCommandEncoderRelease (E : Env) (encoder : Nat) : Outcome :=
  forwardVoid E ⟨.wgpuCommandEncoderRelease, [.word encoder]⟩

def zwgpuRenderPassEncoderSetScissorRect (E : Env) (encoder : Nat) (x : Nat) (y : Nat) (width : Nat) (height : Nat) : Outcome :=
  forwardVoid E ⟨.wgpuRenderPassEncoderSetScissorRect, [.word encoder, .word x, .word y, .word width, .word height]⟩

def zwgpuRenderPassEncoderSetViewport (E : Env) (encoder : Nat) (x : Nat) (y : Nat) (width : Nat) (height : Nat) (min_depth : Nat) (max_depth : Nat) : Outcome :=
  forwardVoid E ⟨.wgpuRenderPassEncoderSetViewport, [.word encoder, .float x, .float y, .float width, .float height, .float min_depth, .float max_depth]⟩

def zwgpuRenderPassEncoderSetPipeline (E : Env) (encoder : Nat) (pipeline : Nat) : Outcome :=
  forwardVoid E ⟨.wgpuRenderPassEncoderSetPipeline, [.word encoder, .word pipeline]⟩

def zwgpuRenderPassEncoderSetBindGroup (E : Env) (encoder : Nat) (group_index : Nat) (group : Nat) (dynamic_offset_count : Nat) (dynamic_offsets : Nat) : Outcome :=
  forwardVoid E ⟨.wgpuRenderPassEncoderSetBindGroup, [.word encoder, .word group_index, .word group, .word (toSizeT E.sizeBits dynamic_offset_count), .word dynamic_offsets]⟩

def zwgpuRenderPassEncoderSetVertexBuffer (E : Env) (encoder : Nat) (slot : Nat) (buffer : Nat) (offset : Nat) (size : Nat) : Outcome :=
  forwardVoid E ⟨.wgpuRenderPassEncoderSetVertexBuffer, [.word encoder, .word slot, .word buffer, .word offset, .word size]⟩

def zwgpuRenderPassEncoderSetIndexBuffer (E : Env) (encoder : Nat) (buffer : Nat) (format : Nat) (offset : Nat) (size : Nat) : Outcome :=
  forwardVoid E ⟨.wgpuRenderPassEncoderSetIndexBuffer, [.word encoder, .word buffer, .word format, .word offset, .word size]⟩

def zwgpuRenderPassEncoderDraw (E : Env) (encoder : Nat) (vertex_count : Nat) (instance_count : Nat) (first_vertex : Nat) (first_instance : Nat) : Outcome :=
  forwardVoid E ⟨.wgpuRenderPassEncoderDraw, [.word encoder, .word vertex_count, .word instance_count, .word first_vertex, .word first_instance]⟩

def zwgpuRenderPassEncoderDrawIndexed (E : Env) (encoder : Nat) (index_count : Nat) (instance_count : Nat) (first_index : Nat) (base_vertex : Int) (first_instance : Nat) : Outcome :=
  forwardVoid E ⟨.wgpuRenderPassEncoderDrawIndexed, [.word encoder, .word index_count, .word instance_count, .word first_index, .int base_vertex, .word first_instance]⟩

def zwgpuRenderPassEncoderEnd (E : Env) (encoder : Nat) : Outcome :=
  forwardVoid E ⟨.wgpuRenderPassEncoderEnd, [.word encoder]⟩

def zwgpuRenderPassEncoderRelease (E : Env) (encoder : Nat) : Outcome :=
  forwardVoid E ⟨.wgpuRenderPassEncoderRelease, [.word encoder]⟩

def zwgpuComputePassEncoderSetPipeline (E : Env) (encoder : Nat) (pipeline : Nat) : Outcome :=
  forwardVoid E ⟨.wgpuComputePassEncoderSetPipeline, [.word encoder, .word pipeline]⟩

def zwgpuComputePassEncoderSetBindGroup (E : Env) (encoder : Nat) (group_index : Nat) (group : Nat) (dynamic_offset_count : Nat) (dynamic_offsets : Nat) : Outcome :=
  forwardVoid E ⟨.wgpuComputePassEncoderSetBindGroup, [.word encoder, .word group_index, .word group, .word (toSizeT E.sizeBits dynamic_offset_count), .word dynamic_offsets]⟩

def zwgpuComputePassEncoderDispatchWorkgroups (E : Env) (encoder : Nat) (count_x : Nat) (count_y : Nat) (count_z : Nat) : Outcome :=
  forwardVoid E ⟨.wgpuComputePassEncoderDispatchWorkgroups, [.word encoder, .word count_x, .word count_y, .word count_z]⟩

def zwgpuComputePassEncoderDispatchWorkgroupsIndirect (E : Env) (encoder : Nat) (indirect_buffer : Nat) (indirect_offset : Nat) : Outcome :=
  forwardVoid E ⟨.wgpuComputePassEncoderDispatchWorkgroupsIndirect, [.word encoder, .word indirect_buffer, .word indirect_offset]⟩

def zwgpuComputePassEncoderEnd (E : Env) (encoder : Nat) : Outcome :=
  forwardVoid E ⟨.wgpuComputePassEncoderEnd, [.word encoder]⟩

def zwgpuComputePassEncoderRelease (E : Env) (encoder : Nat) : Outcome :=
  forwardVoid E ⟨.wgpuComputePassEncoderRelease, [.word encoder]⟩

def zwgpuCommandBufferRelease (E : Env) (command_buffer : Nat) : Outcome :=
  forwardVoid E ⟨.wgpuCommandBufferRelease, [.word command_buffer]⟩

def zwgpuSurfaceConfigure (E : Env) (surface : Nat) (config : Nat) : Outcome :=
  forwardVoid E ⟨.wgpuSurfaceConfigure, [.word surface, .word config]⟩

def zwgpuSurfaceUnconfigure (E : Env) (surface : Nat) : Outcome :=
  forwardVoid E ⟨.wgpuSurfaceUnconfigure, [.word surface]⟩

def zwgpuSurfaceGetCurrentTexture (E : Env) (surface : Nat) (surface_texture : Nat) : Outcome :=
  forwardVoid E ⟨.wgpuSurfaceGetCurrentTexture, [.word surface, .word surface_texture]⟩

def zwgpuSurfacePresent (E : Env) (surface : Nat) : Outcome :=
  forwardVoid E ⟨.wgpuSurfacePresent, [.word surface]⟩

def zwgpuSurfaceRelease (E : Env) (surface : Nat) : Outcome :=
  forwardVoid E ⟨.wgpuSurfaceRelease, [.word surface]⟩

def zwgpuAdapterInfoFreeMembers (E : Env) (value : StructVal) : Outcome :=
  forwardVoid E ⟨.wgpuAdapterInfoFreeMembers, [.struct value]⟩

def zwgpuSurfaceCapabilitiesFreeMembers (E : Env) (value : StructVal) : Outcome :=
  forwardVoid E ⟨.wgpuSurfaceCapabilitiesFreeMembers, [.struct value]⟩

def zwgpuSupportedFeaturesFreeMembers (E : Env) (value : WGPUSupportedFeatures) : Outcome :=
  forwardVoid E ⟨.wgpuSupportedFeaturesFreeMembers, [.features value]⟩

def zwgpuSharedBufferMemoryEndAccessStateFreeMembers (E : Env) (value : StructVal) : Outcome :=
  forwardVoid E ⟨.wgpuSharedBufferMemoryEndAccessStateFreeMembers, [.struct value]⟩

def zwgpuSharedTextureMemoryEndAccessStateFreeMembers (E : Env) (value : StructVal) : Outcome :=
  forwardVoid E ⟨.wgpuSharedTextureMemoryEndAccessStateFreeMembers, [.struct value]⟩

/-- The routine `zwgpuDeviceGetFeatures` of `src/zig-c/lib.c`: the feature names
are copied into storage obtained from `malloc`, which is handed to the caller.
The memory `m` is the memory as `wgpuDeviceGetFeatures` leaves it. -/
def zwgpuDeviceGetFeatures (E : Env) (m : Mem) (device : Nat) (js_features_struct_ptr : Nat) :
    Option (Outcome × Mem) :=
  let temp_dawn_features_struct : WGPUSupportedFeatures := E.nativeFeatures device
  let get := Event.call ⟨.wgpuDeviceGetFeatures, [.word device, .tempRef]⟩
  let free := Event.call ⟨.wgpuSupportedFeaturesFreeMembers, [.features temp_dawn_features_struct]⟩
  if temp_dawn_features_struct.featureCount > 0 ∧ temp_dawn_features_struct.features ≠ NULL then
    let size := toSizeT E.sizeBits (sizeof_WGPUFeatureName * temp_dawn_features_struct.featureCount)
    let arena_features_array := (malloc E m size).1
    let m0 := (malloc E m size).2
    if arena_features_array = NULL then
      match m0.storeFeatureCount js_features_struct_ptr 0 with
      | none => none
      | some m1 =>
        match m1.storeFeaturesPtr js_features_struct_ptr NULL with
        | none => none
        | some m2 => some (⟨[get, Event.malloc size arena_features_array, free], none⟩, m2)
    else
      match memcpy m0 arena_features_array temp_dawn_features_struct.features size with
      | none => none
      | some m1 =>
        match m1.storeFeatureCount js_features_struct_ptr temp_dawn_features_struct.featureCount with
        | none => none
        | some m2 =>
          match m2.storeFeaturesPtr js_features_struct_ptr arena_features_array with
          | none => none
          | some m3 =>
            some (⟨[get, Event.malloc size arena_features_array,
              Event.memcpy arena_features_array temp_dawn_features_struct.features size, free], none⟩, m3)
  else
    match m.storeFeatureCount js_features_struct_ptr 0 with
    | none => none
    | some m1 =>
      match m1.storeFeaturesPtr js_features_struct_ptr NULL with
      | none => none
      | some m2 => some (⟨[get, free], none⟩, m2)

end ZigC

/-! ## Invocations

To speak of every wrapper at once, an invocation names a wrapper together with
its arguments in the order of its parameter list. -/

/-- An invocation of one of the wrappers whose text is the same in both files:
no null guard, no feature copy and no struct parameter. -/
inductive Plain
  | zwgpuCreateInstance (descriptor : Nat)
  | zwgpuInstanceRelease (inst : Nat)
  | zwgpuInstanceCreateSurface (inst : Nat) (descriptor : Nat)
  | zwgpuInstanceProcessEvents (inst : Nat)
  | zwgpuInstanceWaitAny (inst : Nat) (future_count : Nat) (futures : Nat) (timeout_ns : Nat)
  | zwgpuInstanceAddRef (inst : Nat)
  | zwgpuAdapterRelease (adapter : Nat)
  | zwgpuAdapterGetInfo (adapter : Nat) (info_ptr : Nat)
  | zwgpuAdapterCreateDevice (adapter : Nat) (descriptor : Nat)
  | zwgpuAdapterGetFeatures (adapter : Nat) (features : Nat)
  | zwgpuAdapterGetLimits (adapter : Nat) (limits : Nat)
  | zwgpuDeviceRelease (device : Nat)
  | zwgpuDeviceGetQueue (device : Nat)
  | zwgpuDeviceCreateBuffer (device : Nat) (descriptor : Nat)
  | zwgpuDeviceCreateTexture (device : Nat) (descriptor : Nat)
  | zwgpuDeviceCreateSampler (device : Nat) (descriptor : Nat)
  | zwgpuDeviceCreateShaderModule (device : Nat) (descriptor : Nat)
  | zwgpuDeviceCreateBindGroupLayout (device : Nat) (descriptor : Nat)
  | zwgpuDeviceCreateBindGroup (device : Nat) (descriptor : Nat)
  | zwgpuDeviceCreatePipelineLayout (device : Nat) (descriptor : Nat)
  | zwgpuDeviceCreateRenderPipeline (device : Nat) (descriptor : Nat)
  | zwgpuDeviceCreateComputePipeline (device : Nat) (descriptor : Nat)
  | zwgpuDeviceCreateCommandEncoder (device : Nat) (descriptor : Nat)
  | zwgpuDeviceCreateQuerySet (device : Nat) (descriptor : Nat)
  | zwgpuDeviceGetLimits (device : Nat) (limits : Nat)
  | zwgpuDeviceHasFeature (device : Nat) (feature : Nat)
  | zwgpuDevicePushErrorScope (device : Nat) (filter : Nat)
  | zwgpuDeviceTick (device : Nat)
  | zwgpuDeviceDestroy (device : Nat)
  | zwgpuQueueRelease (queue : Nat)
  | zwgpuQueueSubmit (queue : Nat) (command_count : Nat) (commands : Nat)
  | zwgpuQueueWriteBuffer (queue : Nat) (buffer : Nat) (buffer_offset : Nat) (data : Nat) (size : Nat)
  | zwgpuQueueWriteTexture (queue : Nat) (destination : Nat) (data : Nat) (data_size : Nat) (data_layout : Nat) (write_size : Nat)
  | zwgpuBufferUnmap (buffer : Nat)
  | zwgpuBufferRelease (buffer : Nat)
  | zwgpuBufferGetMappedRange (buffer : Nat) (offset : Nat) (size : Nat)
  | zwgpuBufferGetConstMappedRange (buffer : Nat) (offset : Nat) (size : Nat)
  | zwgpuBufferDestroy (buffer : Nat)
  | zwgpuTextureCreateView (texture : Nat) (descriptor : Nat)
  | zwgpuTextureDestroy (texture : Nat)
  | zwgpuTextureRelease (texture : Nat)
  | zwgpuTextureViewRelease (texture_view : Nat)
  | zwgpuSamplerRelease (sampler : Nat)
  | zwgpuShaderModuleRelease (shader_module : Nat)
  | zwgpuBindGroupLayoutRelease (bind_group_layout : Nat)
  | zwgpuBindGroupRelease (bind_group : Nat)
  | zwgpuPipelineLayoutRelease (pipeline_layout : Nat)
  | zwgpuQuerySetDestroy (query_set : Nat)
  | zwgpuQuerySetRelease (query_set : Nat)
  | zwgpuRenderPipelineRelease (render_pipeline : Nat)
  | zwgpuComputePipelineRelease (compute_pipeline : Nat)
  | zwgpuCommandEncoderBeginRenderPass (encoder : Nat) (descriptor : Nat)
  | zwgpuCommandEncoderBeginComputePass (encoder : Nat) (descriptor : Nat)
  | zwgpuCommandEncoderClearBuffer (encoder : Nat) (buffer : Nat) (offset : Nat) (size : Nat)
  | zwgpuCommandEncoderCopyBufferToBuffer (encoder : Nat) (source : Nat) (source_offset : Nat) (destination : Nat) (destination_offset : Nat) (size : Nat)
  | zwgpuCommandEncoderCopyBufferToTexture (encoder : Nat) (source : Nat) (destination : Nat) (copy_size : Nat)
  | zwgpuCommandEncoderCopyTextureToBuffer (encoder : Nat) (source : Nat) (destination : Nat) (copy_size : Nat)
  | zwgpuCommandEncoderCopyTextureToTexture (encoder : Nat) (source : Nat) (destination : Nat) (copy_size : Nat)
  | zwgpuCommandEncoderFinish (encoder : Nat) (descriptor : Nat)
  | zwgpuCommandEncoderRelease (encoder : Nat)
  | zwgpuRenderPassEncoderSetScissorRect (encoder : Nat) (x : Nat) (y : Nat) (width : Nat) (height : Nat)
  | zwgpuRenderPassEncoderSetViewport (encoder : Nat) (x : Nat) (y : Nat) (width : Nat) (height : Nat) (min_depth : Nat) (max_depth : Nat)
  | zwgpuRenderPassEncoderSetPipeline (encoder : Nat) (pipeline : Nat)
  | zwgpuRenderPassEncoderSetBindGroup (encoder : Nat) (group_index : Nat) (group : Nat) (dynamic_offset_count : Nat) (dynamic_offsets : Nat)
  | zwgpuRenderPassEncoderSetVertexBuffer (encoder : Nat) (slot : Nat) (buffer : Nat) (offset : Nat) (size : Nat)
  | zwgpuRenderPassEncoderSetIndexBuffer (encoder : Nat) (buffer : Nat) (format : Nat) (offset : Nat) (size : Nat)
  | zwgpuRenderPassEncoderDraw (encoder : Nat) (vertex_count : Nat) (instance_count : Nat) (first_vertex : Nat) (first_instance : Nat)
  | zwgpuRenderPassEncoderDrawIndexed (encoder : Nat) (index_count : Nat) (instance_count : Nat) (first_index : Nat) (base_vertex : Int) (first_instance : Nat)
  | zwgpuRenderPassEncoderEnd (encoder : Nat)
  | zwgpuRenderPassEncoderRelease (encoder : Nat)
  | zwgpuComputePassEncoderSetPipeline (encoder : Nat) (pipeline : Nat)
  | zwgpuComputePassEncoderSetBindGroup (encoder : Nat) (group_index : Nat) (group : Nat) (dynamic_offset_count : Nat) (dynamic_offsets : Nat)
  | zwgpuComputePassEncoderDispatchWorkgroups (encoder : Nat) (count_x : Nat) (count_y : Nat) (count_z : Nat)
  | zwgpuComputePassEncoderDispatchWorkgroupsIndirect (encoder : Nat) (indirect_buffer : Nat) (indirect_offset : Nat)
  | zwgpuComputePassEncoderEnd (encoder : Nat)
  | zwgpuComputePassEncoderRelease (encoder : Nat)
  | zwgpuCommandBufferRelease (command_buffer : Nat)
  | zwgpuSurfaceConfigure (surface : Nat) (config : Nat)
  | zwgpuSurfaceUnconfigure (surface : Nat)
  | zwgpuSurfaceGetCurrentTexture (surface : Nat) (surface_texture : Nat)
  | zwgpuSurfacePresent (surface : Nat)
  | zwgpuSurfaceRelease (surface : Nat)

/-- An invocation of one of the wrappers of `src/zig-c/lib.c` that take a struct
by value. -/
inductive ByValue
  | zwgpuInstanceRequestAdapter (inst : Nat) (options : Nat) (callback_info : StructVal)
  | zwgpuAdapterRequestDevice (adapter : Nat) (descriptor : Nat) (callback_info : StructVal)
  | zwgpuDevicePopErrorScope (device : Nat) (callback_info : StructVal)
  | zwgpuQueueOnSubmittedWorkDone (queue : Nat) (callback_info : StructVal)
  | zwgpuBufferMapAsync (buffer : Nat) (mode : Nat) (offset : Nat) (size : Nat) (callback_info : StructVal)
  | zwgpuShaderModuleGetCompilationInfo (shader_module : Nat) (callback_info : StructVal)
  | zwgpuAdapterInfoFreeMembers (value : StructVal)
  | zwgpuSurfaceCapabilitiesFreeMembers (value : StructVal)
  | zwgpuSupportedFeaturesFreeMembers (value : WGPUSupportedFeatures)
  | zwgpuSharedBufferMemoryEndAccessStateFreeMembers (value : StructVal)
  | zwgpuSharedTextureMemoryEndAccessStateFreeMembers (value : StructVal)

/-- The arguments of an invocation, in the order of the wrapper's parameters. -/
def Plain.args : Plain → List Arg
  | .zwgpuCreateInstance descriptor => [.word descriptor]
  | .zwgpuInstanceRelease inst => [.word inst]
  | .zwgpuInstanceCreateSurface inst descriptor => [.word inst, .word descriptor]
  | .zwgpuInstanceProcessEvents inst => [.word inst]
  | .zwgpuInstanceWaitAny inst future_count futures timeout_ns => [.word inst, .word future_count, .word futures, .word timeout_ns]
  | .zwgpuInstanceAddRef inst => [.word inst]
  | .zwgpuAdapterRelease adapter => [.word adapter]
  | .zwgpuAdapterGetInfo adapter info_ptr => [.word adapter, .word info_ptr]
  | .zwgpuAdapterCreateDevice adapter descriptor => [.word adapter, .word descriptor]
  | .zwgpuAdapterGetFeatures adapter features => [.word adapter, .word features]
  | .zwgpuAdapterGetLimits adapter limits => [.word adapter, .word limits]
  | .zwgpuDeviceRelease device => [.word device]
  | .zwgpuDeviceGetQueue device => [.word device]
  | .zwgpuDeviceCreateBuffer device descriptor => [.word device, .word descriptor]
  | .zwgpuDeviceCreateTexture device descriptor => [.word device, .word descriptor]
  | .zwgpuDeviceCreateSampler device descriptor => [.word device, .word descriptor]
  | .zwgpuDeviceCreateShaderModule device descriptor => [.word device, .word descriptor]
  | .zwgpuDeviceCreateBindGroupLayout device descriptor => [.word device, .word descriptor]
  | .zwgpuDeviceCreateBindGroup device descriptor => [.word device, .word descriptor]
  | .zwgpuDeviceCreatePipelineLayout device descriptor => [.word device, .word descriptor]
  | .zwgpuDeviceCreateRenderPipeline device descriptor => [.word device, .word descriptor]
  | .zwgpuDeviceCreateComputePipeline device descriptor => [.word device, .word descriptor]
  | .zwgpuDeviceCreateCommandEncoder device descriptor => [.word device, .word descriptor]
  | .zwgpuDeviceCreateQuerySet device descriptor => [.word device, .word descriptor]
  | .zwgpuDeviceGetLimits device limits => [.word device, .word limits]
  | .zwgpuDeviceHasFeature device feature => [.word device, .word feature]
  | .zwgpuDevicePushErrorScope device filter => [.word device, .word filter]
  | .zwgpuDeviceTick device => [.word device]
  | .zwgpuDeviceDestroy device => [.word device]
  | .zwgpuQueueRelease queue => [.word queue]
  | .zwgpuQueueSubmit queue command_count commands => [.word queue, .word command_count, .word commands]
  | .zwgpuQueueWriteBuffer queue buffer buffer_offset data size => [.word queue, .word buffer, .word buffer_offset, .word data, .word size]
  | .zwgpuQueueWriteTexture queue destination data data_size data_layout write_size => [.word queue, .word destination, .word data, .word data_size, .word data_layout, .word write_size]
  | .zwgpuBufferUnmap buffer => [.word buffer]
  | .zwgpuBufferRelease buffer => [.word buffer]
  | .zwgpuBufferGetMappedRange buffer offset size => [.word buffer, .word offset, .word size]
  | .zwgpuBufferGetConstMappedRange buffer offset size => [.word buffer, .word offset, .word size]
  | .zwgpuBufferDestroy buffer => [.word buffer]
  | .zwgpuTextureCreateView texture descriptor => [.word texture, .word descriptor]
  | .zwgpuTextureDestroy texture => [.word texture]
  | .zwgpuTextureRelease texture => [.word texture]
  | .zwgpuTextureViewRelease texture_view => [.word texture_view]
  | .zwgpuSamplerRelease sampler => [.word sampler]
  | .zwgpuShaderModuleRelease shader_module => [.word shader_module]
  | .zwgpuBindGroupLayoutRelease bind_group_layout => [.word bind_group_layout]
  | .zwgpuBindGroupRelease bind_group => [.word bind_group]
  | .zwgpuPipelineLayoutRelease pipeline_layout => [.word pipeline_layout]
  | .zwgpuQuerySetDestroy query_set => [.word query_set]
  | .zwgpuQuerySetRelease query_set => [.word query_set]
  | .zwgpuRenderPipelineRelease render_pipeline => [.word render_pipeline]
  | .zwgpuComputePipelineRelease compute_pipeline => [.word compute_pipeline]
  | .zwgpuCommandEncoderBeginRenderPass encoder descriptor => [.word encoder, .word descriptor]
  | .zwgpuCommandEncoderBeginComputePass encoder descriptor => [.word encoder, .word descriptor]
  | .zwgpuCommandEncoderClearBuffer encoder buffer offset size => [.word encoder, .word buffer, .word offset, .word size]
  | .zwgpuCommandEncoderCopyBufferToBuffer encoder source source_offset destination destination_offset size => [.word encoder, .word source, .word source_offset, .word destination, .word destination_offset, .word size]
  | .zwgpuCommandEncoderCopyBufferToTexture encoder source destination copy_size => [.word encoder, .word source, .word destination, .word copy_size]
  | .zwgpuCommandEncoderCopyTextureToBuffer encoder source destination copy_size => [.word encoder, .word source, .word destination, .word copy_size]
  | .zwgpuCommandEncoderCopyTextureToTexture encoder source destination copy_size => [.word encoder, .word source, .word destination, .word copy_size]
  | .zwgpuCommandEncoderFinish encoder descriptor => [.word encoder, .word descriptor]
  | .zwgpuCommandEncoderRelease encoder => [.word encoder]
  | .zwgpuRenderPassEncoderSetScissorRect encoder x y width height => [.word encoder, .word x, .word y, .word width, .word height]
  | .zwgpuRenderPassEncoderSetViewport encoder x y width height min_depth max_depth => [.word encoder, .float x, .float y, .float width, .float height, .float min_depth, .float max_depth]
  | .zwgpuRenderPassEncoderSetPipeline encoder pipeline => [.word encoder, .word pipeline]
  | .zwgpuRenderPassEncoderSetBindGroup encoder group_index group dynamic_offset_count dynamic_offsets => [.word encoder, .word group_index, .word group, .word dynamic_offset_count, .word dynamic_offsets]
  | .zwgpuRenderPassEncoderSetVertexBuffer encoder slot buffer offset size => [.word encoder, .word slot, .word buffer, .word offset, .word size]
  | .zwgpuRenderPassEncoderSetIndexBuffer encoder buffer format offset size => [.word encoder, .word buffer, .word format, .word offset, .word size]
  | .zwgpuRenderPassEncoderDraw encoder vertex_count instance_count first_vertex first_instance => [.word encoder, .word vertex_count, .word instance_count, .word first_vertex, .word first_instance]
  | .zwgpuRenderPassEncoderDrawIndexed encoder index_count instance_count first_index base_vertex first_instance => [.word encoder, .word index_count, .word instance_count, .word first_index, .int base_vertex, .word first_instance]
  | .zwgpuRenderPassEncoderEnd encoder => [.word encoder]
  | .zwgpuRenderPassEncoderRelease encoder => [.word encoder]
  | .zwgpuComputePassEncoderSetPipeline encoder pipeline => [.word encoder, .word pipeline]
  | .zwgpuComputePassEncoderSetBindGroup encoder group_index group dynamic_offset_count dynamic_offsets => [.word encoder, .word group_index, .word group, .word dynamic_offset_count, .word dynamic_offsets]
  | .zwgpuComputePassEncoderDispatchWorkgroups encoder count_x count_y count_z => [.word encoder, .word count_x, .word count_y, .word count_z]
  | .zwgpuComputePassEncoderDispatchWorkgroupsIndirect encoder indirect_buffer indirect_offset => [.word encoder, .word indirect_buffer, .word indirect_offset]
  | .zwgpuComputePassEncoderEnd encoder => [.word encoder]
  | .zwgpuComputePassEncoderRelease encoder => [.word encoder]
  | .zwgpuCommandBufferRelease command_buffer => [.word command_buffer]
  | .zwgpuSurfaceConfigure surface config => [.word surface, .word config]
  | .zwgpuSurfaceUnconfigure surface => [.word surface]
  | .zwgpuSurfaceGetCurrentTexture surface surface_texture => [.word surface, .word surface_texture]
  | .zwgpuSurfacePresent surface => [.word surface]
  | .zwgpuSurfaceRelease surface => [.word surface]

/-- The arguments of an invocation, in the order of the wrapper's parameters. -/
def ByValue.args : ByValue → List Arg
  | .zwgpuInstanceRequestAdapter inst options callback_info => [.word inst, .word options, .struct callback_info]
  | .zwgpuAdapterRequestDevice adapter descriptor callback_info => [.word adapter, .word descriptor, .struct callback_info]
  | .zwgpuDevicePopErrorScope device callback_info => [.word device, .struct callback_info]
  | .zwgpuQueueOnSubmittedWorkDone queue callback_info => [.word queue, .struct callback_info]
  | .zwgpuBufferMapAsync buffer mode offset size callback_info => [.word buffer, .word mode, .word offset, .word size, .struct callback_info]
  | .zwgpuShaderModuleGetCompilationInfo shader_module callback_info => [.word shader_module, .struct callback_info]
  | .zwgpuAdapterInfoFreeMembers value => [.struct value]
  | .zwgpuSurfaceCapabilitiesFreeMembers value => [.struct value]
  | .zwgpuSupportedFeaturesFreeMembers value => [.features value]
  | .zwgpuSharedBufferMemoryEndAccessStateFreeMembers value => [.struct value]
  | .zwgpuSharedTextureMemoryEndAccessStateFreeMembers value => [.struct value]

/-- How the declared return type of a wrapper relates to the native call it
wraps: `void`, the same word, a `bool` around a `WGPUBool`, or the `uint64_t`
id of a returned `WGPUFuture`. -/
inductive RetKind
  | void
  | word
  | bool
  | futureId
  deriving DecidableEq

/-- The return kind of each wrapper, from its declared return type. -/
def Plain.retKind : Plain → RetKind
  | .zwgpuCreateInstance _ => .word
  | .zwgpuInstanceRelease _ => .void
  | .zwgpuInstanceCreateSurface _ _ => .word
  | .zwgpuInstanceProcessEvents _ => .void
  | .zwgpuInstanceWaitAny _ _ _ _ => .word
  | .zwgpuInstanceAddRef _ => .void
  | .zwgpuAdapterRelease _ => .void
  | .zwgpuAdapterGetInfo _ _ => .word
  | .zwgpuAdapterCreateDevice _ _ => .word
  | .zwgpuAdapterGetFeatures _ _ => .void
  | .zwgpuAdapterGetLimits _ _ => .word
  | .zwgpuDeviceRelease _ => .void
  | .zwgpuDeviceGetQueue _ => .word
  | .zwgpuDeviceCreateBuffer _ _ => .word
  | .zwgpuDeviceCreateTexture _ _ => .word
  | .zwgpuDeviceCreateSampler _ _ => .word
  | .zwgpuDeviceCreateShaderModule _ _ => .word
  | .zwgpuDeviceCreateBindGroupLayout _ _ => .word
  | .zwgpuDeviceCreateBindGroup _ _ => .word
  | .zwgpuDeviceCreatePipelineLayout _ _ => .word
  | .zwgpuDeviceCreateRenderPipeline _ _ => .word
  | .zwgpuDeviceCreateComputePipeline _ _ => .word
  | .zwgpuDeviceCreateCommandEncoder _ _ => .word
  | .zwgpuDeviceCreateQuerySet _ _ => .word
  | .zwgpuDeviceGetLimits _ _ => .word
  | .zwgpuDeviceHasFeature _ _ => .bool
  | .zwgpuDevicePushErrorScope _ _ => .void
  | .zwgpuDeviceTick _ => .void
  | .zwgpuDeviceDestroy _ => .void
  | .zwgpuQueueRelease _ => .void
  | .zwgpuQueueSubmit _ _ _ => .void
  | .zwgpuQueueWriteBuffer _ _ _ _ _ => .void
  | .zwgpuQueueWriteTexture _ _ _ _ _ _ => .void
  | .zwgpuBufferUnmap _ => .void
  | .zwgpuBufferRelease _ => .void
  | .zwgpuBufferGetMappedRange _ _ _ => .word
  | .zwgpuBufferGetConstMappedRange _ _ _ => .word
  | .zwgpuBufferDestroy _ => .void
  | .zwgpuTextureCreateView _ _ => .word
  | .zwgpuTextureDestroy _ => .void
  | .zwgpuTextureRelease _ => .void
  | .zwgpuTextureViewRelease _ => .void
  | .zwgpuSamplerRelease _ => .void
  | .zwgpuShaderModuleRelease _ => .void
  | .zwgpuBindGroupLayoutRelease _ => .void
  | .zwgpuBindGroupRelease _ => .void
  | .zwgpuPipelineLayoutRelease _ => .void
  | .zwgpuQuerySetDestroy _ => .void
  | .zwgpuQuerySetRelease _ => .void
  | .zwgpuRenderPipelineRelease _ => .void
  | .zwgpuComputePipelineRelease _ => .void
  | .zwgpuCommandEncoderBeginRenderPass _ _ => .word
  | .zwgpuCommandEncoderBeginComputePass _ _ => .word
  | .zwgpuCommandEncoderClearBuffer _ _ _ _ => .void
  | .zwgpuCommandEncoderCopyBufferToBuffer _ _ _ _ _ _ => .void
  | .zwgpuCommandEncoderCopyBufferToTexture _ _ _ _ => .void
  | .zwgpuCommandEncoderCopyTextureToBuffer _ _ _ _ => .void
  | .zwgpuCommandEncoderCopyTextureToTexture _ _ _ _ => .void
  | .zwgpuCommandEncoderFinish _ _ => .word
  | .zwgpuCommandEncoderRelease _ => .void
  | .zwgpuRenderPassEncoderSetScissorRect _ _ _ _ _ => .void
  | .zwgpuRenderPassEncoderSetViewport _ _ _ _ _ _ _ => .void
  | .zwgpuRenderPassEncoderSetPipeline _ _ => .void
  | .zwgpuRenderPassEncoderSetBindGroup _ _ _ _ _ => .void
  | .zwgpuRenderPassEncoderSetVertexBuffer _ _ _ _ _ => .void
  | .zwgpuRenderPassEncoderSetIndexBuffer _ _ _ _ _ => .void
  | .zwgpuRenderPassEncoderDraw _ _ _ _ _ => .void
  | .zwgpuRenderPassEncoderDrawIndexed _ _ _ _ _ _ => .void
  | .zwgpuRenderPassEncoderEnd _ => .void
  | .zwgpuRenderPassEncoderRelease _ => .void
  | .zwgpuComputePassEncoderSetPipeline _ _ => .void
  | .zwgpuComputePassEncoderSetBindGroup _ _ _ _ _ => .void
  | .zwgpuComputePassEncoderDispatchWorkgroups _ _ _ _ => .void
  | .zwgpuComputePassEncoderDispatchWorkgroupsIndirect _ _ _ => .void
  | .zwgpuComputePassEncoderEnd _ => .void
  | .zwgpuComputePassEncoderRelease _ => .void
  | .zwgpuCommandBufferRelease _ => .void
  | .zwgpuSurfaceConfigure _ _ => .void
  | .zwgpuSurfaceUnconfigure _ => .void
  | .zwgpuSurfaceGetCurrentTexture _ _ => .void
  | .zwgpuSurfacePresent _ => .void
  | .zwgpuSurfaceRelease _ => .void

/-- The return kind of each wrapper, from its declared return type. -/
def ByValue.retKind : ByValue → RetKind
  | .zwgpuInstanceRequestAdapter _ _ _ => .futureId
  | .zwgpuAdapterRequestDevice _ _ _ => .futureId
  | .zwgpuDevicePopErrorScope _ _ => .futureId
  | .zwgpuQueueOnSubmittedWorkDone _ _ => .futureId
  | .zwgpuBufferMapAsync _ _ _ _ _ => .futureId
  | .zwgpuShaderModuleGetCompilationInfo _ _ => .futureId
  | .zwgpuAdapterInfoFreeMembers _ => .void
  | .zwgpuSurfaceCapabilitiesFreeMembers _ => .void
  | .zwgpuSupportedFeaturesFreeMembers _ => .void
  | .zwgpuSharedBufferMemoryEndAccessStateFreeMembers _ => .void
  | .zwgpuSharedTextureMemoryEndAccessStateFreeMembers _ => .void

/-- The positions (from 0) of the arguments a wrapper converts with `(size_t)`. -/
def Plain.castPositions : Plain → List Nat
  | .zwgpuInstanceWaitAny _ _ _ _ => [1]
  | .zwgpuQueueSubmit _ _ _ => [1]
  | .zwgpuQueueWriteBuffer _ _ _ _ _ => [4]
  | .zwgpuBufferGetMappedRange _ _ _ => [1, 2]
  | .zwgpuBufferGetConstMappedRange _ _ _ => [1, 2]
  | .zwgpuRenderPassEncoderSetBindGroup _ _ _ _ _ => [3]
  | .zwgpuComputePassEncoderSetBindGroup _ _ _ _ _ => [3]
  | _ => []

/-- Running an invocation on the wrappers of `src/c/lib.c`. -/
def C.run (E : Env) : Plain → Outcome
  | .zwgpuCreateInstance descriptor => C.zwgpuCreateInstance E descriptor
  | .zwgpuInstanceRelease inst => C.zwgpuInstanceRelease E inst
  | .zwgpuInstanceCreateSurface inst descriptor => C.zwgpuInstanceCreateSurface E inst descriptor
  | .zwgpuInstanceProcessEvents inst => C.zwgpuInstanceProcessEvents E inst
  | .zwgpuInstanceWaitAny inst future_count futures timeout_ns => C.zwgpuInstanceWaitAny E inst future_count futures timeout_ns
  | .zwgpuInstanceAddRef inst => C.zwgpuInstanceAddRef E inst
  | .zwgpuAdapterRelease adapter => C.zwgpuAdapterRelease E adapter
  | .zwgpuAdapterGetInfo adapter info_ptr => C.zwgpuAdapterGetInfo E adapter info_ptr
  | .zwgpuAdapterCreateDevice adapter descriptor => C.zwgpuAdapterCreateDevice E adapter descriptor
  | .zwgpuAdapterGetFeatures adapter features => C.zwgpuAdapterGetFeatures E adapter features
  | .zwgpuAdapterGetLimits adapter limits => C.zwgpuAdapterGetLimits E adapter limits
  | .zwgpuDeviceRelease device => C.zwgpuDeviceRelease E device
  | .zwgpuDeviceGetQueue device => C.zwgpuDeviceGetQueue E device
  | .zwgpuDeviceCreateBuffer device descriptor => C.zwgpuDeviceCreateBuffer E device descriptor
  | .zwgpuDeviceCreateTexture device descriptor => C.zwgpuDeviceCreateTexture E device descriptor
  | .zwgpuDeviceCreateSampler device descriptor => C.zwgpuDeviceCreateSampler E device descriptor
  | .zwgpuDeviceCreateShaderModule device descriptor => C.zwgpuDeviceCreateShaderModule E device descriptor
  | .zwgpuDeviceCreateBindGroupLayout device descriptor => C.zwgpuDeviceCreateBindGroupLayout E device descriptor
  | .zwgpuDeviceCreateBindGroup device descriptor => C.zwgpuDeviceCreateBindGroup E device descriptor
  | .zwgpuDeviceCreatePipelineLayout device descriptor => C.zwgpuDeviceCreatePipelineLayout E device descriptor
  | .zwgpuDeviceCreateRenderPipeline device descriptor => C.zwgpuDeviceCreateRenderPipeline E device descriptor
  | .zwgpuDeviceCreateComputePipeline device descriptor => C.zwgpuDeviceCreateComputePipeline E device descriptor
  | .zwgpuDeviceCreateCommandEncoder device descriptor => C.zwgpuDeviceCreateCommandEncoder E device descriptor
  | .zwgpuDeviceCreateQuerySet device descriptor => C.zwgpuDeviceCreateQuerySet E device descriptor
  | .zwgpuDeviceGetLimits device limits => C.zwgpuDeviceGetLimits E device limits
  | .zwgpuDeviceHasFeature device feature => C.zwgpuDeviceHasFeature E device feature
  | .zwgpuDevicePushErrorScope device filter => C.zwgpuDevicePushErrorScope E device filter
  | .zwgpuDeviceTick device => C.zwgpuDeviceTick E device
  | .zwgpuDeviceDestroy device => C.zwgpuDeviceDestroy E device
  | .zwgpuQueueRelease queue => C.zwgpuQueueRelease E queue
  | .zwgpuQueueSubmit queue command_count commands => C.zwgpuQueueSubmit E queue command_count commands
  | .zwgpuQueueWriteBuffer queue buffer buffer_offset data size => C.zwgpuQueueWriteBuffer E queue buffer buffer_offset data size
  | .zwgpuQueueWriteTexture queue destination data data_size data_layout write_size => C.zwgpuQueueWriteTexture E queue destination data data_size data_layout write_size
  | .zwgpuBufferUnmap buffer => C.zwgpuBufferUnmap E buffer
  | .zwgpuBufferRelease buffer => C.zwgpuBufferRelease E buffer
  | .zwgpuBufferGetMappedRange buffer offset size => C.zwgpuBufferGetMappedRange E buffer offset size
  | .zwgpuBufferGetConstMappedRange buffer offset size => C.zwgpuBufferGetConstMappedRange E buffer offset size
  | .zwgpuBufferDestroy buffer => C.zwgpuBufferDestroy E buffer
  | .zwgpuTextureCreateView texture descriptor => C.zwgpuTextureCreateView E texture descriptor
  | .zwgpuTextureDestroy texture => C.zwgpuTextureDestroy E texture
  | .zwgpuTextureRelease texture => C.zwgpuTextureRelease E texture
  | .zwgpuTextureViewRelease texture_view => C.zwgpuTextureViewRelease E texture_view
  | .zwgpuSamplerRelease sampler => C.zwgpuSamplerRelease E sampler
  | .zwgpuShaderModuleRelease shader_module => C.zwgpuShaderModuleRelease E shader_module
  | .zwgpuBindGroupLayoutRelease bind_group_layout => C.zwgpuBindGroupLayoutRelease E bind_group_layout
  | .zwgpuBindGroupRelease bind_group => C.zwgpuBindGroupRelease E bind_group
  | .zwgpuPipelineLayoutRelease pipeline_layout => C.zwgpuPipelineLayoutRelease E pipeline_layout
  | .zwgpuQuerySetDestroy query_set => C.zwgpuQuerySetDestroy E query_set
  | .zwgpuQuerySetRelease query_set => C.zwgpuQuerySetRelease E query_set
  | .zwgpuRenderPipelineRelease render_pipeline => C.zwgpuRenderPipelineRelease E render_pipeline
  | .zwgpuComputePipelineRelease compute_pipeline => C.zwgpuComputePipelineRelease E compute_pipeline
  | .zwgpuCommandEncoderBeginRenderPass encoder descriptor => C.zwgpuCommandEncoderBeginRenderPass E encoder descriptor
  | .zwgpuCommandEncoderBeginComputePass encoder descriptor => C.zwgpuCommandEncoderBeginComputePass E encoder descriptor
  | .zwgpuCommandEncoderClearBuffer encoder buffer offset size => C.zwgpuCommandEncoderClearBuffer E encoder buffer offset size
  | .zwgpuCommandEncoderCopyBufferToBuffer encoder source source_offset destination destination_offset size => C.zwgpuCommandEncoderCopyBufferToBuffer E encoder source source_offset destination destination_offset size
  | .zwgpuCommandEncoderCopyBufferToTexture encoder source destination copy_size => C.zwgpuCommandEncoderCopyBufferToTexture E encoder source destination copy_size
  | .zwgpuCommandEncoderCopyTextureToBuffer encoder source destination copy_size => C.zwgpuCommandEncoderCopyTextureToBuffer E encoder source destination copy_size
  | .zwgpuCommandEncoderCopyTextureToTexture encoder source destination copy_size => C.zwgpuCommandEncoderCopyTextureToTexture E encoder source destination copy_size
  | .zwgpuCommandEncoderFinish encoder descriptor => C.zwgpuCommandEncoderFinish E encoder descriptor
  | .zwgpuCommandEncoderRelease encoder => C.zwgpuCommandEncoderRelease E encoder
  | .zwgpuRenderPassEncoderSetScissorRect encoder x y width height => C.zwgpuRenderPassEncoderSetScissorRect E encoder x y width height
  | .zwgpuRenderPassEncoderSetViewport encoder x y width height min_depth max_depth => C.zwgpuRenderPassEncoderSetViewport E encoder x y width height min_depth max_depth
  | .zwgpuRenderPassEncoderSetPipeline encoder pipeline => C.zwgpuRenderPassEncoderSetPipeline E encoder pipeline
  | .zwgpuRenderPassEncoderSetBindGroup encoder group_index group dynamic_offset_count dynamic_offsets => C.zwgpuRenderPassEncoderSetBindGroup E encoder group_index group dynamic_offset_count dynamic_offsets
  | .zwgpuRenderPassEncoderSetVertexBuffer encoder slot buffer offset size => C.zwgpuRenderPassEncoderSetVertexBuffer E encoder slot buffer offset size
  | .zwgpuRenderPassEncoderSetIndexBuffer encoder buffer format offset size => C.zwgpuRenderPassEncoderSetIndexBuffer E encoder buffer format offset size
  | .zwgpuRenderPassEncoderDraw encoder vertex_count instance_count first_vertex first_instance => C.zwgpuRenderPassEncoderDraw E encoder vertex_count instance_count first_vertex first_instance
  | .zwgpuRenderPassEncoderDrawIndexed encoder index_count instance_count first_index base_vertex first_instance => C.zwgpuRenderPassEncoderDrawIndexed E encoder index_count instance_count first_index base_vertex first_instance
  | .zwgpuRenderPassEncoderEnd encoder => C.zwgpuRenderPassEncoderEnd E encoder
  | .zwgpuRenderPassEncoderRelease encoder => C.zwgpuRenderPassEncoderRelease E encoder
  | .zwgpuComputePassEncoderSetPipeline encoder pipeline => C.zwgpuComputePassEncoderSetPipeline E encoder pipeline
  | .zwgpuComputePassEncoderSetBindGroup encoder group_index group dynamic_offset_count dynamic_offsets => C.zwgpuComputePassEncoderSetBindGroup E encoder group_index group dynamic_offset_count dynamic_offsets
  | .zwgpuComputePassEncoderDispatchWorkgroups encoder count_x count_y count_z => C.zwgpuComputePassEncoderDispatchWorkgroups E encoder count_x count_y count_z
  | .zwgpuComputePassEncoderDispatchWorkgroupsIndirect encoder indirect_buffer indirect_offset => C.zwgpuComputePassEncoderDispatchWorkgroupsIndirect E encoder indirect_buffer indirect_offset
  | .zwgpuComputePassEncoderEnd encoder => C.zwgpuComputePassEncoderEnd E encoder
  | .zwgpuComputePassEncoderRelease encoder => C.zwgpuComputePassEncoderRelease E encoder
  | .zwgpuCommandBufferRelease command_buffer => C.zwgpuCommandBufferRelease E command_buffer
  | .zwgpuSurfaceConfigure surface config => C.zwgpuSurfaceConfigure E surface config
  | .zwgpuSurfaceUnconfigure surface => C.zwgpuSurfaceUnconfigure E surface
  | .zwgpuSurfaceGetCurrentTexture surface surface_texture => C.zwgpuSurfaceGetCurrentTexture E surface surface_texture
  | .zwgpuSurfacePresent surface => C.zwgpuSurfacePresent E surface
  | .zwgpuSurfaceRelease surface => C.zwgpuSurfaceRelease E surface

/-- Running an invocation on the wrappers of `src/zig-c/lib.c`. -/
def ZigC.run (E : Env) : Plain → Outcome
  | .zwgpuCreateInstance descriptor => ZigC.zwgpuCreateInstance E descriptor
  | .zwgpuInstanceRelease inst => ZigC.zwgpuInstanceRelease E inst
  | .zwgpuInstanceCreateSurface inst descriptor => ZigC.zwgpuInstanceCreateSurface E inst descriptor
  | .zwgpuInstanceProcessEvents inst => ZigC.zwgpuInstanceProcessEvents E inst
  | .zwgpuInstanceWaitAny inst future_count futures timeout_ns => ZigC.zwgpuInstanceWaitAny E inst future_count futures timeout_ns
  | .zwgpuInstanceAddRef inst => ZigC.zwgpuInstanceAddRef E inst
  | .zwgpuAdapterRelease adapter => ZigC.zwgpuAdapterRelease E adapter
  | .zwgpuAdapterGetInfo adapter info_ptr => ZigC.zwgpuAdapterGetInfo E adapter info_ptr
  | .zwgpuAdapterCreateDevice adapter descriptor => ZigC.zwgpuAdapterCreateDevice E adapter descriptor
  | .zwgpuAdapterGetFeatures adapter features => ZigC.zwgpuAdapterGetFeatures E adapter features
  | .zwgpuAdapterGetLimits adapter limits => ZigC.zwgpuAdapterGetLimits E adapter limits
  | .zwgpuDeviceRelease device => ZigC.zwgpuDeviceRelease E device
  | .zwgpuDeviceGetQueue device => ZigC.zwgpuDeviceGetQueue E device
  | .zwgpuDeviceCreateBuffer device descriptor => ZigC.zwgpuDeviceCreateBuffer E device descriptor
  | .zwgpuDeviceCreateTexture device descriptor => ZigC.zwgpuDeviceCreateTexture E device descriptor
  | .zwgpuDeviceCreateSampler device descriptor => ZigC.zwgpuDeviceCreateSampler E device descriptor
  | .zwgpuDeviceCreateShaderModule device descriptor => ZigC.zwgpuDeviceCreateShaderModule E device descriptor
  | .zwgpuDeviceCreateBindGroupLayout device descriptor => ZigC.zwgpuDeviceCreateBindGroupLayout E device descriptor
  | .zwgpuDeviceCreateBindGroup device descriptor => ZigC.zwgpuDeviceCreateBindGroup E device descriptor
  | .zwgpuDeviceCreatePipelineLayout device descriptor => ZigC.zwgpuDeviceCreatePipelineLayout E device descriptor
  | .zwgpuDeviceCreateRenderPipeline device descriptor => ZigC.zwgpuDeviceCreateRenderPipeline E device descriptor
  | .zwgpuDeviceCreateComputePipeline device descriptor => ZigC.zwgpuDeviceCreateComputePipeline E device descriptor
  | .zwgpuDeviceCreateCommandEncoder device descriptor => ZigC.zwgpuDeviceCreateCommandEncoder E device descriptor
  | .zwgpuDeviceCreateQuerySet device descriptor => ZigC.zwgpuDeviceCreateQuerySet E device descriptor
  | .zwgpuDeviceGetLimits device limits => ZigC.zwgpuDeviceGetLimits E device limits
  | .zwgpuDeviceHasFeature device feature => ZigC.zwgpuDeviceHasFeature E device feature
  | .zwgpuDevicePushErrorScope device filter => ZigC.zwgpuDevicePushErrorScope E device filter
  | .zwgpuDeviceTick device => ZigC.zwgpuDeviceTick E device
  | .zwgpuDeviceDestroy device => ZigC.zwgpuDeviceDestroy E device
  | .zwgpuQueueRelease queue => ZigC.zwgpuQueueRelease E queue
  | .zwgpuQueueSubmit queue command_count commands => ZigC.zwgpuQueueSubmit E queue command_count commands
  | .zwgpuQueueWriteBuffer queue buffer buffer_offset data size => ZigC.zwgpuQueueWriteBuffer E queue buffer buffer_offset data size
  | .zwgpuQueueWriteTexture queue destination data data_size data_layout write_size => ZigC.zwgpuQueueWriteTexture E queue destination data data_size data_layout write_size
  | .zwgpuBufferUnmap buffer => ZigC.zwgpuBufferUnmap E buffer
  | .zwgpuBufferRelease buffer => ZigC.zwgpuBufferRelease E buffer
  | .zwgpuBufferGetMappedRange buffer offset size => ZigC.zwgpuBufferGetMappedRange E buffer offset size
  | .zwgpuBufferGetConstMappedRange buffer offset size => ZigC.zwgpuBufferGetConstMappedRange E buffer offset size
  | .zwgpuBufferDestroy buffer => ZigC.zwgpuBufferDestroy E buffer
  | .zwgpuTextureCreateView texture descriptor => ZigC.zwgpuTextureCreateView E texture descriptor
  | .zwgpuTextureDestroy texture => ZigC.zwgpuTextureDestroy E texture
  | .zwgpuTextureRelease texture => ZigC.zwgpuTextureRelease E texture
  | .zwgpuTextureViewRelease texture_view => ZigC.zwgpuTextureViewRelease E texture_view
  | .zwgpuSamplerRelease sampler => ZigC.zwgpuSamplerRelease E sampler
  | .zwgpuShaderModuleRelease shader_module => ZigC.zwgpuShaderModuleRelease E shader_module
  | .zwgpuBindGroupLayoutRelease bind_group_layout => ZigC.zwgpuBindGroupLayoutRelease E bind_group_layout
  | .zwgpuBindGroupRelease bind_group => ZigC.zwgpuBindGroupRelease E bind_group
  | .zwgpuPipelineLayoutRelease pipeline_layout => ZigC.zwgpuPipelineLayoutRelease E pipeline_layout
  | .zwgpuQuerySetDestroy query_set => ZigC.zwgpuQuerySetDestroy E query_set
  | .zwgpuQuerySetRelease query_set => ZigC.zwgpuQuerySetRelease E query_set
  | .zwgpuRenderPipelineRelease render_pipeline => ZigC.zwgpuRenderPipelineRelease E render_pipeline
  | .zwgpuComputePipelineRelease compute_pipeline => ZigC.zwgpuComputePipelineRelease E compute_pipeline
  | .zwgpuCommandEncoderBeginRenderPass encoder descriptor => ZigC.zwgpuCommandEncoderBeginRenderPass E encoder descriptor
  | .zwgpuCommandEncoderBeginComputePass encoder descriptor => ZigC.zwgpuCommandEncoderBeginComputePass E encoder descriptor
  | .zwgpuCommandEncoderClearBuffer encoder buffer offset size => ZigC.zwgpuCommandEncoderClearBuffer E encoder buffer offset size
  | .zwgpuCommandEncoderCopyBufferToBuffer encoder source source_offset destination destination_offset size => ZigC.zwgpuCommandEncoderCopyBufferToBuffer E encoder source source_offset destination destination_offset size
  | .zwgpuCommandEncoderCopyBufferToTexture encoder source destination copy_size => ZigC.zwgpuCommandEncoderCopyBufferToTexture E encoder source destination copy_size
  | .zwgpuCommandEncoderCopyTextureToBuffer encoder source destination copy_size => ZigC.zwgpuCommandEncoderCopyTextureToBuffer E encoder source destination copy_size
  | .zwgpuCommandEncoderCopyTextureToTexture encoder source destination copy_size => ZigC.zwgpuCommandEncoderCopyTextureToTexture E encoder source destination copy_size
  | .zwgpuCommandEncoderFinish encoder descriptor => ZigC.zwgpuCommandEncoderFinish E encoder descriptor
  | .zwgpuCommandEncoderRelease encoder => ZigC.zwgpuCommandEncoderRelease E encoder
  | .zwgpuRenderPassEncoderSetScissorRect encoder x y width height => ZigC.zwgpuRenderPassEncoderSetScissorRect E encoder x y width height
  | .zwgpuRenderPassEncoderSetViewport encoder x y width height min_depth max_depth => ZigC.zwgpuRenderPassEncoderSetViewport E encoder x y width height min_depth max_depth
  | .zwgpuRenderPassEncoderSetPipeline encoder pipeline => ZigC.zwgpuRenderPassEncoderSetPipeline E encoder pipeline
  | .zwgpuRenderPassEncoderSetBindGroup encoder group_index group dynamic_offset_count dynamic_offsets => ZigC.zwgpuRenderPassEncoderSetBindGroup E encoder group_index group dynamic_offset_count dynamic_offsets
  | .zwgpuRenderPassEncoderSetVertexBuffer encoder slot buffer offset size => ZigC.zwgpuRenderPassEncoderSetVertexBuffer E encoder slot buffer offset size
  | .zwgpuRenderPassEncoderSetIndexBuffer encoder buffer format offset size => ZigC.zwgpuRenderPassEncoderSetIndexBuffer E encoder buffer format offset size
  | .zwgpuRenderPassEncoderDraw encoder vertex_count instance_count first_vertex first_instance => ZigC.zwgpuRenderPassEncoderDraw E encoder vertex_count instance_count first_vertex first_instance
  | .zwgpuRenderPassEncoderDrawIndexed encoder index_count instance_count first_index base_vertex first_instance => ZigC.zwgpuRenderPassEncoderDrawIndexed E encoder index_count instance_count first_index base_vertex first_instance
  | .zwgpuRenderPassEncoderEnd encoder => ZigC.zwgpuRenderPassEncoderEnd E encoder
  | .zwgpuRenderPassEncoderRelease encoder => ZigC.zwgpuRenderPassEncoderRelease E encoder
  | .zwgpuComputePassEncoderSetPipeline encoder pipeline => ZigC.zwgpuComputePassEncoderSetPipeline E encoder pipeline
  | .zwgpuComputePassEncoderSetBindGroup encoder group_index group dynamic_offset_count dynamic_offsets => ZigC.zwgpuComputePassEncoderSetBindGroup E encoder group_index group dynamic_offset_count dynamic_offsets
  | .zwgpuComputePassEncoderDispatchWorkgroups encoder count_x count_y count_z => ZigC.zwgpuComputePassEncoderDispatchWorkgroups E encoder count_x count_y count_z
  | .zwgpuComputePassEncoderDispatchWorkgroupsIndirect encoder indirect_buffer indirect_offset => ZigC.zwgpuComputePassEncoderDispatchWorkgroupsIndirect E encoder indirect_buffer indirect_offset
  | .zwgpuComputePassEncoderEnd encoder => ZigC.zwgpuComputePassEncoderEnd E encoder
  | .zwgpuComputePassEncoderRelease encoder => ZigC.zwgpuComputePassEncoderRelease E encoder
  | .zwgpuCommandBufferRelease command_buffer => ZigC.zwgpuCommandBufferRelease E command_buffer
  | .zwgpuSurfaceConfigure surface config => ZigC.zwgpuSurfaceConfigure E surface config
  | .zwgpuSurfaceUnconfigure surface => ZigC.zwgpuSurfaceUnconfigure E surface
  | .zwgpuSurfaceGetCurrentTexture surface surface_texture => ZigC.zwgpuSurfaceGetCurrentTexture E surface surface_texture
  | .zwgpuSurfacePresent surface => ZigC.zwgpuSurfacePresent E surface
  | .zwgpuSurfaceRelease surface => ZigC.zwgpuSurfaceRelease E surface

/-- Running a by-value invocation on the wrappers of `src/zig-c/lib.c`. -/
def ZigC.runByValue (E : Env) : ByValue → Outcome
  | .zwgpuInstanceRequestAdapter inst options callback_info => ZigC.zwgpuInstanceRequestAdapter E inst options callback_info
  | .zwgpuAdapterRequestDevice adapter descriptor callback_info => ZigC.zwgpuAdapterRequestDevice E adapter descriptor callback_info
  | .zwgpuDevicePopErrorScope device callback_info => ZigC.zwgpuDevicePopErrorScope E device callback_info
  | .zwgpuQueueOnSubmittedWorkDone queue callback_info => ZigC.zwgpuQueueOnSubmittedWorkDone E queue callback_info
  | .zwgpuBufferMapAsync buffer mode offset size callback_info => ZigC.zwgpuBufferMapAsync E buffer mode offset size callback_info
  | .zwgpuShaderModuleGetCompilationInfo shader_module callback_info => ZigC.zwgpuShaderModuleGetCompilationInfo E shader_module callback_info
  | .zwgpuAdapterInfoFreeMembers value => ZigC.zwgpuAdapterInfoFreeMembers E value
  | .zwgpuSurfaceCapabilitiesFreeMembers value => ZigC.zwgpuSurfaceCapabilitiesFreeMembers E value
  | .zwgpuSupportedFeaturesFreeMembers value => ZigC.zwgpuSupportedFeaturesFreeMembers E value
  | .zwgpuSharedBufferMemoryEndAccessStateFreeMembers value => ZigC.zwgpuSharedBufferMemoryEndAccessStateFreeMembers E value
  | .zwgpuSharedTextureMemoryEndAccessStateFreeMembers value => ZigC.zwgpuSharedTextureMemoryEndAccessStateFreeMembers E value

/-- The value a wrapper of the given return kind hands back when its native call
returns the word `r` or the future `f`. -/
def RetKind.expected (k : RetKind) (r : Nat) (f : WGPUFuture) : Option Nat :=
  match k with
  | .void => none
  | .word => some r
  | .bool => some (toBool r)
  | .futureId => some f.id

/-- An argument list after the conversion `(size_t)` at the given positions. -/
def castArgs (w : Nat) (positions : List Nat) (args : List Arg) : List Arg :=
  args.enum.map fun ia =>
    match ia.2 with
    | Arg.word v => if ia.1 ∈ positions then Arg.word (toSizeT w v) else Arg.word v
    | a => a

/-- The reading of "forwards unchanged" for a wrapper that returns a value: it
makes exactly one native call, the arguments of that call are the given
arguments in the same order, and it returns the word the native call returned. -/
def ForwardsUnchanged (E : Env) (o : Outcome) (args : List Arg) : Prop :=
  ∃ c, o.trace = [Event.call c] ∧ c.args = args ∧ o.ret = some (E.native c)

/-- Count and pointer of a `WGPUSupportedFeatures` agree in the memory `m`:
either the count is `0` and the pointer `NULL`, or the count is positive and the
pointer is not `NULL` and references an array holding that many elements. -/
def Consistent (m : Mem) (r : WGPUSupportedFeatures) : Prop :=
  (r.featureCount = 0 ∧ r.features = NULL)
  ∨ (0 < r.featureCount ∧ r.features ≠ NULL
      ∧ ∃ arr, m.loadArray r.features = some arr ∧ r.featureCount ≤ arr.length)

/-- Each of the seven wrappers that convert with `(size_t)`, in both files,
called with `v` (and `u`, where a second argument is converted) as its count,
size or offset argument and `a b c d` as the others, makes exactly one native
call, in which `x` (and `y`) stand at the place of `v` (and `u`) and the other
arguments are unchanged. -/
def SizeArgsArrive (E : Env) (a b c d v u x y : Nat) : Prop :=
  (C.zwgpuInstanceWaitAny E a v b c).trace = [Event.call ⟨.wgpuInstanceWaitAny, [.word a, .word x, .word b, .word c]⟩]
  ∧ (C.zwgpuQueueSubmit E a v b).trace = [Event.call ⟨.wgpuQueueSubmit, [.word a, .word x, .word b]⟩]
  ∧ (C.zwgpuQueueWriteBuffer E a b c d v).trace = [Event.call ⟨.wgpuQueueWriteBuffer, [.word a, .word b, .word c, .word d, .word x]⟩]
  ∧ (C.zwgpuBufferGetMappedRange E a v u).trace = [Event.call ⟨.wgpuBufferGetMappedRange, [.word a, .word x, .word y]⟩]
  ∧ (C.zwgpuBufferGetConstMappedRange E a v u).trace = [Event.call ⟨.wgpuBufferGetConstMappedRange, [.word a, .word x, .word y]⟩]
  ∧ (C.zwgpuRenderPassEncoderSetBindGroup E a b c v d).trace = [Event.call ⟨.wgpuRenderPassEncoderSetBindGroup, [.word a, .word b, .word c, .word x, .word d]⟩]
  ∧ (C.zwgpuComputePassEncoderSetBindGroup E a b c v d).trace = [Event.call ⟨.wgpuComputePassEncoderSetBindGroup, [.word a, .word b, .word c, .word x, .word d]⟩]
  ∧ (ZigC.zwgpuInstanceWaitAny E a v b c).trace = [Event.call ⟨.wgpuInstanceWaitAny, [.word a, .word x, .word b, .word c]⟩]
  ∧ (ZigC.zwgpuQueueSubmit E a v b).trace = [Event.call ⟨.wgpuQueueSubmit, [.word a, .word x, .word b]⟩]
  ∧ (ZigC.zwgpuQueueWriteBuffer E a b c d v).trace = [Event.call ⟨.wgpuQueueWriteBuffer, [.word a, .word b, .word c, .word d, .word x]⟩]
  ∧ (ZigC.zwgpuBufferGetMappedRange E a v u).trace = [Event.call ⟨.wgpuBufferGetMappedRange, [.word a, .word x, .word y]⟩]
  ∧ (ZigC.zwgpuBufferGetConstMappedRange E a v u).trace = [Event.call ⟨.wgpuBufferGetConstMappedRange, [.word a, .word x, .word y]⟩]
  ∧ (ZigC.zwgpuRenderPassEncoderSetBindGroup E a b c v d).trace = [Event.call ⟨.wgpuRenderPassEncoderSetBindGroup, [.word a, .word b, .word c, .word x, .word d]⟩]
  ∧ (ZigC.zwgpuComputePassEncoderSetBindGroup E a b c v d).trace = [Event.call ⟨.wgpuComputePassEncoderSetBindGroup, [.word a, .word b, .word c, .word x, .word d]⟩]

/-! ## Names and the guarded invocations -/

/-- The lines printed among the events, in order. -/
def printed : List Event → List String
  | [] => []
  | Event.print line :: es => line :: printed es
  | _ :: es => printed es

/-- The identifier of a native entry point, as written in the sources. -/
def NativeFn.name : NativeFn → String
  | .wgpuCreateInstance => "wgpuCreateInstance"
  | .wgpuInstanceRelease => "wgpuInstanceRelease"
  | .wgpuInstanceRequestAdapter => "wgpuInstanceRequestAdapter"
  | .wgpuInstanceCreateSurface => "wgpuInstanceCreateSurface"
  | .wgpuInstanceProcessEvents => "wgpuInstanceProcessEvents"
  | .wgpuInstanceWaitAny => "wgpuInstanceWaitAny"
  | .wgpuInstanceAddRef => "wgpuInstanceAddRef"
  | .wgpuAdapterRelease => "wgpuAdapterRelease"
  | .wgpuAdapterGetInfo => "wgpuAdapterGetInfo"
  | .wgpuAdapterRequestDevice => "wgpuAdapterRequestDevice"
  | .wgpuAdapterCreateDevice => "wgpuAdapterCreateDevice"
  | .wgpuAdapterGetFeatures => "wgpuAdapterGetFeatures"
  | .wgpuAdapterGetLimits => "wgpuAdapterGetLimits"
  | .wgpuDeviceRelease => "wgpuDeviceRelease"
  | .wgpuDeviceGetQueue => "wgpuDeviceGetQueue"
  | .wgpuDeviceCreateBuffer => "wgpuDeviceCreateBuffer"
  | .wgpuDeviceCreateTexture => "wgpuDeviceCreateTexture"
  | .wgpuDeviceCreateSampler => "wgpuDeviceCreateSampler"
  | .wgpuDeviceCreateShaderModule => "wgpuDeviceCreateShaderModule"
  | .wgpuDeviceCreateBindGroupLayout => "wgpuDeviceCreateBindGroupLayout"
  | .wgpuDeviceCreateBindGroup => "wgpuDeviceCreateBindGroup"
  | .wgpuDeviceCreatePipelineLayout => "wgpuDeviceCreatePipelineLayout"
  | .wgpuDeviceCreateRenderPipeline => "wgpuDeviceCreateRenderPipeline"
  | .wgpuDeviceCreateComputePipeline => "wgpuDeviceCreateComputePipeline"
  | .wgpuDeviceCreateCommandEncoder => "wgpuDeviceCreateCommandEncoder"
  | .wgpuDeviceCreateQuerySet => "wgpuDeviceCreateQuerySet"
  | .wgpuDeviceGetLimits => "wgpuDeviceGetLimits"
  | .wgpuDeviceHasFeature => "wgpuDeviceHasFeature"
  | .wgpuDeviceGetFeatures => "wgpuDeviceGetFeatures"
  | .wgpuSupportedFeaturesFreeMembers => "wgpuSupportedFeaturesFreeMembers"
  | .wgpuDevicePushErrorScope => "wgpuDevicePushErrorScope"
  | .wgpuDevicePopErrorScope => "wgpuDevicePopErrorScope"
  | .wgpuDeviceTick => "wgpuDeviceTick"
  | .wgpuDeviceDestroy => "wgpuDeviceDestroy"
  | .wgpuQueueRelease => "wgpuQueueRelease"
  | .wgpuQueueSubmit => "wgpuQueueSubmit"
  | .wgpuQueueWriteBuffer => "wgpuQueueWriteBuffer"
  | .wgpuQueueWriteTexture => "wgpuQueueWriteTexture"
  | .wgpuQueueOnSubmittedWorkDone => "wgpuQueueOnSubmittedWorkDone"
  | .wgpuBufferMapAsync => "wgpuBufferMapAsync"
  | .wgpuBufferUnmap => "wgpuBufferUnmap"
  | .wgpuBufferRelease => "wgpuBufferRelease"
  | .wgpuBufferGetMappedRange => "wgpuBufferGetMappedRange"
  | .wgpuBufferGetConstMappedRange => "wgpuBufferGetConstMappedRange"
  | .wgpuBufferDestroy => "wgpuBufferDestroy"
  | .wgpuTextureCreateView => "wgpuTextureCreateView"
  | .wgpuTextureDestroy => "wgpuTextureDestroy"
  | .wgpuTextureRelease => "wgpuTextureRelease"
  | .wgpuTextureViewRelease => "wgpuTextureViewRelease"
  | .wgpuSamplerRelease => "wgpuSamplerRelease"
  | .wgpuShaderModuleGetCompilationInfo => "wgpuShaderModuleGetCompilationInfo"
  | .wgpuShaderModuleRelease => "wgpuShaderModuleRelease"
  | .wgpuBindGroupLayoutRelease => "wgpuBindGroupLayoutRelease"
  | .wgpuBindGroupRelease => "wgpuBindGroupRelease"
  | .wgpuPipelineLayoutRelease => "wgpuPipelineLayoutRelease"
  | .wgpuQuerySetDestroy => "wgpuQuerySetDestroy"
  | .wgpuQuerySetRelease => "wgpuQuerySetRelease"
  | .wgpuRenderPipelineRelease => "wgpuRenderPipelineRelease"
  | .wgpuComputePipelineRelease => "wgpuComputePipelineRelease"
  | .wgpuCommandEncoderBeginRenderPass => "wgpuCommandEncoderBeginRenderPass"
  | .wgpuCommandEncoderBeginComputePass => "wgpuCommandEncoderBeginComputePass"
  | .wgpuCommandEncoderClearBuffer => "wgpuCommandEncoderClearBuffer"
  | .wgpuCommandEncoderCopyBufferToBuffer => "wgpuCommandEncoderCopyBufferToBuffer"
  | .wgpuCommandEncoderCopyBufferToTexture => "wgpuCommandEncoderCopyBufferToTexture"
  | .wgpuCommandEncoderCopyTextureToBuffer => "wgpuCommandEncoderCopyTextureToBuffer"
  | .wgpuCommandEncoderCopyTextureToTexture => "wgpuCommandEncoderCopyTextureToTexture"
  | .wgpuCommandEncoderFinish => "wgpuCommandEncoderFinish"
  | .wgpuCommandEncoderRelease => "wgpuCommandEncoderRelease"
  | .wgpuRenderPassEncoderSetScissorRect => "wgpuRenderPassEncoderSetScissorRect"
  | .wgpuRenderPassEncoderSetViewport => "wgpuRenderPassEncoderSetViewport"
  | .wgpuRenderPassEncoderSetPipeline => "wgpuRenderPassEncoderSetPipeline"
  | .wgpuRenderPassEncoderSetBindGroup => "wgpuRenderPassEncoderSetBindGroup"
  | .wgpuRenderPassEncoderSetVertexBuffer => "wgpuRenderPassEncoderSetVertexBuffer"
  | .wgpuRenderPassEncoderSetIndexBuffer => "wgpuRenderPassEncoderSetIndexBuffer"
  | .wgpuRenderPassEncoderDraw => "wgpuRenderPassEncoderDraw"
  | .wgpuRenderPassEncoderDrawIndexed => "wgpuRenderPassEncoderDrawIndexed"
  | .wgpuRenderPassEncoderEnd => "wgpuRenderPassEncoderEnd"
  | .wgpuRenderPassEncoderRelease => "wgpuRenderPassEncoderRelease"
  | .wgpuComputePassEncoderSetPipeline => "wgpuComputePassEncoderSetPipeline"
  | .wgpuComputePassEncoderSetBindGroup => "wgpuComputePassEncoderSetBindGroup"
  | .wgpuComputePassEncoderDispatchWorkgroups => "wgpuComputePassEncoderDispatchWorkgroups"
  | .wgpuComputePassEncoderDispatchWorkgroupsIndirect => "wgpuComputePassEncoderDispatchWorkgroupsIndirect"
  | .wgpuComputePassEncoderEnd => "wgpuComputePassEncoderEnd"
  | .wgpuComputePassEncoderRelease => "wgpuComputePassEncoderRelease"
  | .wgpuCommandBufferRelease => "wgpuCommandBufferRelease"
  | .wgpuSurfaceConfigure => "wgpuSurfaceConfigure"
  | .wgpuSurfaceUnconfigure => "wgpuSurfaceUnconfigure"
  | .wgpuSurfaceGetCurrentTexture => "wgpuSurfaceGetCurrentTexture"
  | .wgpuSurfacePresent => "wgpuSurfacePresent"
  | .wgpuSurfaceRelease => "wgpuSurfaceRelease"
  | .wgpuAdapterInfoFreeMembers => "wgpuAdapterInfoFreeMembers"
  | .wgpuSurfaceCapabilitiesFreeMembers => "wgpuSurfaceCapabilitiesFreeMembers"
  | .wgpuSharedBufferMemoryEndAccessStateFreeMembers => "wgpuSharedBufferMemoryEndAccessStateFreeMembers"
  | .wgpuSharedTextureMemoryEndAccessStateFreeMembers => "wgpuSharedTextureMemoryEndAccessStateFreeMembers"

/-- The exported name of the wrapper an invocation calls. -/
def Plain.name : Plain → String
  | .zwgpuCreateInstance _ => "zwgpuCreateInstance"
  | .zwgpuInstanceRelease _ => "zwgpuInstanceRelease"
  | .zwgpuInstanceCreateSurface _ _ => "zwgpuInstanceCreateSurface"
  | .zwgpuInstanceProcessEvents _ => "zwgpuInstanceProcessEvents"
  | .zwgpuInstanceWaitAny _ _ _ _ => "zwgpuInstanceWaitAny"
  | .zwgpuInstanceAddRef _ => "zwgpuInstanceAddRef"
  | .zwgpuAdapterRelease _ => "zwgpuAdapterRelease"
  | .zwgpuAdapterGetInfo _ _ => "zwgpuAdapterGetInfo"
  | .zwgpuAdapterCreateDevice _ _ => "zwgpuAdapterCreateDevice"
  | .zwgpuAdapterGetFeatures _ _ => "zwgpuAdapterGetFeatures"
  | .zwgpuAdapterGetLimits _ _ => "zwgpuAdapterGetLimits"
  | .zwgpuDeviceRelease _ => "zwgpuDeviceRelease"
  | .zwgpuDeviceGetQueue _ => "zwgpuDeviceGetQueue"
  | .zwgpuDeviceCreateBuffer _ _ => "zwgpuDeviceCreateBuffer"
  | .zwgpuDeviceCreateTexture _ _ => "zwgpuDeviceCreateTexture"
  | .zwgpuDeviceCreateSampler _ _ => "zwgpuDeviceCreateSampler"
  | .zwgpuDeviceCreateShaderModule _ _ => "zwgpuDeviceCreateShaderModule"
  | .zwgpuDeviceCreateBindGroupLayout _ _ => "zwgpuDeviceCreateBindGroupLayout"
  | .zwgpuDeviceCreateBindGroup _ _ => "zwgpuDeviceCreateBindGroup"
  | .zwgpuDeviceCreatePipelineLayout _ _ => "zwgpuDeviceCreatePipelineLayout"
  | .zwgpuDeviceCreateRenderPipeline _ _ => "zwgpuDeviceCreateRenderPipeline"
  | .zwgpuDeviceCreateComputePipeline _ _ => "zwgpuDeviceCreateComputePipeline"
  | .zwgpuDeviceCreateCommandEncoder _ _ => "zwgpuDeviceCreateCommandEncoder"
  | .zwgpuDeviceCreateQuerySet _ _ => "zwgpuDeviceCreateQuerySet"
  | .zwgpuDeviceGetLimits _ _ => "zwgpuDeviceGetLimits"
  | .zwgpuDeviceHasFeature _ _ => "zwgpuDeviceHasFeature"
  | .zwgpuDevicePushErrorScope _ _ => "zwgpuDevicePushErrorScope"
  | .zwgpuDeviceTick _ => "zwgpuDeviceTick"
  | .zwgpuDeviceDestroy _ => "zwgpuDeviceDestroy"
  | .zwgpuQueueRelease _ => "zwgpuQueueRelease"
  | .zwgpuQueueSubmit _ _ _ => "zwgpuQueueSubmit"
  | .zwgpuQueueWriteBuffer _ _ _ _ _ => "zwgpuQueueWriteBuffer"
  | .zwgpuQueueWriteTexture _ _ _ _ _ _ => "zwgpuQueueWriteTexture"
  | .zwgpuBufferUnmap _ => "zwgpuBufferUnmap"
  | .zwgpuBufferRelease _ => "zwgpuBufferRelease"
  | .zwgpuBufferGetMappedRange _ _ _ => "zwgpuBufferGetMappedRange"
  | .zwgpuBufferGetConstMappedRange _ _ _ => "zwgpuBufferGetConstMappedRange"
  | .zwgpuBufferDestroy _ => "zwgpuBufferDestroy"
  | .zwgpuTextureCreateView _ _ => "zwgpuTextureCreateView"
  | .zwgpuTextureDestroy _ => "zwgpuTextureDestroy"
  | .zwgpuTextureRelease _ => "zwgpuTextureRelease"
  | .zwgpuTextureViewRelease _ => "zwgpuTextureViewRelease"
  | .zwgpuSamplerRelease _ => "zwgpuSamplerRelease"
  | .zwgpuShaderModuleRelease _ => "zwgpuShaderModuleRelease"
  | .zwgpuBindGroupLayoutRelease _ => "zwgpuBindGroupLayoutRelease"
  | .zwgpuBindGroupRelease _ => "zwgpuBindGroupRelease"
  | .zwgpuPipelineLayoutRelease _ => "zwgpuPipelineLayoutRelease"
  | .zwgpuQuerySetDestroy _ => "zwgpuQuerySetDestroy"
  | .zwgpuQuerySetRelease _ => "zwgpuQuerySetRelease"
  | .zwgpuRenderPipelineRelease _ => "zwgpuRenderPipelineRelease"
  | .zwgpuComputePipelineRelease _ => "zwgpuComputePipelineRelease"
  | .zwgpuCommandEncoderBeginRenderPass _ _ => "zwgpuCommandEncoderBeginRenderPass"
  | .zwgpuCommandEncoderBeginComputePass _ _ => "zwgpuCommandEncoderBeginComputePass"
  | .zwgpuCommandEncoderClearBuffer _ _ _ _ => "zwgpuCommandEncoderClearBuffer"
  | .zwgpuCommandEncoderCopyBufferToBuffer _ _ _ _ _ _ => "zwgpuCommandEncoderCopyBufferToBuffer"
  | .zwgpuCommandEncoderCopyBufferToTexture _ _ _ _ => "zwgpuCommandEncoderCopyBufferToTexture"
  | .zwgpuCommandEncoderCopyTextureToBuffer _ _ _ _ => "zwgpuCommandEncoderCopyTextureToBuffer"
  | .zwgpuCommandEncoderCopyTextureToTexture _ _ _ _ => "zwgpuCommandEncoderCopyTextureToTexture"
  | .zwgpuCommandEncoderFinish _ _ => "zwgpuCommandEncoderFinish"
  | .zwgpuCommandEncoderRelease _ => "zwgpuCommandEncoderRelease"
  | .zwgpuRenderPassEncoderSetScissorRect _ _ _ _ _ => "zwgpuRenderPassEncoderSetScissorRect"
  | .zwgpuRenderPassEncoderSetViewport _ _ _ _ _ _ _ => "zwgpuRenderPassEncoderSetViewport"
  | .zwgpuRenderPassEncoderSetPipeline _ _ => "zwgpuRenderPassEncoderSetPipeline"
  | .zwgpuRenderPassEncoderSetBindGroup _ _ _ _ _ => "zwgpuRenderPassEncoderSetBindGroup"
  | .zwgpuRenderPassEncoderSetVertexBuffer _ _ _ _ _ => "zwgpuRenderPassEncoderSetVertexBuffer"
  | .zwgpuRenderPassEncoderSetIndexBuffer _ _ _ _ _ => "zwgpuRenderPassEncoderSetIndexBuffer"
  | .zwgpuRenderPassEncoderDraw _ _ _ _ _ => "zwgpuRenderPassEncoderDraw"
  | .zwgpuRenderPassEncoderDrawIndexed _ _ _ _ _ _ => "zwgpuRenderPassEncoderDrawIndexed"
  | .zwgpuRenderPassEncoderEnd _ => "zwgpuRenderPassEncoderEnd"
  | .zwgpuRenderPassEncoderRelease _ => "zwgpuRenderPassEncoderRelease"
  | .zwgpuComputePassEncoderSetPipeline _ _ => "zwgpuComputePassEncoderSetPipeline"
  | .zwgpuComputePassEncoderSetBindGroup _ _ _ _ _ => "zwgpuComputePassEncoderSetBindGroup"
  | .zwgpuComputePassEncoderDispatchWorkgroups _ _ _ _ => "zwgpuComputePassEncoderDispatchWorkgroups"
  | .zwgpuComputePassEncoderDispatchWorkgroupsIndirect _ _ _ => "zwgpuComputePassEncoderDispatchWorkgroupsIndirect"
  | .zwgpuComputePassEncoderEnd _ => "zwgpuComputePassEncoderEnd"
  | .zwgpuComputePassEncoderRelease _ => "zwgpuComputePassEncoderRelease"
  | .zwgpuCommandBufferRelease _ => "zwgpuCommandBufferRelease"
  | .zwgpuSurfaceConfigure _ _ => "zwgpuSurfaceConfigure"
  | .zwgpuSurfaceUnconfigure _ => "zwgpuSurfaceUnconfigure"
  | .zwgpuSurfaceGetCurrentTexture _ _ => "zwgpuSurfaceGetCurrentTexture"
  | .zwgpuSurfacePresent _ => "zwgpuSurfacePresent"
  | .zwgpuSurfaceRelease _ => "zwgpuSurfaceRelease"

/-- The exported name of the wrapper an invocation calls. -/
def ByValue.name : ByValue → String
  | .zwgpuInstanceRequestAdapter _ _ _ => "zwgpuInstanceRequestAdapter"
  | .zwgpuAdapterRequestDevice _ _ _ => "zwgpuAdapterRequestDevice"
  | .zwgpuDevicePopErrorScope _ _ => "zwgpuDevicePopErrorScope"
  | .zwgpuQueueOnSubmittedWorkDone _ _ => "zwgpuQueueOnSubmittedWorkDone"
  | .zwgpuBufferMapAsync _ _ _ _ _ => "zwgpuBufferMapAsync"
  | .zwgpuShaderModuleGetCompilationInfo _ _ => "zwgpuShaderModuleGetCompilationInfo"
  | .zwgpuAdapterInfoFreeMembers _ => "zwgpuAdapterInfoFreeMembers"
  | .zwgpuSurfaceCapabilitiesFreeMembers _ => "zwgpuSurfaceCapabilitiesFreeMembers"
  | .zwgpuSupportedFeaturesFreeMembers _ => "zwgpuSupportedFeaturesFreeMembers"
  | .zwgpuSharedBufferMemoryEndAccessStateFreeMembers _ => "zwgpuSharedBufferMemoryEndAccessStateFreeMembers"
  | .zwgpuSharedTextureMemoryEndAccessStateFreeMembers _ => "zwgpuSharedTextureMemoryEndAccessStateFreeMembers"

/-- An invocation of one of the eleven null-guarded wrappers of `src/c/lib.c`:
the six callback-taking wrappers and the five `FreeMembers` wrappers. -/
inductive Guarded
  | zwgpuInstanceRequestAdapter (inst : Nat) (options : Nat) (callback_info_ptr : Nat)
  | zwgpuAdapterRequestDevice (adapter : Nat) (descriptor : Nat) (callback_info_ptr : Nat)
  | zwgpuDevicePopErrorScope (device : Nat) (callback_info_ptr : Nat)
  | zwgpuQueueOnSubmittedWorkDone (queue : Nat) (callback_info_ptr : Nat)
  | zwgpuBufferMapAsync (buffer : Nat) (mode : Nat) (offset : Nat) (size : Nat) (callback_info_ptr : Nat)
  | zwgpuShaderModuleGetCompilationInfo (shader_module : Nat) (callback_info_ptr : Nat)
  | zwgpuAdapterInfoFreeMembers (value_ptr : Nat)
  | zwgpuSurfaceCapabilitiesFreeMembers (value_ptr : Nat)
  | zwgpuSupportedFeaturesFreeMembers (value_ptr : Nat)
  | zwgpuSharedBufferMemoryEndAccessStateFreeMembers (value_ptr : Nat)
  | zwgpuSharedTextureMemoryEndAccessStateFreeMembers (value_ptr : Nat)

/-- The exported name of the wrapper an invocation calls. -/
def Guarded.name : Guarded → String
  | .zwgpuInstanceRequestAdapter _ _ _ => "zwgpuInstanceRequestAdapter"
  | .zwgpuAdapterRequestDevice _ _ _ => "zwgpuAdapterRequestDevice"
  | .zwgpuDevicePopErrorScope _ _ => "zwgpuDevicePopErrorScope"
  | .zwgpuQueueOnSubmittedWorkDone _ _ => "zwgpuQueueOnSubmittedWorkDone"
  | .zwgpuBufferMapAsync _ _ _ _ _ => "zwgpuBufferMapAsync"
  | .zwgpuShaderModuleGetCompilationInfo _ _ => "zwgpuShaderModuleGetCompilationInfo"
  | .zwgpuAdapterInfoFreeMembers _ => "zwgpuAdapterInfoFreeMembers"
  | .zwgpuSurfaceCapabilitiesFreeMembers _ => "zwgpuSurfaceCapabilitiesFreeMembers"
  | .zwgpuSupportedFeaturesFreeMembers _ => "zwgpuSupportedFeaturesFreeMembers"
  | .zwgpuSharedBufferMemoryEndAccessStateFreeMembers _ => "zwgpuSharedBufferMemoryEndAccessStateFreeMembers"
  | .zwgpuSharedTextureMemoryEndAccessStateFreeMembers _ => "zwgpuSharedTextureMemoryEndAccessStateFreeMembers"

/-- The pointer argument the wrapper compares with `NULL`. -/
def Guarded.pointer : Guarded → Nat
  | .zwgpuInstanceRequestAdapter _ _ callback_info_ptr => callback_info_ptr
  | .zwgpuAdapterRequestDevice _ _ callback_info_ptr => callback_info_ptr
  | .zwgpuDevicePopErrorScope _ callback_info_ptr => callback_info_ptr
  | .zwgpuQueueOnSubmittedWorkDone _ callback_info_ptr => callback_info_ptr
  | .zwgpuBufferMapAsync _ _ _ _ callback_info_ptr => callback_info_ptr
  | .zwgpuShaderModuleGetCompilationInfo _ callback_info_ptr => callback_info_ptr
  | .zwgpuAdapterInfoFreeMembers value_ptr => value_ptr
  | .zwgpuSurfaceCapabilitiesFreeMembers value_ptr => value_ptr
  | .zwgpuSupportedFeaturesFreeMembers value_ptr => value_ptr
  | .zwgpuSharedBufferMemoryEndAccessStateFreeMembers value_ptr => value_ptr
  | .zwgpuSharedTextureMemoryEndAccessStateFreeMembers value_ptr => value_ptr

/-- The invocation of the wrapper of the same name in `src/zig-c/lib.c` that
passes by value the struct the guarded pointer references; `none` when the
pointer is `NULL` or references no struct. -/
def Guarded.byValue (m : Mem) : Guarded → Option ByValue
  | .zwgpuInstanceRequestAdapter inst options callback_info_ptr =>
    (m.loadStruct callback_info_ptr).map fun s => ByValue.zwgpuInstanceRequestAdapter inst options s
  | .zwgpuAdapterRequestDevice adapter descriptor callback_info_ptr =>
    (m.loadStruct callback_info_ptr).map fun s => ByValue.zwgpuAdapterRequestDevice adapter descriptor s
  | .zwgpuDevicePopErrorScope device callback_info_ptr =>
    (m.loadStruct callback_info_ptr).map fun s => ByValue.zwgpuDevicePopErrorScope device s
  | .zwgpuQueueOnSubmittedWorkDone queue callback_info_ptr =>
    (m.loadStruct callback_info_ptr).map fun s => ByValue.zwgpuQueueOnSubmittedWorkDone queue s
  | .zwgpuBufferMapAsync buffer mode offset size callback_info_ptr =>
    (m.loadStruct callback_info_ptr).map fun s => ByValue.zwgpuBufferMapAsync buffer mode offset size s
  | .zwgpuShaderModuleGetCompilationInfo shader_module callback_info_ptr =>
    (m.loadStruct callback_info_ptr).map fun s => ByValue.zwgpuShaderModuleGetCompilationInfo shader_module s
  | .zwgpuAdapterInfoFreeMembers value_ptr =>
    (m.loadStruct value_ptr).map fun s => ByValue.zwgpuAdapterInfoFreeMembers s
  | .zwgpuSurfaceCapabilitiesFreeMembers value_ptr =>
    (m.loadStruct value_ptr).map fun s => ByValue.zwgpuSurfaceCapabilitiesFreeMembers s
  | .zwgpuSupportedFeaturesFreeMembers value_ptr =>
    (m.loadFeatures value_ptr).map fun s => ByValue.zwgpuSupportedFeaturesFreeMembers s
  | .zwgpuSharedBufferMemoryEndAccessStateFreeMembers value_ptr =>
    (m.loadStruct value_ptr).map fun s => ByValue.zwgpuSharedBufferMemoryEndAccessStateFreeMembers s
  | .zwgpuSharedTextureMemoryEndAccessStateFreeMembers value_ptr =>
    (m.loadStruct value_ptr).map fun s => ByValue.zwgpuSharedTextureMemoryEndAccessStateFreeMembers s

/-- Running a guarded invocation on the wrappers of `src/c/lib.c`. -/
def C.runGuarded (E : Env) (m : Mem) : Guarded → Option Outcome
  | .zwgpuInstanceRequestAdapter inst options callback_info_ptr => C.zwgpuInstanceRequestAdapter E m inst options callback_info_ptr
  | .zwgpuAdapterRequestDevice adapter descriptor callback_info_ptr => C.zwgpuAdapterRequestDevice E m adapter descriptor callback_info_ptr
  | .zwgpuDevicePopErrorScope device callback_info_ptr => C.zwgpuDevicePopErrorScope E m device callback_info_ptr
  | .zwgpuQueueOnSubmittedWorkDone queue callback_info_ptr => C.zwgpuQueueOnSubmittedWorkDone E m queue callback_info_ptr
  | .zwgpuBufferMapAsync buffer mode offset size callback_info_ptr => C.zwgpuBufferMapAsync E m buffer mode offset size callback_info_ptr
  | .zwgpuShaderModuleGetCompilationInfo shader_module callback_info_ptr => C.zwgpuShaderModuleGetCompilationInfo E m shader_module callback_info_ptr
  | .zwgpuAdapterInfoFreeMembers value_ptr => C.zwgpuAdapterInfoFreeMembers E m value_ptr
  | .zwgpuSurfaceCapabilitiesFreeMembers value_ptr => C.zwgpuSurfaceCapabilitiesFreeMembers E m value_ptr
  | .zwgpuSupportedFeaturesFreeMembers value_ptr => C.zwgpuSupportedFeaturesFreeMembers E m value_ptr
  | .zwgpuSharedBufferMemoryEndAccessStateFreeMembers value_ptr => C.zwgpuSharedBufferMemoryEndAccessStateFreeMembers E m value_ptr
  | .zwgpuSharedTextureMemoryEndAccessStateFreeMembers value_ptr => C.zwgpuSharedTextureMemoryEndAccessStateFreeMembers E m value_ptr

/-- Whether the identifier `name` ends in `suffix`. -/
def endsIn (name suffix : String) : Bool :=
  suffix.data.isSuffixOf name.data

/-- Whether an identifier names a routine that ends the life of an object or
adds a reference to it: it ends in `Release`, `Destroy` or `AddRef`. -/
def isLifetimeName (name : String) : Bool :=
  endsIn name "Release" || endsIn name "Destroy" || endsIn name "AddRef"

/-! ## Concrete inputs used to exercise the statements -/

/-- An environment with 64-bit `size_t` whose native library answers every
request with the future of id `7`, reports two features at address `500` for
every device, returns the word `256` from every other call, and whose `malloc`
returns the address `900`. -/
def envSample : Env :=
  ⟨64, fun _ => 256, fun _ => ⟨7⟩, fun _ => ⟨2, 500⟩, fun _ => 900⟩

/-- A memory with one by-value struct at address `100`, a caller's
`WGPUSupportedFeatures` at address `200` pointing to three elements of storage
at `300`, and the native array of two feature names at `500`. -/
def memSample : Mem :=
  ⟨fun a => if a = 100 then some [11, 12, 13, 14, 15] else none,
   fun a => if a = 200 then some ⟨9, 300⟩ else none,
   fun a => if a = 300 then some [0, 0, 0] else if a = 500 then some [41, 42] else none⟩

/-- The sample memory with the caller's struct at `200` zero-initialised
(`featureCount = 0`, `features = NULL`): the caller supplies no storage. -/
def memZeroed : Mem :=
  ⟨memSample.structs, fun a => if a = 200 then some ⟨0, NULL⟩ else none, memSample.arrays⟩

/-- An environment like `envSample` whose `malloc` fails. -/
def envNoMem : Env :=
  ⟨64, fun _ => 256, fun _ => ⟨7⟩, fun _ => ⟨2, 500⟩, fun _ => NULL⟩

/-- An environment like `envSample` whose native library reports no feature. -/
def envEmpty : Env :=
  ⟨64, fun _ => 256, fun _ => ⟨7⟩, fun _ => ⟨0, 500⟩, fun _ => 900⟩

/-! ## Null guards of the callback-taking wrappers (`src/c/lib.c`) -/

/-- C1: in `src/c/lib.c` each of the six callback-taking wrappers returns the
zero future id, the value `0`, when `callback_info_ptr` is `NULL`, for every
value of the other arguments, every environment and every memory. -/
theorem null_callback_info_returns_zero (E : Env) (m : Mem) (a b c d : Nat) :
    (C.zwgpuInstanceRequestAdapter E m a b NULL).map Outcome.ret = some (some 0)
    ∧ (C.zwgpuAdapterRequestDevice E m a b NULL).map Outcome.ret = some (some 0)
    ∧ (C.zwgpuDevicePopErrorScope E m a NULL).map Outcome.ret = some (some 0)
    ∧ (C.zwgpuQueueOnSubmittedWorkDone E m a NULL).map Outcome.ret = some (some 0)
    ∧ (C.zwgpuBufferMapAsync E m a b c d NULL).map Outcome.ret = some (some 0)
    ∧ (C.zwgpuShaderModuleGetCompilationInfo E m a NULL).map Outcome.ret = some (some 0) :=
  ⟨rfl, rfl, rfl, rfl, rfl, rfl⟩

/-- C2: in `src/c/lib.c`, when `callback_info_ptr` is `NULL` each of the six
callback-taking wrappers has one and the same defined outcome in every memory
(so nothing is read through the pointer, which references no object) and that
outcome contains no native call at all. -/
theorem null_callback_info_no_native_call (E : Env) (a b c d : Nat) :
    (∃ o, (∀ m, C.zwgpuInstanceRequestAdapter E m a b NULL = some o) ∧ nativeCalls o.trace = [])
    ∧ (∃ o, (∀ m, C.zwgpuAdapterRequestDevice E m a b NULL = some o) ∧ nativeCalls o.trace = [])
    ∧ (∃ o, (∀ m, C.zwgpuDevicePopErrorScope E m a NULL = some o) ∧ nativeCalls o.trace = [])
    ∧ (∃ o, (∀ m, C.zwgpuQueueOnSubmittedWorkDone E m a NULL = some o) ∧ nativeCalls o.trace = [])
    ∧ (∃ o, (∀ m, C.zwgpuBufferMapAsync E m a b c d NULL = some o) ∧ nativeCalls o.trace = [])
    ∧ (∃ o, (∀ m, C.zwgpuShaderModuleGetCompilationInfo E m a NULL = some o)
        ∧ nativeCalls o.trace = []) :=
  ⟨⟨_, fun _ => rfl, rfl⟩, ⟨_, fun _ => rfl, rfl⟩, ⟨_, fun _ => rfl, rfl⟩,
   ⟨_, fun _ => rfl, rfl⟩, ⟨_, fun _ => rfl, rfl⟩, ⟨_, fun _ => rfl, rfl⟩⟩

/-- C3: in `src/c/lib.c`, when `callback_info_ptr` is not `NULL` and points to a
struct value `s`, each of the six callback-taking wrappers makes exactly one
native call, to its own native function, with the handle and scalar arguments in
their original positions followed by `s` passed by value, and returns the `id`
member of the `WGPUFuture` that call returned. -/
theorem callback_info_forwarded_by_value (E : Env) (m : Mem) (a b c d p : Nat) (s : StructVal)
    (hp : p ≠ NULL) (hs : m.structs p = some s) :
    C.zwgpuInstanceRequestAdapter E m a b p =
        some ⟨[Event.call ⟨.wgpuInstanceRequestAdapter, [.word a, .word b, .struct s]⟩],
          some (E.nativeFuture ⟨.wgpuInstanceRequestAdapter, [.word a, .word b, .struct s]⟩).id⟩
    ∧ C.zwgpuAdapterRequestDevice E m a b p =
        some ⟨[Event.call ⟨.wgpuAdapterRequestDevice, [.word a, .word b, .struct s]⟩],
          some (E.nativeFuture ⟨.wgpuAdapterRequestDevice, [.word a, .word b, .struct s]⟩).id⟩
    ∧ C.zwgpuDevicePopErrorScope E m a p =
        some ⟨[Event.call ⟨.wgpuDevicePopErrorScope, [.word a, .struct s]⟩],
          some (E.nativeFuture ⟨.wgpuDevicePopErrorScope, [.word a, .struct s]⟩).id⟩
    ∧ C.zwgpuQueueOnSubmittedWorkDone E m a p =
        some ⟨[Event.call ⟨.wgpuQueueOnSubmittedWorkDone, [.word a, .struct s]⟩],
          some (E.nativeFuture ⟨.wgpuQueueOnSubmittedWorkDone, [.word a, .struct s]⟩).id⟩
    ∧ C.zwgpuBufferMapAsync E m a b c d p =
        some ⟨[Event.call ⟨.wgpuBufferMapAsync, [.word a, .word b, .word c, .word d, .struct s]⟩],
          some (E.nativeFuture ⟨.wgpuBufferMapAsync, [.word a, .word b, .word c, .word d, .struct s]⟩).id⟩
    ∧ C.zwgpuShaderModuleGetCompilationInfo E m a p =
        some ⟨[Event.call ⟨.wgpuShaderModuleGetCompilationInfo, [.word a, .struct s]⟩],
          some (E.nativeFuture ⟨.wgpuShaderModuleGetCompilationInfo, [.word a, .struct s]⟩).id⟩ := by
  simp [C.zwgpuInstanceRequestAdapter, C.zwgpuAdapterRequestDevice, C.zwgpuDevicePopErrorScope,
    C.zwgpuQueueOnSubmittedWorkDone, C.zwgpuBufferMapAsync, C.zwgpuShaderModuleGetCompilationInfo,
    Mem.loadStruct, hp, hs, forwardFuture]

/-- Witness for C3: the pointer `100` of the sample memory is not `NULL` and
references the struct `[11, 12, 13, 14, 15]`. -/
theorem callback_info_forwarded_by_value_witness :
    (100 ≠ NULL ∧ memSample.structs 100 = some [11, 12, 13, 14, 15])
    ∧ (C.zwgpuInstanceRequestAdapter envSample memSample 1 2 100 =
        some ⟨[Event.call ⟨.wgpuInstanceRequestAdapter, [.word 1, .word 2, .struct [11, 12, 13, 14, 15]]⟩],
          some (envSample.nativeFuture ⟨.wgpuInstanceRequestAdapter, [.word 1, .word 2, .struct [11, 12, 13, 14, 15]]⟩).id⟩
    ∧ C.zwgpuAdapterRequestDevice envSample memSample 1 2 100 =
        some ⟨[Event.call ⟨.wgpuAdapterRequestDevice, [.word 1, .word 2, .struct [11, 12, 13, 14, 15]]⟩],
          some (envSample.nativeFuture ⟨.wgpuAdapterRequestDevice, [.word 1, .word 2, .struct [11, 12, 13, 14, 15]]⟩).id⟩
    ∧ C.zwgpuDevicePopErrorScope envSample memSample 1 100 =
        some ⟨[Event.call ⟨.wgpuDevicePopErrorScope, [.word 1, .struct [11, 12, 13, 14, 15]]⟩],
          some (envSample.nativeFuture ⟨.wgpuDevicePopErrorScope, [.word 1, .struct [11, 12, 13, 14, 15]]⟩).id⟩
    ∧ C.zwgpuQueueOnSubmittedWorkDone envSample memSample 1 100 =
        some ⟨[Event.call ⟨.wgpuQueueOnSubmittedWorkDone, [.word 1, .struct [11, 12, 13, 14, 15]]⟩],
          some (envSample.nativeFuture ⟨.wgpuQueueOnSubmittedWorkDone, [.word 1, .struct [11, 12, 13, 14, 15]]⟩).id⟩
    ∧ C.zwgpuBufferMapAsync envSample memSample 1 2 3 4 100 =
        some ⟨[Event.call ⟨.wgpuBufferMapAsync, [.word 1, .word 2, .word 3, .word 4, .struct [11, 12, 13, 14, 15]]⟩],
          some (envSample.nativeFuture ⟨.wgpuBufferMapAsync, [.word 1, .word 2, .word 3, .word 4, .struct [11, 12, 13, 14, 15]]⟩).id⟩
    ∧ C.zwgpuShaderModuleGetCompilationInfo envSample memSample 1 100 =
        some ⟨[Event.call ⟨.wgpuShaderModuleGetCompilationInfo, [.word 1, .struct [11, 12, 13, 14, 15]]⟩],
          some (envSample.nativeFuture ⟨.wgpuShaderModuleGetCompilationInfo, [.word 1, .struct [11, 12, 13, 14, 15]]⟩).id⟩) :=
  ⟨⟨by decide, rfl⟩,
    callback_info_forwarded_by_value envSample memSample 1 2 3 4 100 [11, 12, 13, 14, 15]
      (by decide) rfl⟩

/-! ## Forwarding wrappers -/

/-- The conversion `(size_t)v` changes nothing when `v` fits in `size_t`. -/
theorem toSizeT_of_lt {w v : Nat} (h : v < 2 ^ w) : toSizeT w v = v :=
  Nat.mod_eq_of_lt h

/-- C4, as stated, fails for `zwgpuDeviceHasFeature` (in both files): when the
native `wgpuDeviceHasFeature` returns the word `256`, the wrapper, declared
`bool`, returns `1`, so its return value is not the native call's. -/
theorem has_feature_return_not_forwarded :
    envSample.native ⟨.wgpuDeviceHasFeature, [.word 1, .word 2]⟩ = 256
    ∧ (C.zwgpuDeviceHasFeature envSample 1 2).ret = some 1
    ∧ (ZigC.zwgpuDeviceHasFeature envSample 1 2).ret = some 1
    ∧ ¬ ForwardsUnchanged envSample (C.zwgpuDeviceHasFeature envSample 1 2) [.word 1, .word 2]
    ∧ ¬ ForwardsUnchanged envSample (ZigC.zwgpuDeviceHasFeature envSample 1 2)
        [.word 1, .word 2] := by
  refine ⟨rfl, rfl, rfl, ?_, ?_⟩
  · rintro ⟨c, _, _, h⟩
    have h1 : (some 1 : Option Nat) = some 256 := h
    exact absurd h1 (by decide)
  · rintro ⟨c, _, _, h⟩
    have h1 : (some 1 : Option Nat) = some 256 := h
    exact absurd h1 (by decide)

/-- C4, amended: every wrapper without null guard and feature copy, in both
files and for every argument tuple, makes exactly one native call; the
arguments of that call are the wrapper's arguments in the same order, where an
argument written `(size_t)v` arrives as `v mod 2^w` (so unchanged when it is
below `2^w`); the wrapper returns nothing when it is `void`, the word the native
call returned otherwise, except that `zwgpuDeviceHasFeature` returns `0` for the
native result `0` and `1` for every other one, and that the by-value request
wrappers of `src/zig-c/lib.c` return the `id` member of the returned future. -/
theorem plain_wrappers_forward (E : Env) (inv : Plain) (bv : ByValue) :
    (∃ c, (C.run E inv).trace = [Event.call c]
      ∧ c.args = castArgs E.sizeBits inv.castPositions inv.args
      ∧ (C.run E inv).ret = inv.retKind.expected (E.native c) (E.nativeFuture c))
    ∧ (∃ c, (ZigC.run E inv).trace = [Event.call c]
      ∧ c.args = castArgs E.sizeBits inv.castPositions inv.args
      ∧ (ZigC.run E inv).ret = inv.retKind.expected (E.native c) (E.nativeFuture c))
    ∧ (∃ c, (ZigC.runByValue E bv).trace = [Event.call c]
      ∧ c.args = bv.args
      ∧ (ZigC.runByValue E bv).ret = bv.retKind.expected (E.native c) (E.nativeFuture c))
    ∧ ((∀ i v, i ∈ inv.castPositions → inv.args.get? i = some (Arg.word v) → v < 2 ^ E.sizeBits) →
        castArgs E.sizeBits inv.castPositions inv.args = inv.args) := by
  refine ⟨?_, ?_, ?_, ?_⟩
  · cases inv <;> exact ⟨_, rfl, rfl, rfl⟩
  · cases inv <;> exact ⟨_, rfl, rfl, rfl⟩
  · cases bv <;> exact ⟨_, rfl, rfl, rfl⟩
  · intro h
    cases inv <;> first
      | rfl
      | (simp only [Plain.castPositions, Plain.args] at h
         simp [castArgs, Plain.castPositions, Plain.args, List.enum, List.enumFrom]
         first
           | exact toSizeT_of_lt (h 1 _ (by simp) rfl)
           | exact toSizeT_of_lt (h 3 _ (by simp) rfl)
           | exact toSizeT_of_lt (h 4 _ (by simp) rfl)
           | exact ⟨toSizeT_of_lt (h 1 _ (by simp) rfl), toSizeT_of_lt (h 2 _ (by simp) rfl)⟩)

/-- Witness for C4 (amended): `zwgpuBufferGetMappedRange(1, 8, 16)` on a 64-bit
target; both cast arguments are below `2^64` and reach the native call
unchanged. -/
theorem plain_wrappers_forward_witness :
    (∀ i v, i ∈ [1, 2] → [Arg.word 1, Arg.word 8, Arg.word 16].get? i = some (Arg.word v) →
      v < 2 ^ 64)
    ∧ castArgs 64 [1, 2] [Arg.word 1, Arg.word 8, Arg.word 16]
        = [Arg.word 1, Arg.word 8, Arg.word 16]
    ∧ (ZigC.runByValue envSample (.zwgpuBufferMapAsync 1 2 3 4 [11])).ret = some 7 :=
  have h : ∀ i v, i ∈ [1, 2] → [Arg.word 1, Arg.word 8, Arg.word 16].get? i = some (Arg.word v) →
      v < 2 ^ 64 := by
    intro i v hi hv
    simp at hi
    rcases hi with rfl | rfl <;> simp at hv <;> subst hv <;> decide
  ⟨h, (plain_wrappers_forward envSample (.zwgpuBufferGetMappedRange 1 8 16)
        (.zwgpuBufferMapAsync 1 2 3 4 [11])).2.2.2 h,
    by
      obtain ⟨c, hc, _, hr⟩ := (plain_wrappers_forward envSample
        (.zwgpuBufferGetMappedRange 1 8 16) (.zwgpuBufferMapAsync 1 2 3 4 [11])).2.2.1
      rw [hr]
      rfl⟩

/-! ## The feature-list copy of `zwgpuDeviceGetFeatures` -/

/-- A store to `featureCount` followed by a store to `features` through a valid
pointer leaves a struct with exactly these two members. -/
theorem store_both (m : Mem) (p c v : Nat) (s : WGPUSupportedFeatures)
    (hp : p ≠ NULL) (hs : m.featureStructs p = some s) :
    (match m.storeFeatureCount p c with
      | none => none
      | some m1 => m1.storeFeaturesPtr p v)
      = some ⟨m.structs, fun a => if a = p then some ⟨c, v⟩ else m.featureStructs a, m.arrays⟩ := by
  simp only [Mem.storeFeatureCount, Mem.storeFeaturesPtr, Mem.loadFeatures, hp, hs, if_false,
    if_true]
  congr 2
  funext a
  by_cases h : a = p <;> simp [h]

/-- The result of `memcpy` when source and destination are distinct arrays that
both hold `len` bytes. -/
theorem memcpy_defined (m : Mem) (dst src len : Nat) (s d : List Nat)
    (hsrc : src ≠ NULL) (hs : m.arrays src = some s)
    (hdst : dst ≠ NULL) (hd : m.arrays dst = some d) (hne : dst ≠ src)
    (h1 : len ≤ sizeof_WGPUFeatureName * s.length) (h2 : len ≤ sizeof_WGPUFeatureName * d.length) :
    memcpy m dst src len = some ⟨m.structs, m.featureStructs, fun a =>
      if a = dst then some (s.take (len / sizeof_WGPUFeatureName) ++ d.drop (len / sizeof_WGPUFeatureName))
      else m.arrays a⟩ := by
  simp [memcpy, Mem.loadArray, hsrc, hs, hdst, hd, hne, h1, h2]

/-- The byte length `sizeof(WGPUFeatureName) * n` computed in `size_t`, and the
number of elements it covers, when the product does not wrap. -/
theorem byteLength_of_fit (w n : Nat) (hfit : sizeof_WGPUFeatureName * n < 2 ^ w) :
    toSizeT w (sizeof_WGPUFeatureName * n) = sizeof_WGPUFeatureName * n
    ∧ toSizeT w (sizeof_WGPUFeatureName * n) / sizeof_WGPUFeatureName = n := by
  rw [toSizeT_of_lt hfit]
  exact ⟨rfl, by simp [sizeof_WGPUFeatureName]⟩

/-- The copy path of `zwgpuDeviceGetFeatures` in `src/c/lib.c`. -/
theorem c_getFeatures_copy (E : Env) (m : Mem) (device js n q k d : Nat) (f st : List Nat)
    (hresp : E.nativeFeatures device = ⟨n, q⟩) (hn : 0 < n) (hq : q ≠ NULL)
    (hf : m.arrays q = some f) (hfn : n ≤ f.length)
    (hfit : sizeof_WGPUFeatureName * n < 2 ^ E.sizeBits)
    (hjs : js ≠ NULL) (hcs : m.featureStructs js = some ⟨k, d⟩)
    (hd : d ≠ NULL) (hst : m.arrays d = some st) (hsn : n ≤ st.length) (hdq : d ≠ q) :
    C.zwgpuDeviceGetFeatures E m device js = some
      (⟨[Event.call ⟨.wgpuDeviceGetFeatures, [.word device, .tempRef]⟩,
         Event.memcpy d q (sizeof_WGPUFeatureName * n),
         Event.call ⟨.wgpuSupportedFeaturesFreeMembers, [.features ⟨n, q⟩]⟩], none⟩,
       ⟨m.structs, fun a => if a = js then some ⟨n, d⟩ else m.featureStructs a,
        fun a => if a = d then some (f.take n ++ st.drop n) else m.arrays a⟩) := by
  obtain ⟨hlen, hdiv⟩ := byteLength_of_fit E.sizeBits n hfit
  have hcopy := memcpy_defined m d q (sizeof_WGPUFeatureName * n) f st hq hf hd hst hdq
    (Nat.mul_le_mul_left _ hfn) (Nat.mul_le_mul_left _ hsn)
  rw [hlen] at hdiv
  rw [hdiv] at hcopy
  simp [C.zwgpuDeviceGetFeatures, hresp, hn, hq, Mem.loadFeatures, hjs, hcs, hlen, hcopy,
    Mem.storeFeatureCount]

/-- The path of `zwgpuDeviceGetFeatures` in `src/c/lib.c` taken when the native
list is empty or has no array. -/
theorem c_getFeatures_empty (E : Env) (m : Mem) (device js n q : Nat) (cs : WGPUSupportedFeatures)
    (hresp : E.nativeFeatures device = ⟨n, q⟩) (hempty : n = 0 ∨ q = NULL)
    (hjs : js ≠ NULL) (hcs : m.featureStructs js = some cs) :
    C.zwgpuDeviceGetFeatures E m device js = some
      (⟨[Event.call ⟨.wgpuDeviceGetFeatures, [.word device, .tempRef]⟩,
         Event.call ⟨.wgpuSupportedFeaturesFreeMembers, [.features ⟨n, q⟩]⟩], none⟩,
       ⟨m.structs, fun a => if a = js then some ⟨0, NULL⟩ else m.featureStructs a, m.arrays⟩) := by
  have hcond : ¬ (n > 0 ∧ q ≠ NULL) := by
    rcases hempty with h | h
    · simp [h]
    · simp [h]
  have hst := store_both m js 0 NULL cs hjs hcs
  simp only [C.zwgpuDeviceGetFeatures, hresp, hcond, if_false]
  cases h1 : m.storeFeatureCount js 0 with
  | none => simp [h1] at hst
  | some m1 =>
    simp only [h1] at hst
    simp [hst]

/-- The path of `zwgpuDeviceGetFeatures` in `src/zig-c/lib.c` taken when the
native list is empty or has no array. -/
theorem zig_getFeatures_empty (E : Env) (m : Mem) (device js n q : Nat)
    (cs : WGPUSupportedFeatures)
    (hresp : E.nativeFeatures device = ⟨n, q⟩) (hempty : n = 0 ∨ q = NULL)
    (hjs : js ≠ NULL) (hcs : m.featureStructs js = some cs) :
    ZigC.zwgpuDeviceGetFeatures E m device js = some
      (⟨[Event.call ⟨.wgpuDeviceGetFeatures, [.word device, .tempRef]⟩,
         Event.call ⟨.wgpuSupportedFeaturesFreeMembers, [.features ⟨n, q⟩]⟩], none⟩,
       ⟨m.structs, fun a => if a = js then some ⟨0, NULL⟩ else m.featureStructs a, m.arrays⟩) := by
  have hcond : ¬ (n > 0 ∧ q ≠ NULL) := by
    rcases hempty with h | h
    · simp [h]
    · simp [h]
  have hst := store_both m js 0 NULL cs hjs hcs
  simp only [ZigC.zwgpuDeviceGetFeatures, hresp, hcond, if_false]
  cases h1 : m.storeFeatureCount js 0 with
  | none => simp [h1] at hst
  | some m1 =>
    simp only [h1] at hst
    simp [hst]

/-- The path of `zwgpuDeviceGetFeatures` in `src/zig-c/lib.c` taken when
`malloc` returns `NULL`. -/
theorem zig_getFeatures_nomem (E : Env) (m : Mem) (device js n q : Nat)
    (cs : WGPUSupportedFeatures)
    (hresp : E.nativeFeatures device = ⟨n, q⟩) (hn : 0 < n) (hq : q ≠ NULL)
    (hmalloc : E.mallocResult (toSizeT E.sizeBits (sizeof_WGPUFeatureName * n)) = NULL)
    (hjs : js ≠ NULL) (hcs : m.featureStructs js = some cs) :
    ZigC.zwgpuDeviceGetFeatures E m device js = some
      (⟨[Event.call ⟨.wgpuDeviceGetFeatures, [.word device, .tempRef]⟩,
         Event.malloc (toSizeT E.sizeBits (sizeof_WGPUFeatureName * n)) NULL,
         Event.call ⟨.wgpuSupportedFeaturesFreeMembers, [.features ⟨n, q⟩]⟩], none⟩,
       ⟨m.structs, fun a => if a = js then some ⟨0, NULL⟩ else m.featureStructs a, m.arrays⟩) := by
  have hcond : n > 0 ∧ q ≠ NULL := ⟨hn, hq⟩
  have hst := store_both m js 0 NULL cs hjs hcs
  simp only [ZigC.zwgpuDeviceGetFeatures, hresp, hcond, malloc, hmalloc, if_true]
  cases h1 : m.storeFeatureCount js 0 with
  | none => simp [h1] at hst
  | some m1 =>
    simp only [h1] at hst
    simp [hst, hq]

/-- The copy path of `zwgpuDeviceGetFeatures` in `src/zig-c/lib.c`. -/
theorem zig_getFeatures_copy (E : Env) (m : Mem) (device js n q p : Nat) (f : List Nat)
    (cs : WGPUSupportedFeatures)
    (hresp : E.nativeFeatures device = ⟨n, q⟩) (hn : 0 < n) (hq : q ≠ NULL)
    (hf : m.arrays q = some f) (hfn : n ≤ f.length)
    (hfit : sizeof_WGPUFeatureName * n < 2 ^ E.sizeBits)
    (hmalloc : E.mallocResult (sizeof_WGPUFeatureName * n) = p) (hp : p ≠ NULL)
    (hfresh : m.arrays p = none)
    (hjs : js ≠ NULL) (hcs : m.featureStructs js = some cs) :
    ZigC.zwgpuDeviceGetFeatures E m device js = some
      (⟨[Event.call ⟨.wgpuDeviceGetFeatures, [.word device, .tempRef]⟩,
         Event.malloc (sizeof_WGPUFeatureName * n) p,
         Event.memcpy p q (sizeof_WGPUFeatureName * n),
         Event.call ⟨.wgpuSupportedFeaturesFreeMembers, [.features ⟨n, q⟩]⟩], none⟩,
       ⟨m.structs, fun a => if a = js then some ⟨n, p⟩ else m.featureStructs a,
        fun a => if a = p then some (f.take n) else m.arrays a⟩) := by
  obtain ⟨hlen, hdiv⟩ := byteLength_of_fit E.sizeBits n hfit
  rw [hlen] at hdiv
  have hpq : p ≠ q := by
    intro h
    rw [h, hf] at hfresh
    exact Option.noConfusion hfresh
  have hcond : n > 0 ∧ q ≠ NULL := ⟨hn, hq⟩
  let m0 : Mem := ⟨m.structs, m.featureStructs, fun a =>
    if a = p then some (List.replicate (sizeof_WGPUFeatureName * n / sizeof_WGPUFeatureName) 0)
    else m.arrays a⟩
  have hm0q : m0.arrays q = some f := by
    show (if q = p then _ else m.arrays q) = some f
    rw [if_neg (Ne.symm hpq), hf]
  have hm0p : m0.arrays p = some (List.replicate n 0) := by
    show (if p = p then _ else m.arrays p) = _
    rw [if_pos rfl, hdiv]
  have hcopy := memcpy_defined m0 p q (sizeof_WGPUFeatureName * n) f (List.replicate n 0)
    hq hm0q hp hm0p hpq (Nat.mul_le_mul_left _ hfn) (by simp)
  rw [hdiv] at hcopy
  let mc : Mem := ⟨m0.structs, m0.featureStructs, fun a =>
    if a = p then some (f.take n ++ (List.replicate n 0).drop n) else m0.arrays a⟩
  have hst := store_both mc js n p cs hjs hcs
  have hmc : mc.arrays = fun a => if a = p then some (f.take n) else m.arrays a := by
    funext a
    show (if a = p then _ else (if a = p then _ else m.arrays a)) = _
    by_cases h : a = p <;> simp [h]
  simp only [ZigC.zwgpuDeviceGetFeatures, hresp, hcond, malloc, hlen, hmalloc, hp, if_true,
    if_false]
  rw [show (⟨m.structs, m.featureStructs, fun a =>
    if a = p then some (List.replicate (sizeof_WGPUFeatureName * n / sizeof_WGPUFeatureName) 0)
    else m.arrays a⟩ : Mem) = m0 from rfl, hcopy, if_pos ⟨trivial, hq⟩]
  show (match mc.storeFeatureCount js n with
    | none => none
    | some m2 => (match m2.storeFeaturesPtr js p with
      | none => none
      | some m3 => some (_, m3))) = _
  cases h1 : mc.storeFeatureCount js n with
  | none => simp [h1] at hst
  | some m2 =>
    simp only [h1] at hst
    simp only [hst]
    rw [← hmc]

/-- Reading below `n` in a list that starts with the first `n` elements of `f`
yields the elements of `f`. -/
theorem take_append_read (f rest : List Nat) (n i : Nat) (hfn : n ≤ f.length) (hi : i < n) :
    ∃ v, f[i]? = some v ∧ (f.take n ++ rest)[i]? = some v := by
  have hif : i < f.length := Nat.lt_of_lt_of_le hi hfn
  have hit : i < (f.take n).length := by
    rw [List.length_take]
    omega
  refine ⟨f[i], List.getElem?_eq_getElem hif, ?_⟩
  rw [List.getElem?_append_left hit, List.getElem?_take, if_pos hi, List.getElem?_eq_getElem hif]

/-- C5: `zwgpuDeviceGetFeatures` copies the native feature list faithfully.  For
a native response with `featureCount = n > 0` and a non-`NULL` array `f` of `n`
elements (that fits the address space) and a caller's struct at `js`: in
`src/c/lib.c`, when the caller's `features` pointer references storage (other
than the native array) for at least `n` elements, and in `src/zig-c/lib.c`, when
`malloc` succeeds with a fresh block, the call is defined, the caller's struct
then has `featureCount = n`, and for every `i < n` the `i`-th element read
through the caller's `features` pointer is `f[i]`. -/
theorem getFeatures_copies_list (E : Env) (m : Mem) (device js n q : Nat) (f : List Nat)
    (cs : WGPUSupportedFeatures)
    (hresp : E.nativeFeatures device = ⟨n, q⟩) (hn : 0 < n) (hq : q ≠ NULL)
    (hf : m.arrays q = some f) (hfn : n ≤ f.length)
    (hfit : sizeof_WGPUFeatureName * n < 2 ^ E.sizeBits)
    (hjs : js ≠ NULL) (hcs : m.featureStructs js = some cs) :
    (∀ st, cs.features ≠ NULL → m.arrays cs.features = some st → n ≤ st.length →
      cs.features ≠ q →
      ∃ o m1 r arr, C.zwgpuDeviceGetFeatures E m device js = some (o, m1)
        ∧ m1.loadFeatures js = some r ∧ r.featureCount = n
        ∧ m1.loadArray r.features = some arr
        ∧ ∀ i, i < n → ∃ v, f[i]? = some v ∧ arr[i]? = some v)
    ∧ (E.mallocResult (sizeof_WGPUFeatureName * n) ≠ NULL →
      m.arrays (E.mallocResult (sizeof_WGPUFeatureName * n)) = none →
      ∃ o m1 r arr, ZigC.zwgpuDeviceGetFeatures E m device js = some (o, m1)
        ∧ m1.loadFeatures js = some r ∧ r.featureCount = n
        ∧ m1.loadArray r.features = some arr
        ∧ ∀ i, i < n → ∃ v, f[i]? = some v ∧ arr[i]? = some v) := by
  constructor
  · intro st hd hst hsn hdq
    obtain ⟨k, d⟩ := cs
    refine ⟨_, _, ⟨n, d⟩, f.take n ++ st.drop n,
      c_getFeatures_copy E m device js n q k d f st hresp hn hq hf hfn hfit hjs hcs hd hst hsn hdq,
      ?_, rfl, ?_, fun i hi => take_append_read f _ n i hfn hi⟩
    · simp [Mem.loadFeatures, hjs]
    · have hd0 : d ≠ NULL := hd
      simp [Mem.loadArray, hd0]
  · intro hp hfresh
    refine ⟨_, _, ⟨n, E.mallocResult (sizeof_WGPUFeatureName * n)⟩, f.take n,
      zig_getFeatures_copy E m device js n q _ f cs hresp hn hq hf hfn hfit rfl hp hfresh hjs hcs,
      ?_, rfl, ?_, fun i hi => ?_⟩
    · simp [Mem.loadFeatures, hjs]
    · simp [Mem.loadArray, hp]
    · have h := take_append_read f [] n i hfn hi
      simpa using h

/-- Witness for C5: the sample native library reports the two features
`[41, 42]` at address `500`; the caller's struct at `200` points to three
elements of storage at `300`, and `malloc` returns the unused address `900`. -/
theorem getFeatures_copies_list_witness :
    (∃ o m1 r arr, C.zwgpuDeviceGetFeatures envSample memSample 1 200 = some (o, m1)
        ∧ m1.loadFeatures 200 = some r ∧ r.featureCount = 2
        ∧ m1.loadArray r.features = some arr
        ∧ ∀ i, i < 2 → ∃ v, [41, 42][i]? = some v ∧ arr[i]? = some v)
    ∧ (∃ o m1 r arr, ZigC.zwgpuDeviceGetFeatures envSample memSample 1 200 = some (o, m1)
        ∧ m1.loadFeatures 200 = some r ∧ r.featureCount = 2
        ∧ m1.loadArray r.features = some arr
        ∧ ∀ i, i < 2 → ∃ v, [41, 42][i]? = some v ∧ arr[i]? = some v) :=
  have h := getFeatures_copies_list envSample memSample 1 200 2 500 [41, 42] ⟨9, 300⟩
    rfl (by decide) (by decide) rfl (by decide) (by decide) (by decide) rfl
  ⟨h.1 [0, 0, 0] (by decide) rfl (by decide) (by decide), h.2 (by decide) rfl⟩


/-- C6, as stated, fails in `src/c/lib.c`: with the caller's struct
zero-initialised (`featureCount = 0`, `features = NULL`) and a native library
that reports two features, the wrapper calls `memcpy` with the destination
`NULL`; the call has no defined outcome, so no consistent struct results. -/
theorem getFeatures_zeroed_struct_undefined :
    memZeroed.loadFeatures 200 = some ⟨0, NULL⟩
    ∧ envSample.nativeFeatures 1 = ⟨2, 500⟩
    ∧ memZeroed.loadArray 500 = some [41, 42]
    ∧ C.zwgpuDeviceGetFeatures envSample memZeroed 1 200 = none
    ∧ ¬ ∃ o m1 r, C.zwgpuDeviceGetFeatures envSample memZeroed 1 200 = some (o, m1)
        ∧ m1.loadFeatures 200 = some r ∧ Consistent m1 r := by
  have h : C.zwgpuDeviceGetFeatures envSample memZeroed 1 200 = none := rfl
  refine ⟨rfl, rfl, rfl, h, ?_⟩
  rintro ⟨o, m1, r, h1, _⟩
  rw [h] at h1
  exact Option.noConfusion h1

/-- C6, amended: count and pointer of the result agree.  For every native
response whose array, when the count is positive and the pointer not `NULL`,
holds `featureCount` elements and fits the address space, and for a caller's
struct at `js`: in `src/c/lib.c`, provided that for a non-empty native list the
caller's `features` pointer references storage (other than the native array) for
at least `featureCount` elements, and in `src/zig-c/lib.c`, for every initial
content of the caller's struct, `malloc` returning `NULL` or a fresh block, the
call is defined and afterwards either `featureCount = 0` and `features = NULL`,
or `featureCount > 0` and `features` is a non-`NULL` pointer to storage holding
`featureCount` elements. -/
theorem getFeatures_result_consistent (E : Env) (m : Mem) (device js n q : Nat)
    (cs : WGPUSupportedFeatures)
    (hresp : E.nativeFeatures device = ⟨n, q⟩)
    (hnative : 0 < n → q ≠ NULL → ∃ f, m.arrays q = some f ∧ n ≤ f.length)
    (hfit : sizeof_WGPUFeatureName * n < 2 ^ E.sizeBits)
    (hjs : js ≠ NULL) (hcs : m.featureStructs js = some cs) :
    ((0 < n → q ≠ NULL →
        cs.features ≠ NULL ∧ cs.features ≠ q
        ∧ ∃ st, m.arrays cs.features = some st ∧ n ≤ st.length) →
      ∃ o m1 r, C.zwgpuDeviceGetFeatures E m device js = some (o, m1)
        ∧ m1.loadFeatures js = some r ∧ Consistent m1 r)
    ∧ ((E.mallocResult (sizeof_WGPUFeatureName * n) ≠ NULL →
        m.arrays (E.mallocResult (sizeof_WGPUFeatureName * n)) = none) →
      ∃ o m1 r, ZigC.zwgpuDeviceGetFeatures E m device js = some (o, m1)
        ∧ m1.loadFeatures js = some r ∧ Consistent m1 r) := by
  by_cases hcopy : 0 < n ∧ q ≠ NULL
  · obtain ⟨hn, hq⟩ := hcopy
    obtain ⟨f, hf, hfn⟩ := hnative hn hq
    constructor
    · intro hstore
      obtain ⟨hd, hdq, st, hst, hsn⟩ := hstore hn hq
      obtain ⟨k, d⟩ := cs
      have hd0 : d ≠ NULL := hd
      refine ⟨_, _, ⟨n, d⟩,
        c_getFeatures_copy E m device js n q k d f st hresp hn hq hf hfn hfit hjs hcs hd hst hsn
          hdq, ?_, Or.inr ⟨hn, hd, f.take n ++ st.drop n, ?_, ?_⟩⟩
      · simp [Mem.loadFeatures, hjs]
      · simp [Mem.loadArray, hd0]
      · simp [List.length_append, List.length_take, List.length_drop]
        omega
    · intro hfresh
      by_cases hp : E.mallocResult (sizeof_WGPUFeatureName * n) = NULL
      · have hp2 : E.mallocResult (toSizeT E.sizeBits (sizeof_WGPUFeatureName * n)) = NULL := by
          rw [toSizeT_of_lt hfit]
          exact hp
        refine ⟨_, _, ⟨0, NULL⟩,
          zig_getFeatures_nomem E m device js n q cs hresp hn hq hp2 hjs hcs, ?_,
          Or.inl ⟨rfl, rfl⟩⟩
        simp [Mem.loadFeatures, hjs]
      · refine ⟨_, _, ⟨n, E.mallocResult (sizeof_WGPUFeatureName * n)⟩,
          zig_getFeatures_copy E m device js n q _ f cs hresp hn hq hf hfn hfit rfl hp
            (hfresh hp) hjs hcs, ?_, Or.inr ⟨hn, hp, f.take n, ?_, ?_⟩⟩
        · simp [Mem.loadFeatures, hjs]
        · simp [Mem.loadArray, hp]
        · simp [List.length_take]
          exact hfn
  · have hempty : n = 0 ∨ q = NULL := by
      by_cases hn : n = 0
      · exact Or.inl hn
      · by_cases hq : q = NULL
        · exact Or.inr hq
        · exact absurd ⟨Nat.pos_of_ne_zero hn, hq⟩ hcopy
    constructor
    · intro _
      refine ⟨_, _, ⟨0, NULL⟩, c_getFeatures_empty E m device js n q cs hresp hempty hjs hcs, ?_,
        Or.inl ⟨rfl, rfl⟩⟩
      simp [Mem.loadFeatures, hjs]
    · intro _
      refine ⟨_, _, ⟨0, NULL⟩, zig_getFeatures_empty E m device js n q cs hresp hempty hjs hcs,
        ?_, Or.inl ⟨rfl, rfl⟩⟩
      simp [Mem.loadFeatures, hjs]

/-- Witness for C6 (amended): the sample input, with the caller's storage of
three elements at `300` and `malloc` returning the unused address `900`. -/
theorem getFeatures_result_consistent_witness :
    (∃ o m1 r, C.zwgpuDeviceGetFeatures envSample memSample 1 200 = some (o, m1)
        ∧ m1.loadFeatures 200 = some r ∧ Consistent m1 r)
    ∧ (∃ o m1 r, ZigC.zwgpuDeviceGetFeatures envSample memSample 1 200 = some (o, m1)
        ∧ m1.loadFeatures 200 = some r ∧ Consistent m1 r) :=
  have h := getFeatures_result_consistent envSample memSample 1 200 2 500 ⟨9, 300⟩
    rfl (fun _ _ => ⟨[41, 42], rfl, by decide⟩) (by decide) (by decide) rfl
  ⟨h.1 (fun _ _ => ⟨by decide, by decide, [0, 0, 0], rfl, by decide⟩), h.2 (fun _ => rfl)⟩


/-- C7: in `src/zig-c/lib.c`, for a native response with `featureCount > 0` and
a non-`NULL` array, when `malloc` returns `NULL` the call of
`zwgpuDeviceGetFeatures` is defined, performs no copy (no `memcpy`, every array
as before) and leaves the caller's struct with `featureCount = 0` and
`features = NULL`. -/
theorem getFeatures_malloc_failure (E : Env) (m : Mem) (device js n q : Nat)
    (cs : WGPUSupportedFeatures)
    (hresp : E.nativeFeatures device = ⟨n, q⟩) (hn : 0 < n) (hq : q ≠ NULL)
    (hmalloc : E.mallocResult (toSizeT E.sizeBits (sizeof_WGPUFeatureName * n)) = NULL)
    (hjs : js ≠ NULL) (hcs : m.featureStructs js = some cs) :
    ∃ o m1, ZigC.zwgpuDeviceGetFeatures E m device js = some (o, m1)
      ∧ m1.loadFeatures js = some ⟨0, NULL⟩
      ∧ m1.arrays = m.arrays
      ∧ ∀ d s l, Event.memcpy d s l ∉ o.trace := by
  refine ⟨_, _, zig_getFeatures_nomem E m device js n q cs hresp hn hq hmalloc hjs hcs, ?_, rfl,
    ?_⟩
  · simp [Mem.loadFeatures, hjs]
  · intro d s l
    simp

/-- Witness for C7: the sample input with a `malloc` that fails. -/
theorem getFeatures_malloc_failure_witness :
    ∃ o m1, ZigC.zwgpuDeviceGetFeatures envNoMem memSample 1 200 = some (o, m1)
      ∧ m1.loadFeatures 200 = some ⟨0, NULL⟩
      ∧ m1.arrays = memSample.arrays
      ∧ ∀ d s l, Event.memcpy d s l ∉ o.trace :=
  getFeatures_malloc_failure envNoMem memSample 1 200 2 500 ⟨9, 300⟩
    rfl (by decide) (by decide) rfl (by decide) rfl

/-- C8: for a native response with `featureCount = 0` or `features = NULL`
(either one, whatever the other), `zwgpuDeviceGetFeatures` in both files is
defined, performs no copy (no `memcpy`, every array as before) and sets the
caller's struct to `featureCount = 0` and `features = NULL`, whatever the struct
`cs` held before. -/
theorem getFeatures_empty_list (E : Env) (m : Mem) (device js n q : Nat)
    (cs : WGPUSupportedFeatures)
    (hresp : E.nativeFeatures device = ⟨n, q⟩) (hempty : n = 0 ∨ q = NULL)
    (hjs : js ≠ NULL) (hcs : m.featureStructs js = some cs) :
    (∃ o m1, C.zwgpuDeviceGetFeatures E m device js = some (o, m1)
      ∧ m1.loadFeatures js = some ⟨0, NULL⟩
      ∧ m1.arrays = m.arrays
      ∧ ∀ d s l, Event.memcpy d s l ∉ o.trace)
    ∧ (∃ o m1, ZigC.zwgpuDeviceGetFeatures E m device js = some (o, m1)
      ∧ m1.loadFeatures js = some ⟨0, NULL⟩
      ∧ m1.arrays = m.arrays
      ∧ ∀ d s l, Event.memcpy d s l ∉ o.trace) := by
  constructor
  · refine ⟨_, _, c_getFeatures_empty E m device js n q cs hresp hempty hjs hcs, ?_, rfl, ?_⟩
    · simp [Mem.loadFeatures, hjs]
    · intro d s l
      simp
  · refine ⟨_, _, zig_getFeatures_empty E m device js n q cs hresp hempty hjs hcs, ?_, rfl, ?_⟩
    · simp [Mem.loadFeatures, hjs]
    · intro d s l
      simp

/-- Witness for C8: a native library reporting `featureCount = 0` with a
non-`NULL` array, and a caller's struct that held `featureCount = 9` and a
pointer to storage. -/
theorem getFeatures_empty_list_witness :
    (envEmpty.nativeFeatures 1 = ⟨0, 500⟩ ∧ memSample.featureStructs 200 = some ⟨9, 300⟩)
    ∧ (∃ o m1, C.zwgpuDeviceGetFeatures envEmpty memSample 1 200 = some (o, m1)
      ∧ m1.loadFeatures 200 = some ⟨0, NULL⟩
      ∧ m1.arrays = memSample.arrays
      ∧ ∀ d s l, Event.memcpy d s l ∉ o.trace)
    ∧ (∃ o m1, ZigC.zwgpuDeviceGetFeatures envEmpty memSample 1 200 = some (o, m1)
      ∧ m1.loadFeatures 200 = some ⟨0, NULL⟩
      ∧ m1.arrays = memSample.arrays
      ∧ ∀ d s l, Event.memcpy d s l ∉ o.trace) :=
  ⟨⟨rfl, rfl⟩,
    getFeatures_empty_list envEmpty memSample 1 200 0 500 ⟨9, 300⟩ rfl (Or.inl rfl) (by decide) rfl⟩

/-- C9: the two ownership strategies, for a native response with
`featureCount = n > 0` and a non-`NULL` array `f`.  In `src/c/lib.c` (the
caller's pointer referencing storage for `n` elements) the caller's `features`
member is left as it was, only `featureCount` is assigned, and the elements are
written into the caller's storage.  In `src/zig-c/lib.c` the caller's
`features` member becomes the pointer `malloc` returned (`NULL` included),
whatever the struct held before. -/
theorem getFeatures_ownership (E : Env) (m : Mem) (device js n q : Nat) (f : List Nat)
    (cs : WGPUSupportedFeatures)
    (hresp : E.nativeFeatures device = ⟨n, q⟩) (hn : 0 < n) (hq : q ≠ NULL)
    (hf : m.arrays q = some f) (hfn : n ≤ f.length)
    (hfit : sizeof_WGPUFeatureName * n < 2 ^ E.sizeBits)
    (hjs : js ≠ NULL) (hcs : m.featureStructs js = some cs) :
    (∀ st, cs.features ≠ NULL → m.arrays cs.features = some st → n ≤ st.length →
      cs.features ≠ q →
      ∃ o m1, C.zwgpuDeviceGetFeatures E m device js = some (o, m1)
        ∧ m1.loadFeatures js = some ⟨n, cs.features⟩
        ∧ m1.loadArray cs.features = some (f.take n ++ st.drop n)
        ∧ ∀ size p, Event.malloc size p ∉ o.trace)
    ∧ ((E.mallocResult (sizeof_WGPUFeatureName * n) ≠ NULL →
        m.arrays (E.mallocResult (sizeof_WGPUFeatureName * n)) = none) →
      ∃ o m1 r, ZigC.zwgpuDeviceGetFeatures E m device js = some (o, m1)
        ∧ m1.loadFeatures js = some r
        ∧ r.features = E.mallocResult (sizeof_WGPUFeatureName * n)
        ∧ Event.malloc (sizeof_WGPUFeatureName * n) r.features ∈ o.trace) := by
  constructor
  · intro st hd hst hsn hdq
    obtain ⟨k, d⟩ := cs
    have hd0 : d ≠ NULL := hd
    refine ⟨_, _,
      c_getFeatures_copy E m device js n q k d f st hresp hn hq hf hfn hfit hjs hcs hd hst hsn hdq,
      ?_, ?_, ?_⟩
    · simp [Mem.loadFeatures, hjs]
    · simp [Mem.loadArray, hd0]
    · intro size p
      simp
  · intro hfresh
    by_cases hp : E.mallocResult (sizeof_WGPUFeatureName * n) = NULL
    · have hp2 : E.mallocResult (toSizeT E.sizeBits (sizeof_WGPUFeatureName * n)) = NULL := by
        rw [toSizeT_of_lt hfit]
        exact hp
      refine ⟨_, _, ⟨0, NULL⟩,
        zig_getFeatures_nomem E m device js n q cs hresp hn hq hp2 hjs hcs, ?_, hp.symm, ?_⟩
      · simp [Mem.loadFeatures, hjs]
      · simp [toSizeT_of_lt hfit]
    · refine ⟨_, _, ⟨n, E.mallocResult (sizeof_WGPUFeatureName * n)⟩,
        zig_getFeatures_copy E m device js n q _ f cs hresp hn hq hf hfn hfit rfl hp
          (hfresh hp) hjs hcs, ?_, rfl, ?_⟩
      · simp [Mem.loadFeatures, hjs]
      · simp

/-- Witness for C9: on the sample input the caller's struct held the pointer
`300`; `src/c/lib.c` leaves it, `src/zig-c/lib.c` replaces it by the pointer
`900` that `malloc` returned. -/
theorem getFeatures_ownership_witness :
    (∃ o m1, C.zwgpuDeviceGetFeatures envSample memSample 1 200 = some (o, m1)
        ∧ m1.loadFeatures 200 = some ⟨2, 300⟩
        ∧ m1.loadArray 300 = some [41, 42, 0]
        ∧ ∀ size p, Event.malloc size p ∉ o.trace)
    ∧ (∃ o m1 r, ZigC.zwgpuDeviceGetFeatures envSample memSample 1 200 = some (o, m1)
        ∧ m1.loadFeatures 200 = some r
        ∧ r.features = 900
        ∧ Event.malloc 8 r.features ∈ o.trace) :=
  have h := getFeatures_ownership envSample memSample 1 200 2 500 [41, 42] ⟨9, 300⟩
    rfl (by decide) (by decide) rfl (by decide) (by decide) (by decide) rfl
  ⟨h.1 [0, 0, 0] (by decide) rfl (by decide) (by decide), h.2 (fun _ => rfl)⟩


/-! ## The conversions to `size_t` -/

/-- The seven casting wrappers pass each converted argument modulo `2^w`. -/
theorem sizeArgs_mod (E : Env) (a b c d v u : Nat) :
    SizeArgsArrive E a b c d v u (v % 2 ^ E.sizeBits) (u % 2 ^ E.sizeBits) :=
  ⟨rfl, rfl, rfl, rfl, rfl, rfl, rfl, rfl, rfl, rfl, rfl, rfl, rfl, rfl⟩

/-- C10: for each wrapper that casts (`zwgpuInstanceWaitAny`, `zwgpuQueueSubmit`,
`zwgpuQueueWriteBuffer`, `zwgpuBufferGetMappedRange`,
`zwgpuBufferGetConstMappedRange`, `zwgpuRenderPassEncoderSetBindGroup`,
`zwgpuComputePassEncoderSetBindGroup`), in both files, the native function
receives `v mod 2^w` for the converted argument `v`, where `w` is the width of
`size_t`; hence exactly `v` for every `v < 2^w`, and for every `uint64_t` value
`v` when `w = 64`. -/
theorem size_casts_forward (E : Env) (a b c d v u : Nat) :
    SizeArgsArrive E a b c d v u (v % 2 ^ E.sizeBits) (u % 2 ^ E.sizeBits)
    ∧ (v < 2 ^ E.sizeBits → u < 2 ^ E.sizeBits → SizeArgsArrive E a b c d v u v u)
    ∧ (E.sizeBits = 64 → v < 2 ^ 64 → u < 2 ^ 64 → SizeArgsArrive E a b c d v u v u) := by
  have key : v < 2 ^ E.sizeBits → u < 2 ^ E.sizeBits → SizeArgsArrive E a b c d v u v u := by
    intro hv hu
    have h := sizeArgs_mod E a b c d v u
    rw [Nat.mod_eq_of_lt hv, Nat.mod_eq_of_lt hu] at h
    exact h
  refine ⟨sizeArgs_mod E a b c d v u, key, ?_⟩
  intro hw hv hu
  rw [← hw] at hv hu
  exact key hv hu

/-- Witness for C10: on the 64-bit sample target the largest `uint64_t` value
and the value `16` reach the native functions unchanged. -/
theorem size_casts_forward_witness :
    (envSample.sizeBits = 64 ∧ 18446744073709551615 < 2 ^ 64 ∧ 16 < 2 ^ 64)
    ∧ SizeArgsArrive envSample 1 2 3 4 18446744073709551615 16 18446744073709551615 16 :=
  ⟨⟨rfl, by decide, by decide⟩,
    (size_casts_forward envSample 1 2 3 4 18446744073709551615 16).2.2 rfl (by decide)
      (by decide)⟩


/-! ## The `bool` conversion of `zwgpuDeviceHasFeature` -/

/-- C11: `zwgpuDeviceHasFeature`, in both files, makes the one call of
`wgpuDeviceHasFeature` and returns `true` (the word `1`) if and only if the
native result `r` is not zero, and `false` (the word `0`) if and only if it is
zero; in particular the native result `256` gives `true`, it is not cut down
to its low byte. -/
theorem has_feature_bool_conversion (E : Env) (device feature : Nat) :
    ((C.zwgpuDeviceHasFeature E device feature).trace
        = [Event.call ⟨.wgpuDeviceHasFeature, [.word device, .word feature]⟩]
      ∧ ((C.zwgpuDeviceHasFeature E device feature).ret = some 1
          ↔ E.native ⟨.wgpuDeviceHasFeature, [.word device, .word feature]⟩ ≠ 0)
      ∧ ((C.zwgpuDeviceHasFeature E device feature).ret = some 0
          ↔ E.native ⟨.wgpuDeviceHasFeature, [.word device, .word feature]⟩ = 0))
    ∧ ((ZigC.zwgpuDeviceHasFeature E device feature).trace
        = [Event.call ⟨.wgpuDeviceHasFeature, [.word device, .word feature]⟩]
      ∧ ((ZigC.zwgpuDeviceHasFeature E device feature).ret = some 1
          ↔ E.native ⟨.wgpuDeviceHasFeature, [.word device, .word feature]⟩ ≠ 0)
      ∧ ((ZigC.zwgpuDeviceHasFeature E device feature).ret = some 0
          ↔ E.native ⟨.wgpuDeviceHasFeature, [.word device, .word feature]⟩ = 0))
    ∧ (E.native ⟨.wgpuDeviceHasFeature, [.word device, .word feature]⟩ = 256 →
        (C.zwgpuDeviceHasFeature E device feature).ret = some 1
        ∧ (ZigC.zwgpuDeviceHasFeature E device feature).ret = some 1) := by
  have h1 : ∀ r : Nat, (some (toBool r) = some 1 ↔ r ≠ 0) := by
    intro r
    by_cases h : r = 0 <;> simp [toBool, h]
  have h0 : ∀ r : Nat, (some (toBool r) = some 0 ↔ r = 0) := by
    intro r
    by_cases h : r = 0 <;> simp [toBool, h]
  refine ⟨⟨rfl, h1 _, h0 _⟩, ⟨rfl, h1 _, h0 _⟩, ?_⟩
  intro h
  have h2 : E.native ⟨.wgpuDeviceHasFeature, [.word device, .word feature]⟩ ≠ 0 := by
    rw [h]
    decide
  exact ⟨(h1 _).2 h2, (h1 _).2 h2⟩

/-- Witness for C11: the sample native library returns `256`. -/
theorem has_feature_bool_conversion_witness :
    envSample.native ⟨.wgpuDeviceHasFeature, [.word 1, .word 2]⟩ = 256
    ∧ (C.zwgpuDeviceHasFeature envSample 1 2).ret = some 1
    ∧ (ZigC.zwgpuDeviceHasFeature envSample 1 2).ret = some 1 :=
  ⟨rfl, (has_feature_bool_conversion envSample 1 2).2.2 rfl⟩

/-! ## The guards of the `FreeMembers` wrappers and the diagnostics (`src/c/lib.c`) -/

/-- C12: in `src/c/lib.c`, each of the five `FreeMembers` wrappers called with
`value_ptr = NULL` has one and the same defined outcome in every memory (nothing
is read through the pointer) and makes no native call; called with a pointer
that is not `NULL` and references a struct value, it makes exactly one native
call, of the `FreeMembers` function of the same struct type, with that struct
value as its only argument. -/
theorem free_members_guard (E : Env) (m : Mem) (p q : Nat) (s : StructVal)
    (fs : WGPUSupportedFeatures) :
    ((∃ o, (∀ m, C.zwgpuAdapterInfoFreeMembers E m NULL = some o) ∧ nativeCalls o.trace = [])
      ∧ (∃ o, (∀ m, C.zwgpuSurfaceCapabilitiesFreeMembers E m NULL = some o) ∧ nativeCalls o.trace = [])
      ∧ (∃ o, (∀ m, C.zwgpuSupportedFeaturesFreeMembers E m NULL = some o) ∧ nativeCalls o.trace = [])
      ∧ (∃ o, (∀ m, C.zwgpuSharedBufferMemoryEndAccessStateFreeMembers E m NULL = some o) ∧ nativeCalls o.trace = [])
      ∧ (∃ o, (∀ m, C.zwgpuSharedTextureMemoryEndAccessStateFreeMembers E m NULL = some o) ∧ nativeCalls o.trace = []))
    ∧ (p ≠ NULL → m.structs p = some s → q ≠ NULL → m.featureStructs q = some fs →
      C.zwgpuAdapterInfoFreeMembers E m p = some ⟨[Event.call ⟨.wgpuAdapterInfoFreeMembers, [.struct s]⟩], none⟩
      ∧ C.zwgpuSurfaceCapabilitiesFreeMembers E m p = some ⟨[Event.call ⟨.wgpuSurfaceCapabilitiesFreeMembers, [.struct s]⟩], none⟩
      ∧ C.zwgpuSupportedFeaturesFreeMembers E m q =
          some ⟨[Event.call ⟨.wgpuSupportedFeaturesFreeMembers, [.features fs]⟩], none⟩
      ∧ C.zwgpuSharedBufferMemoryEndAccessStateFreeMembers E m p = some ⟨[Event.call ⟨.wgpuSharedBufferMemoryEndAccessStateFreeMembers, [.struct s]⟩], none⟩
      ∧ C.zwgpuSharedTextureMemoryEndAccessStateFreeMembers E m p = some ⟨[Event.call ⟨.wgpuSharedTextureMemoryEndAccessStateFreeMembers, [.struct s]⟩], none⟩) := by
  refine ⟨⟨⟨_, fun _ => rfl, rfl⟩, ⟨_, fun _ => rfl, rfl⟩, ⟨_, fun _ => rfl, rfl⟩,
    ⟨_, fun _ => rfl, rfl⟩, ⟨_, fun _ => rfl, rfl⟩⟩, ?_⟩
  intro hp hs hq hfs
  simp [C.zwgpuAdapterInfoFreeMembers, C.zwgpuSurfaceCapabilitiesFreeMembers,
    C.zwgpuSupportedFeaturesFreeMembers, C.zwgpuSharedBufferMemoryEndAccessStateFreeMembers,
    C.zwgpuSharedTextureMemoryEndAccessStateFreeMembers, Mem.loadStruct, Mem.loadFeatures,
    hp, hs, hq, hfs, forwardVoid]

/-- Witness for C12: the struct at `100` and the `WGPUSupportedFeatures` at `200`
of the sample memory. -/
theorem free_members_guard_witness :
    (100 ≠ NULL ∧ memSample.structs 100 = some [11, 12, 13, 14, 15]
      ∧ 200 ≠ NULL ∧ memSample.featureStructs 200 = some ⟨9, 300⟩)
    ∧ (C.zwgpuAdapterInfoFreeMembers envSample memSample 100 = some ⟨[Event.call ⟨.wgpuAdapterInfoFreeMembers, [.struct [11, 12, 13, 14, 15]]⟩], none⟩
      ∧ C.zwgpuSurfaceCapabilitiesFreeMembers envSample memSample 100 = some ⟨[Event.call ⟨.wgpuSurfaceCapabilitiesFreeMembers, [.struct [11, 12, 13, 14, 15]]⟩], none⟩
      ∧ C.zwgpuSupportedFeaturesFreeMembers envSample memSample 200 =
          some ⟨[Event.call ⟨.wgpuSupportedFeaturesFreeMembers, [.features ⟨9, 300⟩]⟩], none⟩
      ∧ C.zwgpuSharedBufferMemoryEndAccessStateFreeMembers envSample memSample 100 = some ⟨[Event.call ⟨.wgpuSharedBufferMemoryEndAccessStateFreeMembers, [.struct [11, 12, 13, 14, 15]]⟩], none⟩
      ∧ C.zwgpuSharedTextureMemoryEndAccessStateFreeMembers envSample memSample 100 = some ⟨[Event.call ⟨.wgpuSharedTextureMemoryEndAccessStateFreeMembers, [.struct [11, 12, 13, 14, 15]]⟩], none⟩) :=
  ⟨⟨by decide, rfl, by decide, rfl⟩,
    (free_members_guard envSample memSample 100 200 [11, 12, 13, 14, 15] ⟨9, 300⟩).2
      (by decide) rfl (by decide) rfl⟩

/-- C13: in `src/c/lib.c`, for each of the eleven null-guarded wrappers: when
the guarded pointer is `NULL` exactly one line is printed, and it consists of
`[C WRAPPER ERROR] `, the wrapper's own exported name and a remainder; when the
pointer is not `NULL` (and references a struct) nothing is printed; so on every
defined call a line is printed if and only if the pointer is `NULL`. -/
theorem guard_diagnostic (E : Env) (m : Mem) (g : Guarded) :
    (g.pointer = NULL →
      ∃ o line rest, C.runGuarded E m g = some o ∧ printed o.trace = [line]
        ∧ line = "[C WRAPPER ERROR] " ++ g.name ++ rest)
    ∧ (g.pointer ≠ NULL → ∀ bv, g.byValue m = some bv →
      ∃ o, C.runGuarded E m g = some o ∧ printed o.trace = [])
    ∧ (∀ o, C.runGuarded E m g = some o → (printed o.trace ≠ [] ↔ g.pointer = NULL)) := by
  cases g <;> rename_i p <;> refine ⟨?_, ?_, ?_⟩
  all_goals simp only [Guarded.pointer, Guarded.name, Guarded.byValue, C.runGuarded]
  all_goals first
    | (intro h
       subst h
       first
         | exact ⟨_, _, ": callback_info_ptr is NULL!\n", rfl, rfl, rfl⟩
         | exact ⟨_, _, ": value_ptr is NULL!\n", rfl, rfl, rfl⟩)
    | (intro hp bv hbv
       first
         | (cases hl : m.loadStruct p with
            | none => simp [hl] at hbv
            | some s =>
              simp [C.zwgpuInstanceRequestAdapter, C.zwgpuAdapterRequestDevice, C.zwgpuDevicePopErrorScope, C.zwgpuQueueOnSubmittedWorkDone, C.zwgpuBufferMapAsync, C.zwgpuShaderModuleGetCompilationInfo, C.zwgpuAdapterInfoFreeMembers, C.zwgpuSurfaceCapabilitiesFreeMembers, C.zwgpuSupportedFeaturesFreeMembers, C.zwgpuSharedBufferMemoryEndAccessStateFreeMembers, C.zwgpuSharedTextureMemoryEndAccessStateFreeMembers, hp, hl, forwardFuture, forwardVoid, printed])
         | (cases hl : m.loadFeatures p with
            | none => simp [hl] at hbv
            | some s =>
              simp [C.zwgpuInstanceRequestAdapter, C.zwgpuAdapterRequestDevice, C.zwgpuDevicePopErrorScope, C.zwgpuQueueOnSubmittedWorkDone, C.zwgpuBufferMapAsync, C.zwgpuShaderModuleGetCompilationInfo, C.zwgpuAdapterInfoFreeMembers, C.zwgpuSurfaceCapabilitiesFreeMembers, C.zwgpuSupportedFeaturesFreeMembers, C.zwgpuSharedBufferMemoryEndAccessStateFreeMembers, C.zwgpuSharedTextureMemoryEndAccessStateFreeMembers, hp, hl, forwardFuture, forwardVoid, printed]))
    | (intro o ho
       by_cases hp : p = NULL
       · subst hp
         simp [C.zwgpuInstanceRequestAdapter, C.zwgpuAdapterRequestDevice, C.zwgpuDevicePopErrorScope, C.zwgpuQueueOnSubmittedWorkDone, C.zwgpuBufferMapAsync, C.zwgpuShaderModuleGetCompilationInfo, C.zwgpuAdapterInfoFreeMembers, C.zwgpuSurfaceCapabilitiesFreeMembers, C.zwgpuSupportedFeaturesFreeMembers, C.zwgpuSharedBufferMemoryEndAccessStateFreeMembers, C.zwgpuSharedTextureMemoryEndAccessStateFreeMembers] at ho
         subst ho
         simp [printed]
       · first
           | (cases hl : m.loadStruct p with
              | none => simp [C.zwgpuInstanceRequestAdapter, C.zwgpuAdapterRequestDevice, C.zwgpuDevicePopErrorScope, C.zwgpuQueueOnSubmittedWorkDone, C.zwgpuBufferMapAsync, C.zwgpuShaderModuleGetCompilationInfo, C.zwgpuAdapterInfoFreeMembers, C.zwgpuSurfaceCapabilitiesFreeMembers, C.zwgpuSupportedFeaturesFreeMembers, C.zwgpuSharedBufferMemoryEndAccessStateFreeMembers, C.zwgpuSharedTextureMemoryEndAccessStateFreeMembers, hp, hl] at ho
              | some s =>
                simp [C.zwgpuInstanceRequestAdapter, C.zwgpuAdapterRequestDevice, C.zwgpuDevicePopErrorScope, C.zwgpuQueueOnSubmittedWorkDone, C.zwgpuBufferMapAsync, C.zwgpuShaderModuleGetCompilationInfo, C.zwgpuAdapterInfoFreeMembers, C.zwgpuSurfaceCapabilitiesFreeMembers, C.zwgpuSupportedFeaturesFreeMembers, C.zwgpuSharedBufferMemoryEndAccessStateFreeMembers, C.zwgpuSharedTextureMemoryEndAccessStateFreeMembers, hp, hl, forwardFuture, forwardVoid] at ho
                subst ho
                simp [printed, hp])
           | (cases hl : m.loadFeatures p with
              | none => simp [C.zwgpuInstanceRequestAdapter, C.zwgpuAdapterRequestDevice, C.zwgpuDevicePopErrorScope, C.zwgpuQueueOnSubmittedWorkDone, C.zwgpuBufferMapAsync, C.zwgpuShaderModuleGetCompilationInfo, C.zwgpuAdapterInfoFreeMembers, C.zwgpuSurfaceCapabilitiesFreeMembers, C.zwgpuSupportedFeaturesFreeMembers, C.zwgpuSharedBufferMemoryEndAccessStateFreeMembers, C.zwgpuSharedTextureMemoryEndAccessStateFreeMembers, hp, hl] at ho
              | some s =>
                simp [C.zwgpuInstanceRequestAdapter, C.zwgpuAdapterRequestDevice, C.zwgpuDevicePopErrorScope, C.zwgpuQueueOnSubmittedWorkDone, C.zwgpuBufferMapAsync, C.zwgpuShaderModuleGetCompilationInfo, C.zwgpuAdapterInfoFreeMembers, C.zwgpuSurfaceCapabilitiesFreeMembers, C.zwgpuSupportedFeaturesFreeMembers, C.zwgpuSharedBufferMemoryEndAccessStateFreeMembers, C.zwgpuSharedTextureMemoryEndAccessStateFreeMembers, hp, hl, forwardFuture, forwardVoid] at ho
                subst ho
                simp [printed, hp]))


/-- Witness for C13: `zwgpuBufferMapAsync` with a `NULL` callback info prints
its line; `zwgpuAdapterInfoFreeMembers` with the valid pointer `100` prints
nothing. -/
theorem guard_diagnostic_witness :
    (∃ o line rest, C.runGuarded envSample memSample (.zwgpuBufferMapAsync 1 2 3 4 NULL) = some o
      ∧ printed o.trace = [line]
      ∧ line = "[C WRAPPER ERROR] " ++ "zwgpuBufferMapAsync" ++ rest)
    ∧ (∃ o, C.runGuarded envSample memSample (.zwgpuAdapterInfoFreeMembers 100) = some o
      ∧ printed o.trace = []) :=
  ⟨(guard_diagnostic envSample memSample (.zwgpuBufferMapAsync 1 2 3 4 NULL)).1 rfl,
    (guard_diagnostic envSample memSample (.zwgpuAdapterInfoFreeMembers 100)).2.1 (by decide)
      (.zwgpuAdapterInfoFreeMembers [11, 12, 13, 14, 15]) rfl⟩

/-! ## The events of `zwgpuDeviceGetFeatures` on every defined run -/

/-- Every defined run of `zwgpuDeviceGetFeatures` in `src/c/lib.c` has one of
two traces: query, copy, free; or query, free. -/
theorem c_getFeatures_trace (E : Env) (m : Mem) (device js : Nat) (o : Outcome) (m1 : Mem)
    (h : C.zwgpuDeviceGetFeatures E m device js = some (o, m1)) :
    (0 < (E.nativeFeatures device).featureCount ∧ (E.nativeFeatures device).features ≠ NULL
      ∧ ∃ cs, m.loadFeatures js = some cs ∧ o.trace =
        [Event.call ⟨.wgpuDeviceGetFeatures, [.word device, .tempRef]⟩,
         Event.memcpy cs.features (E.nativeFeatures device).features
           (toSizeT E.sizeBits (sizeof_WGPUFeatureName * (E.nativeFeatures device).featureCount)),
         Event.call ⟨.wgpuSupportedFeaturesFreeMembers, [.features (E.nativeFeatures device)]⟩])
    ∨ (¬ (0 < (E.nativeFeatures device).featureCount ∧ (E.nativeFeatures device).features ≠ NULL)
      ∧ o.trace =
        [Event.call ⟨.wgpuDeviceGetFeatures, [.word device, .tempRef]⟩,
         Event.call ⟨.wgpuSupportedFeaturesFreeMembers, [.features (E.nativeFeatures device)]⟩]) := by
  simp only [C.zwgpuDeviceGetFeatures] at h
  split at h
  · rename_i hc
    left
    refine ⟨hc.1, hc.2, ?_⟩
    split at h
    · exact Option.noConfusion h
    · rename_i cs hcs
      refine ⟨cs, hcs, ?_⟩
      split at h
      · exact Option.noConfusion h
      · split at h
        · exact Option.noConfusion h
        · simp only [Option.some.injEq, Prod.mk.injEq] at h
          rw [← h.1]
  · rename_i hc
    right
    refine ⟨hc, ?_⟩
    split at h
    · exact Option.noConfusion h
    · split at h
      · exact Option.noConfusion h
      · simp only [Option.some.injEq, Prod.mk.injEq] at h
        rw [← h.1]

/-- Every defined run of `zwgpuDeviceGetFeatures` in `src/zig-c/lib.c` has one
of three traces: query, `malloc`, copy, free; query, failed `malloc`, free; or
query, free. -/
theorem zig_getFeatures_trace (E : Env) (m : Mem) (device js : Nat) (o : Outcome) (m1 : Mem)
    (h : ZigC.zwgpuDeviceGetFeatures E m device js = some (o, m1)) :
    (0 < (E.nativeFeatures device).featureCount ∧ (E.nativeFeatures device).features ≠ NULL
      ∧ E.mallocResult (toSizeT E.sizeBits
          (sizeof_WGPUFeatureName * (E.nativeFeatures device).featureCount)) ≠ NULL
      ∧ o.trace =
        [Event.call ⟨.wgpuDeviceGetFeatures, [.word device, .tempRef]⟩,
         Event.malloc
           (toSizeT E.sizeBits (sizeof_WGPUFeatureName * (E.nativeFeatures device).featureCount))
           (E.mallocResult (toSizeT E.sizeBits
             (sizeof_WGPUFeatureName * (E.nativeFeatures device).featureCount))),
         Event.memcpy
           (E.mallocResult (toSizeT E.sizeBits
             (sizeof_WGPUFeatureName * (E.nativeFeatures device).featureCount)))
           (E.nativeFeatures device).features
           (toSizeT E.sizeBits (sizeof_WGPUFeatureName * (E.nativeFeatures device).featureCount)),
         Event.call ⟨.wgpuSupportedFeaturesFreeMembers, [.features (E.nativeFeatures device)]⟩])
    ∨ (0 < (E.nativeFeatures device).featureCount ∧ (E.nativeFeatures device).features ≠ NULL
      ∧ E.mallocResult (toSizeT E.sizeBits
          (sizeof_WGPUFeatureName * (E.nativeFeatures device).featureCount)) = NULL
      ∧ o.trace =
        [Event.call ⟨.wgpuDeviceGetFeatures, [.word device, .tempRef]⟩,
         Event.malloc
           (toSizeT E.sizeBits (sizeof_WGPUFeatureName * (E.nativeFeatures device).featureCount))
           NULL,
         Event.call ⟨.wgpuSupportedFeaturesFreeMembers, [.features (E.nativeFeatures device)]⟩])
    ∨ (¬ (0 < (E.nativeFeatures device).featureCount ∧ (E.nativeFeatures device).features ≠ NULL)
      ∧ o.trace =
        [Event.call ⟨.wgpuDeviceGetFeatures, [.word device, .tempRef]⟩,
         Event.call ⟨.wgpuSupportedFeaturesFreeMembers, [.features (E.nativeFeatures device)]⟩]) := by
  simp only [ZigC.zwgpuDeviceGetFeatures] at h
  split at h
  · rename_i hc
    by_cases hp : E.mallocResult (toSizeT E.sizeBits
        (sizeof_WGPUFeatureName * (E.nativeFeatures device).featureCount)) = NULL
    · right
      left
      refine ⟨hc.1, hc.2, hp, ?_⟩
      simp only [malloc, hp, if_true] at h
      split at h
      · exact Option.noConfusion h
      · split at h
        · exact Option.noConfusion h
        · simp only [Option.some.injEq, Prod.mk.injEq] at h
          rw [← h.1]
    · left
      refine ⟨hc.1, hc.2, hp, ?_⟩
      simp only [malloc, hp, if_false] at h
      split at h
      · exact Option.noConfusion h
      · split at h
        · exact Option.noConfusion h
        · split at h
          · exact Option.noConfusion h
          · simp only [Option.some.injEq, Prod.mk.injEq] at h
            rw [← h.1]
  · rename_i hc
    right
    right
    refine ⟨hc, ?_⟩
    split at h
    · exact Option.noConfusion h
    · split at h
      · exact Option.noConfusion h
      · simp only [Option.some.injEq, Prod.mk.injEq] at h
        rw [← h.1]


/-! ## Names of the native calls -/

/-- A defined run of a guarded wrapper of `src/c/lib.c` with a pointer that is
not `NULL` equals the run of the by-value wrapper of `src/zig-c/lib.c` on the
struct the pointer references. -/
theorem guarded_eq_byValue (E : Env) (m : Mem) (g : Guarded) (bv : ByValue)
    (hp : g.pointer ≠ NULL) (hb : g.byValue m = some bv) :
    C.runGuarded E m g = some (ZigC.runByValue E bv) := by
  cases g <;> rename_i p
  all_goals simp only [Guarded.pointer] at hp
  all_goals simp only [Guarded.byValue] at hb
  all_goals first
    | (cases hl : m.loadStruct p with
       | none => simp [hl] at hb
       | some s =>
         simp only [hl, Option.map_some', Option.some.injEq] at hb
         subst hb
         simp [C.runGuarded, ZigC.runByValue, C.zwgpuInstanceRequestAdapter, C.zwgpuAdapterRequestDevice, C.zwgpuDevicePopErrorScope, C.zwgpuQueueOnSubmittedWorkDone, C.zwgpuBufferMapAsync, C.zwgpuShaderModuleGetCompilationInfo, C.zwgpuAdapterInfoFreeMembers, C.zwgpuSurfaceCapabilitiesFreeMembers, C.zwgpuSupportedFeaturesFreeMembers, C.zwgpuSharedBufferMemoryEndAccessStateFreeMembers, C.zwgpuSharedTextureMemoryEndAccessStateFreeMembers, ZigC.zwgpuInstanceRequestAdapter, ZigC.zwgpuAdapterRequestDevice, ZigC.zwgpuDevicePopErrorScope, ZigC.zwgpuQueueOnSubmittedWorkDone, ZigC.zwgpuBufferMapAsync, ZigC.zwgpuShaderModuleGetCompilationInfo, ZigC.zwgpuAdapterInfoFreeMembers, ZigC.zwgpuSurfaceCapabilitiesFreeMembers, ZigC.zwgpuSupportedFeaturesFreeMembers, ZigC.zwgpuSharedBufferMemoryEndAccessStateFreeMembers, ZigC.zwgpuSharedTextureMemoryEndAccessStateFreeMembers, hp, hl])
    | (cases hl : m.loadFeatures p with
       | none => simp [hl] at hb
       | some s =>
         simp only [hl, Option.map_some', Option.some.injEq] at hb
         subst hb
         simp [C.runGuarded, ZigC.runByValue, C.zwgpuInstanceRequestAdapter, C.zwgpuAdapterRequestDevice, C.zwgpuDevicePopErrorScope, C.zwgpuQueueOnSubmittedWorkDone, C.zwgpuBufferMapAsync, C.zwgpuShaderModuleGetCompilationInfo, C.zwgpuAdapterInfoFreeMembers, C.zwgpuSurfaceCapabilitiesFreeMembers, C.zwgpuSupportedFeaturesFreeMembers, C.zwgpuSharedBufferMemoryEndAccessStateFreeMembers, C.zwgpuSharedTextureMemoryEndAccessStateFreeMembers, ZigC.zwgpuInstanceRequestAdapter, ZigC.zwgpuAdapterRequestDevice, ZigC.zwgpuDevicePopErrorScope, ZigC.zwgpuQueueOnSubmittedWorkDone, ZigC.zwgpuBufferMapAsync, ZigC.zwgpuShaderModuleGetCompilationInfo, ZigC.zwgpuAdapterInfoFreeMembers, ZigC.zwgpuSurfaceCapabilitiesFreeMembers, ZigC.zwgpuSupportedFeaturesFreeMembers, ZigC.zwgpuSharedBufferMemoryEndAccessStateFreeMembers, ZigC.zwgpuSharedTextureMemoryEndAccessStateFreeMembers, hp, hl])


/-- A defined run of a guarded wrapper either saw a `NULL` pointer and made no
native call, or saw a pointer to a struct and is the run of the by-value wrapper
on that struct. -/
theorem guarded_run_cases (E : Env) (m : Mem) (g : Guarded) (o : Outcome)
    (h : C.runGuarded E m g = some o) :
    (g.pointer = NULL ∧ nativeCalls o.trace = [])
    ∨ (g.pointer ≠ NULL ∧ ∃ bv, g.byValue m = some bv ∧ o = ZigC.runByValue E bv) := by
  by_cases hp : g.pointer = NULL
  · left
    refine ⟨hp, ?_⟩
    cases g <;> rename_i p
    all_goals simp only [Guarded.pointer] at hp
    all_goals subst hp
    all_goals simp [C.runGuarded, C.zwgpuInstanceRequestAdapter, C.zwgpuAdapterRequestDevice, C.zwgpuDevicePopErrorScope, C.zwgpuQueueOnSubmittedWorkDone, C.zwgpuBufferMapAsync, C.zwgpuShaderModuleGetCompilationInfo, C.zwgpuAdapterInfoFreeMembers, C.zwgpuSurfaceCapabilitiesFreeMembers, C.zwgpuSupportedFeaturesFreeMembers, C.zwgpuSharedBufferMemoryEndAccessStateFreeMembers, C.zwgpuSharedTextureMemoryEndAccessStateFreeMembers] at h
    all_goals subst h
    all_goals rfl
  · right
    refine ⟨hp, ?_⟩
    cases hb : g.byValue m with
    | none =>
      exfalso
      cases g <;> rename_i p
      all_goals simp only [Guarded.pointer] at hp
      all_goals simp only [Guarded.byValue, Option.map_eq_none'] at hb
      all_goals simp [C.runGuarded, C.zwgpuInstanceRequestAdapter, C.zwgpuAdapterRequestDevice, C.zwgpuDevicePopErrorScope, C.zwgpuQueueOnSubmittedWorkDone, C.zwgpuBufferMapAsync, C.zwgpuShaderModuleGetCompilationInfo, C.zwgpuAdapterInfoFreeMembers, C.zwgpuSurfaceCapabilitiesFreeMembers, C.zwgpuSupportedFeaturesFreeMembers, C.zwgpuSharedBufferMemoryEndAccessStateFreeMembers, C.zwgpuSharedTextureMemoryEndAccessStateFreeMembers, hp, hb] at h
    | some bv =>
      refine ⟨bv, rfl, ?_⟩
      have h2 := guarded_eq_byValue E m g bv hp hb
      rw [h2] at h
      exact (Option.some.inj h).symm

/-- The by-value invocation obtained from a guarded one calls the wrapper of the
same name. -/
theorem byValue_name (m : Mem) (g : Guarded) (bv : ByValue) (hb : g.byValue m = some bv) :
    bv.name = g.name := by
  cases g <;> rename_i p
  all_goals simp only [Guarded.byValue, Option.map_eq_some'] at hb
  all_goals obtain ⟨s, _, hs⟩ := hb
  all_goals subst hs
  all_goals rfl

/-- A by-value wrapper of `src/zig-c/lib.c` makes exactly one native call, to the
native function of its own name. -/
theorem byValue_run_call (E : Env) (bv : ByValue) :
    ∃ c, (ZigC.runByValue E bv).trace = [Event.call c] ∧ "z" ++ c.fn.name = bv.name := by
  cases bv <;> exact ⟨_, rfl, rfl⟩

/-- A wrapper without struct parameter makes exactly one native call, to the
native function of its own name; the two files agree on it. -/
theorem plain_run_call (E : Env) (inv : Plain) :
    ∃ c, (C.run E inv).trace = [Event.call c] ∧ (ZigC.run E inv).trace = [Event.call c]
      ∧ "z" ++ c.fn.name = inv.name := by
  cases inv <;> exact ⟨_, rfl, rfl, rfl⟩


/-- C14: every exported wrapper mirrors the native entry point of the same
name.  A wrapper `zwgpuX` without guard makes exactly one native call, to
`wgpuX`; every native call of a guarded wrapper of `src/c/lib.c` is to `wgpuX`,
and with a valid pointer it makes exactly one; every defined run of
`zwgpuDeviceGetFeatures` makes exactly two native calls, to
`wgpuDeviceGetFeatures` and then to `wgpuSupportedFeaturesFreeMembers`, the only
additional native call anywhere. -/
theorem wrappers_mirror_native_names (E : Env) (m : Mem) (inv : Plain) (bv : ByValue)
    (g : Guarded) (device js : Nat) :
    (∃ c, nativeCalls (C.run E inv).trace = [c] ∧ "z" ++ c.fn.name = inv.name)
    ∧ (∃ c, nativeCalls (ZigC.run E inv).trace = [c] ∧ "z" ++ c.fn.name = inv.name)
    ∧ (∃ c, nativeCalls (ZigC.runByValue E bv).trace = [c] ∧ "z" ++ c.fn.name = bv.name)
    ∧ (∀ o, C.runGuarded E m g = some o →
        ∀ c, c ∈ nativeCalls o.trace → "z" ++ c.fn.name = g.name)
    ∧ (g.pointer ≠ NULL → ∀ b, g.byValue m = some b →
        ∃ o c, C.runGuarded E m g = some o ∧ nativeCalls o.trace = [c]
          ∧ "z" ++ c.fn.name = g.name)
    ∧ (∀ o m1, C.zwgpuDeviceGetFeatures E m device js = some (o, m1) →
        ∃ c1 c2, nativeCalls o.trace = [c1, c2]
          ∧ "z" ++ c1.fn.name = "zwgpuDeviceGetFeatures"
          ∧ c2.fn = NativeFn.wgpuSupportedFeaturesFreeMembers)
    ∧ (∀ o m1, ZigC.zwgpuDeviceGetFeatures E m device js = some (o, m1) →
        ∃ c1 c2, nativeCalls o.trace = [c1, c2]
          ∧ "z" ++ c1.fn.name = "zwgpuDeviceGetFeatures"
          ∧ c2.fn = NativeFn.wgpuSupportedFeaturesFreeMembers) := by
  refine ⟨?_, ?_, ?_, ?_, ?_, ?_, ?_⟩
  · obtain ⟨c, hc, _, hn⟩ := plain_run_call E inv
    exact ⟨c, by rw [hc]; rfl, hn⟩
  · obtain ⟨c, _, hc, hn⟩ := plain_run_call E inv
    exact ⟨c, by rw [hc]; rfl, hn⟩
  · obtain ⟨c, hc, hn⟩ := byValue_run_call E bv
    exact ⟨c, by rw [hc]; rfl, hn⟩
  · intro o ho c hc
    rcases guarded_run_cases E m g o ho with ⟨_, hnil⟩ | ⟨_, b, hb, hob⟩
    · rw [hnil] at hc
      exact absurd hc (List.not_mem_nil c)
    · obtain ⟨c2, hc2, hn⟩ := byValue_run_call E b
      rw [hob, hc2] at hc
      have hcc : c = c2 := by simpa [nativeCalls] using hc
      rw [hcc, hn, byValue_name m g b hb]
  · intro hp b hb
    obtain ⟨c, hc, hn⟩ := byValue_run_call E b
    exact ⟨_, c, guarded_eq_byValue E m g b hp hb, by rw [hc]; rfl,
      by rw [hn, byValue_name m g b hb]⟩
  · intro o m1 h
    rcases c_getFeatures_trace E m device js o m1 h with ⟨_, _, cs, _, ht⟩ | ⟨_, ht⟩
    · exact ⟨⟨.wgpuDeviceGetFeatures, [.word device, .tempRef]⟩,
        ⟨.wgpuSupportedFeaturesFreeMembers, [.features (E.nativeFeatures device)]⟩,
        by rw [ht]; rfl, rfl, rfl⟩
    · exact ⟨⟨.wgpuDeviceGetFeatures, [.word device, .tempRef]⟩,
        ⟨.wgpuSupportedFeaturesFreeMembers, [.features (E.nativeFeatures device)]⟩,
        by rw [ht]; rfl, rfl, rfl⟩
  · intro o m1 h
    rcases zig_getFeatures_trace E m device js o m1 h with
      ⟨_, _, _, ht⟩ | ⟨_, _, _, ht⟩ | ⟨_, ht⟩
    · exact ⟨⟨.wgpuDeviceGetFeatures, [.word device, .tempRef]⟩,
        ⟨.wgpuSupportedFeaturesFreeMembers, [.features (E.nativeFeatures device)]⟩,
        by rw [ht]; rfl, rfl, rfl⟩
    · exact ⟨⟨.wgpuDeviceGetFeatures, [.word device, .tempRef]⟩,
        ⟨.wgpuSupportedFeaturesFreeMembers, [.features (E.nativeFeatures device)]⟩,
        by rw [ht]; rfl, rfl, rfl⟩
    · exact ⟨⟨.wgpuDeviceGetFeatures, [.word device, .tempRef]⟩,
        ⟨.wgpuSupportedFeaturesFreeMembers, [.features (E.nativeFeatures device)]⟩,
        by rw [ht]; rfl, rfl, rfl⟩

/-- Witness for C14: `zwgpuDevicePopErrorScope` with the valid pointer `100`,
and `zwgpuDeviceGetFeatures` of both files on the sample input. -/
theorem wrappers_mirror_native_names_witness :
    (∃ o c, C.runGuarded envSample memSample (.zwgpuDevicePopErrorScope 1 100) = some o
      ∧ nativeCalls o.trace = [c] ∧ "z" ++ c.fn.name = "zwgpuDevicePopErrorScope")
    ∧ (∃ o m1 c1 c2, C.zwgpuDeviceGetFeatures envSample memSample 1 200 = some (o, m1)
      ∧ nativeCalls o.trace = [c1, c2]
      ∧ "z" ++ c1.fn.name = "zwgpuDeviceGetFeatures"
      ∧ c2.fn = NativeFn.wgpuSupportedFeaturesFreeMembers)
    ∧ (∃ o m1 c1 c2, ZigC.zwgpuDeviceGetFeatures envSample memSample 1 200 = some (o, m1)
      ∧ nativeCalls o.trace = [c1, c2]
      ∧ "z" ++ c1.fn.name = "zwgpuDeviceGetFeatures"
      ∧ c2.fn = NativeFn.wgpuSupportedFeaturesFreeMembers) :=
  have h := wrappers_mirror_native_names envSample memSample (.zwgpuQueueSubmit 1 2 3)
    (.zwgpuDevicePopErrorScope 1 [11, 12, 13, 14, 15]) (.zwgpuDevicePopErrorScope 1 100) 1 200
  have hc : ∃ o m1, C.zwgpuDeviceGetFeatures envSample memSample 1 200 = some (o, m1) :=
    ⟨_, _, rfl⟩
  have hz : ∃ o m1, ZigC.zwgpuDeviceGetFeatures envSample memSample 1 200 = some (o, m1) :=
    ⟨_, _, rfl⟩
  ⟨h.2.2.2.2.1 (by decide) _ rfl,
    hc.elim fun o ho => ho.elim fun m1 h1 =>
      (h.2.2.2.2.2.1 o m1 h1).elim fun c1 hc1 => hc1.elim fun c2 hc2 => ⟨o, m1, c1, c2, h1, hc2⟩,
    hz.elim fun o ho => ho.elim fun m1 h1 =>
      (h.2.2.2.2.2.2 o m1 h1).elim fun c1 hc1 => hc1.elim fun c2 hc2 => ⟨o, m1, c1, c2, h1, hc2⟩⟩


/-! ## Equivalence of the two files -/

/-- C15: the two files are equivalent up to the calling convention.  The
wrappers without struct parameter are the same functions in both files; for
every other wrapper except `zwgpuDeviceGetFeatures`, calling the version of
`src/c/lib.c` with a pointer that is not `NULL` and references the struct value
`s` yields the outcome (same native call, same arguments, same return value) of
calling the version of `src/zig-c/lib.c` with `s` passed by value. -/
theorem files_equivalent (E : Env) (m : Mem) (g : Guarded) (bv : ByValue)
    (hp : g.pointer ≠ NULL) (hb : g.byValue m = some bv) :
    C.run = ZigC.run
    ∧ C.runGuarded E m g = some (ZigC.runByValue E bv) := by
  refine ⟨?_, guarded_eq_byValue E m g bv hp hb⟩
  funext E0 inv
  cases inv <;> rfl

/-- Witness for C15: `zwgpuBufferMapAsync` with the pointer `100` to the struct
`[11, 12, 13, 14, 15]` of the sample memory. -/
theorem files_equivalent_witness :
    ((Guarded.zwgpuBufferMapAsync 1 2 3 4 100).pointer ≠ NULL
      ∧ (Guarded.zwgpuBufferMapAsync 1 2 3 4 100).byValue memSample
          = some (.zwgpuBufferMapAsync 1 2 3 4 [11, 12, 13, 14, 15]))
    ∧ C.run = ZigC.run
    ∧ C.runGuarded envSample memSample (.zwgpuBufferMapAsync 1 2 3 4 100)
        = some (ZigC.runByValue envSample (.zwgpuBufferMapAsync 1 2 3 4 [11, 12, 13, 14, 15])) :=
  ⟨⟨by decide, rfl⟩,
    files_equivalent envSample memSample (.zwgpuBufferMapAsync 1 2 3 4 100)
      (.zwgpuBufferMapAsync 1 2 3 4 [11, 12, 13, 14, 15]) (by decide) rfl⟩

/-! ## Object lifetimes -/

/-- The prefix `z` of a wrapper's name does not change how the name ends. -/
theorem endsIn_wrapper_name (f : NativeFn) :
    endsIn ("z" ++ f.name) "Release" = endsIn f.name "Release"
    ∧ endsIn ("z" ++ f.name) "Destroy" = endsIn f.name "Destroy"
    ∧ endsIn ("z" ++ f.name) "AddRef" = endsIn f.name "AddRef"
    ∧ endsIn ("z" ++ f.name) "FreeMembers" = endsIn f.name "FreeMembers" := by
  cases f <;> exact ⟨rfl, rfl, rfl, rfl⟩

/-- A native function and the wrapper named after it are lifetime routines
together. -/
theorem isLifetimeName_wrapper (f : NativeFn) :
    isLifetimeName ("z" ++ f.name) = isLifetimeName f.name := by
  obtain ⟨h1, h2, h3, _⟩ := endsIn_wrapper_name f
  simp only [isLifetimeName, h1, h2, h3]


/-- C16, as stated, fails for `zwgpuInstanceAddRef` (in both files): its name
ends neither in `Release` nor in `Destroy` nor in `FreeMembers`, and it invokes
the native `wgpuInstanceAddRef` on the handle it was given. -/
theorem addRef_wrapper_calls_addRef :
    (endsIn (Plain.zwgpuInstanceAddRef 1).name "Release" = false
      ∧ endsIn (Plain.zwgpuInstanceAddRef 1).name "Destroy" = false
      ∧ endsIn (Plain.zwgpuInstanceAddRef 1).name "FreeMembers" = false)
    ∧ nativeCalls (C.run envSample (.zwgpuInstanceAddRef 1)).trace
        = [⟨.wgpuInstanceAddRef, [.word 1]⟩]
    ∧ nativeCalls (ZigC.run envSample (.zwgpuInstanceAddRef 1)).trace
        = [⟨.wgpuInstanceAddRef, [.word 1]⟩]
    ∧ endsIn NativeFn.wgpuInstanceAddRef.name "AddRef" = true
    ∧ ¬ (∀ c, c ∈ nativeCalls (C.run envSample (.zwgpuInstanceAddRef 1)).trace →
          isLifetimeName c.fn.name = false) := by
  refine ⟨⟨by decide, by decide, by decide⟩, rfl, rfl, by decide, ?_⟩
  intro h
  have h1 := h ⟨.wgpuInstanceAddRef, [.word 1]⟩ (by decide)
  revert h1
  decide

/-- C16, amended (`AddRef` added to the excluded endings): a wrapper whose name
does not end in `Release`, `Destroy`, `AddRef` or `FreeMembers` never invokes a
native function whose name ends in `Release`, `Destroy` or `AddRef`, and never
one ending in `FreeMembers`, except that every defined run of
`zwgpuDeviceGetFeatures` ends with the one call of
`wgpuSupportedFeaturesFreeMembers` on the temporary struct it obtained itself;
each `Release`, `Destroy` and `AddRef` wrapper makes exactly one native call, of
its native counterpart, on the handle it was given. -/
theorem no_lifetime_management (E : Env) (m : Mem) (inv : Plain) (bv : ByValue) (g : Guarded)
    (device js : Nat) :
    (isLifetimeName inv.name = false →
      ∀ c, (c ∈ nativeCalls (C.run E inv).trace ∨ c ∈ nativeCalls (ZigC.run E inv).trace) →
        isLifetimeName c.fn.name = false ∧ endsIn c.fn.name "FreeMembers" = false)
    ∧ (endsIn bv.name "FreeMembers" = false →
      ∀ c, c ∈ nativeCalls (ZigC.runByValue E bv).trace →
        isLifetimeName c.fn.name = false ∧ endsIn c.fn.name "FreeMembers" = false)
    ∧ (endsIn g.name "FreeMembers" = false → ∀ o, C.runGuarded E m g = some o →
      ∀ c, c ∈ nativeCalls o.trace →
        isLifetimeName c.fn.name = false ∧ endsIn c.fn.name "FreeMembers" = false)
    ∧ (∀ o m1, C.zwgpuDeviceGetFeatures E m device js = some (o, m1) →
      nativeCalls o.trace = [⟨.wgpuDeviceGetFeatures, [.word device, .tempRef]⟩,
        ⟨.wgpuSupportedFeaturesFreeMembers, [.features (E.nativeFeatures device)]⟩])
    ∧ (∀ o m1, ZigC.zwgpuDeviceGetFeatures E m device js = some (o, m1) →
      nativeCalls o.trace = [⟨.wgpuDeviceGetFeatures, [.word device, .tempRef]⟩,
        ⟨.wgpuSupportedFeaturesFreeMembers, [.features (E.nativeFeatures device)]⟩])
    ∧ (isLifetimeName inv.name = true →
      ∃ h fn, inv.args = [Arg.word h]
        ∧ (C.run E inv).trace = [Event.call ⟨fn, [Arg.word h]⟩]
        ∧ (ZigC.run E inv).trace = [Event.call ⟨fn, [Arg.word h]⟩]
        ∧ "z" ++ fn.name = inv.name) := by
  have hplainFree : endsIn inv.name "FreeMembers" = false := by
    cases inv <;> rfl
  have hbvLife : isLifetimeName bv.name = false := by
    cases bv <;> rfl
  have hgLife : isLifetimeName g.name = false := by
    cases g <;> rfl
  refine ⟨?_, ?_, ?_, ?_, ?_, ?_⟩
  · intro hl c hc
    obtain ⟨c0, h1, h2, hn⟩ := plain_run_call E inv
    have hcc : c = c0 := by
      rcases hc with hc | hc
      · rw [h1] at hc
        simpa [nativeCalls] using hc
      · rw [h2] at hc
        simpa [nativeCalls] using hc
    subst hcc
    rw [← isLifetimeName_wrapper, ← (endsIn_wrapper_name c.fn).2.2.2, hn]
    exact ⟨hl, hplainFree⟩
  · intro hf c hc
    obtain ⟨c0, h1, hn⟩ := byValue_run_call E bv
    have hcc : c = c0 := by
      rw [h1] at hc
      simpa [nativeCalls] using hc
    subst hcc
    rw [← isLifetimeName_wrapper, ← (endsIn_wrapper_name c.fn).2.2.2, hn]
    exact ⟨hbvLife, hf⟩
  · intro hf o ho c hc
    rcases guarded_run_cases E m g o ho with ⟨_, hnil⟩ | ⟨_, b, hb, hob⟩
    · rw [hnil] at hc
      exact absurd hc (List.not_mem_nil c)
    · obtain ⟨c0, h1, hn⟩ := byValue_run_call E b
      have hcc : c = c0 := by
        rw [hob, h1] at hc
        simpa [nativeCalls] using hc
      subst hcc
      rw [← isLifetimeName_wrapper, ← (endsIn_wrapper_name c.fn).2.2.2, hn,
        byValue_name m g b hb]
      exact ⟨hgLife, hf⟩
  · intro o m1 h
    rcases c_getFeatures_trace E m device js o m1 h with ⟨_, _, cs, _, ht⟩ | ⟨_, ht⟩
    · rw [ht]
      rfl
    · rw [ht]
      rfl
  · intro o m1 h
    rcases zig_getFeatures_trace E m device js o m1 h with
      ⟨_, _, _, ht⟩ | ⟨_, _, _, ht⟩ | ⟨_, ht⟩
    · rw [ht]
      rfl
    · rw [ht]
      rfl
    · rw [ht]
      rfl
  · intro hl
    cases inv <;> simp only [Plain.name] at hl <;> first
      | exact ⟨_, _, rfl, rfl, rfl, rfl⟩
      | exact absurd hl (by decide)

/-- Witness for C16 (amended): `zwgpuDeviceCreateBuffer` is no lifetime routine
and calls none; `zwgpuBufferDestroy` is one and calls `wgpuBufferDestroy` once on
its handle. -/
theorem no_lifetime_management_witness :
    (isLifetimeName (Plain.zwgpuDeviceCreateBuffer 1 2).name = false
      ∧ isLifetimeName (Plain.zwgpuBufferDestroy 5).name = true)
    ∧ (∀ c, (c ∈ nativeCalls (C.run envSample (.zwgpuDeviceCreateBuffer 1 2)).trace
          ∨ c ∈ nativeCalls (ZigC.run envSample (.zwgpuDeviceCreateBuffer 1 2)).trace) →
        isLifetimeName c.fn.name = false ∧ endsIn c.fn.name "FreeMembers" = false)
    ∧ (∃ h fn, (Plain.zwgpuBufferDestroy 5).args = [Arg.word h]
        ∧ (C.run envSample (.zwgpuBufferDestroy 5)).trace = [Event.call ⟨fn, [Arg.word h]⟩]
        ∧ (ZigC.run envSample (.zwgpuBufferDestroy 5)).trace = [Event.call ⟨fn, [Arg.word h]⟩]
        ∧ "z" ++ fn.name = (Plain.zwgpuBufferDestroy 5).name) :=
  ⟨⟨by decide, by decide⟩,
    (no_lifetime_management envSample memSample (.zwgpuDeviceCreateBuffer 1 2)
      (.zwgpuAdapterInfoFreeMembers []) (.zwgpuAdapterInfoFreeMembers 100) 1 200).1 (by decide),
    (no_lifetime_management envSample memSample (.zwgpuBufferDestroy 5)
      (.zwgpuAdapterInfoFreeMembers []) (.zwgpuAdapterInfoFreeMembers 100) 1 200).2.2.2.2.2
      (by decide)⟩


/-! ## What the feature copy of `src/c/lib.c` reads -/

/-- What `memcpy` does depends on the memory only through the two arrays it is
given, and it leaves the structs alone. -/
theorem memcpy_congr (m m2 : Mem) (dst src len : Nat)
    (hs : m.loadArray src = m2.loadArray src) (hd : m.loadArray dst = m2.loadArray dst) :
    (memcpy m dst src len = none ∧ memcpy m2 dst src len = none)
    ∨ (∃ r r2, memcpy m dst src len = some r ∧ memcpy m2 dst src len = some r2
        ∧ r.featureStructs = m.featureStructs ∧ r2.featureStructs = m2.featureStructs
        ∧ r.loadArray dst = r2.loadArray dst) := by
  unfold memcpy
  rw [← hs, ← hd]
  cases h1 : m.loadArray src with
  | none => exact Or.inl ⟨rfl, rfl⟩
  | some s =>
    cases h2 : m.loadArray dst with
    | none => exact Or.inl ⟨rfl, rfl⟩
    | some d =>
      by_cases hc : dst ≠ src ∧ len ≤ sizeof_WGPUFeatureName * s.length
          ∧ len ≤ sizeof_WGPUFeatureName * d.length
      · right
        simp only [if_pos hc]
        exact ⟨_, _, rfl, rfl, rfl, rfl, by simp [Mem.loadArray]⟩
      · left
        simp [if_neg hc]

/-- The store to `featureCount` through a pointer to a struct. -/
theorem storeFeatureCount_some (m : Mem) (p c : Nat) (s : WGPUSupportedFeatures)
    (h : m.loadFeatures p = some s) :
    m.storeFeatureCount p c = some ⟨m.structs,
      fun a => if a = p then some ⟨c, s.features⟩ else m.featureStructs a, m.arrays⟩ := by
  simp [Mem.storeFeatureCount, h]

/-- The store to `features` through a pointer to a struct. -/
theorem storeFeaturesPtr_some (m : Mem) (p v : Nat) (s : WGPUSupportedFeatures)
    (h : m.loadFeatures p = some s) :
    m.storeFeaturesPtr p v = some ⟨m.structs,
      fun a => if a = p then some ⟨s.featureCount, v⟩ else m.featureStructs a, m.arrays⟩ := by
  simp [Mem.storeFeaturesPtr, h]

/-- A pointer that references a struct is not `NULL`. -/
theorem ne_null_of_loadFeatures (m : Mem) (p : Nat) (s : WGPUSupportedFeatures)
    (h : m.loadFeatures p = some s) : p ≠ NULL := by
  intro hp
  simp [Mem.loadFeatures, hp] at h

/-- Reading back a struct that was just written. -/
theorem loadFeatures_written (a : Addr → Option StructVal) (b : Addr → Option WGPUSupportedFeatures)
    (c : Addr → Option (List Nat)) (p : Nat) (v : WGPUSupportedFeatures) (hp : p ≠ NULL) :
    Mem.loadFeatures ⟨a, fun x => if x = p then some v else b x, c⟩ p = some v := by
  simp [Mem.loadFeatures, hp]

/-- The outcome of `zwgpuDeviceGetFeatures` in `src/c/lib.c` and the struct it
leaves depend only on the width of `size_t`, the native response, the `features`
member of the caller's struct, the native array and the caller's storage. -/
theorem c_getFeatures_congr (E E2 : Env) (m m2 : Mem) (device js : Nat)
    (hs : E.sizeBits = E2.sizeBits) (hf : E.nativeFeatures device = E2.nativeFeatures device)
    (hp : (m.loadFeatures js).map (fun s => s.features)
      = (m2.loadFeatures js).map (fun s => s.features))
    (hq : m.loadArray (E.nativeFeatures device).features
      = m2.loadArray (E.nativeFeatures device).features)
    (hd : ∀ cs, m.loadFeatures js = some cs → m.loadArray cs.features = m2.loadArray cs.features) :
    (C.zwgpuDeviceGetFeatures E m device js).map (fun r => (r.1, r.2.loadFeatures js))
      = (C.zwgpuDeviceGetFeatures E2 m2 device js).map (fun r => (r.1, r.2.loadFeatures js)) := by
  simp only [C.zwgpuDeviceGetFeatures, ← hf, ← hs]
  cases h1 : m.loadFeatures js with
  | none =>
    cases h2 : m2.loadFeatures js with
    | some s2 => simp [h1, h2] at hp
    | none =>
      simp [Mem.storeFeatureCount, h1, h2]
  | some cs =>
    cases h2 : m2.loadFeatures js with
    | none => simp [h1, h2] at hp
    | some cs2 =>
      have hjs := ne_null_of_loadFeatures m js cs h1
      have hfe : cs.features = cs2.features := by
        simpa [h1, h2] using hp
      by_cases hc : (E.nativeFeatures device).featureCount > 0
          ∧ (E.nativeFeatures device).features ≠ NULL
      · simp only [if_pos hc]
        rw [← hfe]
        rcases memcpy_congr m m2 cs.features (E.nativeFeatures device).features
            (toSizeT E.sizeBits (sizeof_WGPUFeatureName * (E.nativeFeatures device).featureCount))
            hq (hd cs h1) with ⟨e1, e2⟩ | ⟨r, r2, e1, e2, f1, f2, _⟩
        · simp [e1, e2]
        · have l1 : r.loadFeatures js = some cs := by
            simp only [Mem.loadFeatures, f1]
            exact h1
          have l2 : r2.loadFeatures js = some cs2 := by
            simp only [Mem.loadFeatures, f2]
            exact h2
          simp only [e1, e2, storeFeatureCount_some r js _ cs l1,
            storeFeatureCount_some r2 js _ cs2 l2, Option.map_some', loadFeatures_written _ _ _ _ _ hjs,
            ← hfe]
      · simp only [if_neg hc]
        simp only [storeFeatureCount_some m js _ cs h1, storeFeatureCount_some m2 js _ cs2 h2]
        rw [storeFeaturesPtr_some _ js NULL ⟨0, cs.features⟩ (loadFeatures_written _ _ _ _ _ hjs),
          storeFeaturesPtr_some _ js NULL ⟨0, cs2.features⟩ (loadFeatures_written _ _ _ _ _ hjs)]
        simp [Mem.loadFeatures, hjs]

/-! ## Order of events, incoming count and byte length of the feature copy -/

/-- C18: `zwgpuDeviceGetFeatures` releases the native feature list exactly once
on every path and only after it has been read.  In both files every defined run
has the trace `wgpuDeviceGetFeatures(device, &temp)`, then events that are no
native calls (`malloc`, `memcpy`), then the single
`wgpuSupportedFeaturesFreeMembers(temp)` as the last event.  And every path is
defined: for a native response with a real array when it reports one, a caller's
struct at `js` (in `src/c/lib.c` with storage for a non-empty list) and, in
`src/zig-c/lib.c`, either outcome of `malloc`, the run exists, has that shape,
and contains the copy, between the two calls, whenever a copy is made. -/
theorem getFeatures_frees_once (E : Env) (m : Mem) (device js n q : Nat)
    (cs : WGPUSupportedFeatures)
    (hresp : E.nativeFeatures device = ⟨n, q⟩)
    (hnative : 0 < n → q ≠ NULL → ∃ f, m.arrays q = some f ∧ n ≤ f.length)
    (hfit : sizeof_WGPUFeatureName * n < 2 ^ E.sizeBits)
    (hjs : js ≠ NULL) (hcs : m.featureStructs js = some cs) :
    (∀ o m1, C.zwgpuDeviceGetFeatures E m device js = some (o, m1) →
      ∃ mid, o.trace = Event.call ⟨.wgpuDeviceGetFeatures, [.word device, .tempRef]⟩
          :: (mid ++ [Event.call ⟨.wgpuSupportedFeaturesFreeMembers, [.features ⟨n, q⟩]⟩])
        ∧ nativeCalls mid = [])
    ∧ (∀ o m1, ZigC.zwgpuDeviceGetFeatures E m device js = some (o, m1) →
      ∃ mid, o.trace = Event.call ⟨.wgpuDeviceGetFeatures, [.word device, .tempRef]⟩
          :: (mid ++ [Event.call ⟨.wgpuSupportedFeaturesFreeMembers, [.features ⟨n, q⟩]⟩])
        ∧ nativeCalls mid = [])
    ∧ ((0 < n → q ≠ NULL →
        cs.features ≠ NULL ∧ cs.features ≠ q
        ∧ ∃ st, m.arrays cs.features = some st ∧ n ≤ st.length) →
      ∃ o m1 mid, C.zwgpuDeviceGetFeatures E m device js = some (o, m1)
        ∧ o.trace = Event.call ⟨.wgpuDeviceGetFeatures, [.word device, .tempRef]⟩
          :: (mid ++ [Event.call ⟨.wgpuSupportedFeaturesFreeMembers, [.features ⟨n, q⟩]⟩])
        ∧ nativeCalls mid = []
        ∧ (0 < n → q ≠ NULL →
            Event.memcpy cs.features q (sizeof_WGPUFeatureName * n) ∈ mid))
    ∧ ((E.mallocResult (sizeof_WGPUFeatureName * n) ≠ NULL →
        m.arrays (E.mallocResult (sizeof_WGPUFeatureName * n)) = none) →
      ∃ o m1 mid, ZigC.zwgpuDeviceGetFeatures E m device js = some (o, m1)
        ∧ o.trace = Event.call ⟨.wgpuDeviceGetFeatures, [.word device, .tempRef]⟩
          :: (mid ++ [Event.call ⟨.wgpuSupportedFeaturesFreeMembers, [.features ⟨n, q⟩]⟩])
        ∧ nativeCalls mid = []
        ∧ (0 < n → q ≠ NULL → E.mallocResult (sizeof_WGPUFeatureName * n) ≠ NULL →
            Event.memcpy (E.mallocResult (sizeof_WGPUFeatureName * n)) q
              (sizeof_WGPUFeatureName * n) ∈ mid)) := by
  have hempty_of : ¬ (0 < n ∧ q ≠ NULL) → n = 0 ∨ q = NULL := by
    intro hc
    by_cases hn : n = 0
    · exact Or.inl hn
    · by_cases hq : q = NULL
      · exact Or.inr hq
      · exact absurd ⟨Nat.pos_of_ne_zero hn, hq⟩ hc
  refine ⟨?_, ?_, ?_, ?_⟩
  · intro o m1 h
    rcases c_getFeatures_trace E m device js o m1 h with ⟨_, _, c0, _, ht⟩ | ⟨_, ht⟩
    · rw [hresp] at ht
      exact ⟨[_], ht, rfl⟩
    · rw [hresp] at ht
      exact ⟨[], ht, rfl⟩
  · intro o m1 h
    rcases zig_getFeatures_trace E m device js o m1 h with
      ⟨_, _, _, ht⟩ | ⟨_, _, _, ht⟩ | ⟨_, ht⟩
    · rw [hresp] at ht
      exact ⟨[_, _], ht, rfl⟩
    · rw [hresp] at ht
      exact ⟨[_], ht, rfl⟩
    · rw [hresp] at ht
      exact ⟨[], ht, rfl⟩
  · intro hstore
    by_cases hc : 0 < n ∧ q ≠ NULL
    · obtain ⟨hn, hq⟩ := hc
      obtain ⟨f, hf, hfn⟩ := hnative hn hq
      obtain ⟨hd, hdq, st, hst, hsn⟩ := hstore hn hq
      obtain ⟨k, d⟩ := cs
      exact ⟨_, _, [Event.memcpy d q (sizeof_WGPUFeatureName * n)],
        c_getFeatures_copy E m device js n q k d f st hresp hn hq hf hfn hfit hjs hcs hd hst hsn
          hdq, rfl, rfl, fun _ _ => List.mem_singleton.2 rfl⟩
    · exact ⟨_, _, [], c_getFeatures_empty E m device js n q cs hresp (hempty_of hc) hjs hcs,
        rfl, rfl, fun hn hq => absurd ⟨hn, hq⟩ hc⟩
  · intro hfresh
    by_cases hc : 0 < n ∧ q ≠ NULL
    · obtain ⟨hn, hq⟩ := hc
      obtain ⟨f, hf, hfn⟩ := hnative hn hq
      by_cases hp : E.mallocResult (sizeof_WGPUFeatureName * n) = NULL
      · have hp2 : E.mallocResult (toSizeT E.sizeBits (sizeof_WGPUFeatureName * n)) = NULL := by
          rw [toSizeT_of_lt hfit]
          exact hp
        exact ⟨_, _, [Event.malloc (toSizeT E.sizeBits (sizeof_WGPUFeatureName * n)) NULL],
          zig_getFeatures_nomem E m device js n q cs hresp hn hq hp2 hjs hcs, rfl, rfl,
          fun _ _ h => absurd hp h⟩
      · exact ⟨_, _, [Event.malloc (sizeof_WGPUFeatureName * n)
            (E.mallocResult (sizeof_WGPUFeatureName * n)),
          Event.memcpy (E.mallocResult (sizeof_WGPUFeatureName * n)) q
            (sizeof_WGPUFeatureName * n)],
          zig_getFeatures_copy E m device js n q _ f cs hresp hn hq hf hfn hfit rfl hp
            (hfresh hp) hjs hcs, rfl, rfl, fun _ _ _ => by simp⟩
    · exact ⟨_, _, [], zig_getFeatures_empty E m device js n q cs hresp (hempty_of hc) hjs hcs,
        rfl, rfl, fun hn hq => absurd ⟨hn, hq⟩ hc⟩

/-- Witness for C18: the sample input, on which both files copy. -/
theorem getFeatures_frees_once_witness :
    (∃ o m1 mid, C.zwgpuDeviceGetFeatures envSample memSample 1 200 = some (o, m1)
        ∧ o.trace = Event.call ⟨.wgpuDeviceGetFeatures, [.word 1, .tempRef]⟩
          :: (mid ++ [Event.call ⟨.wgpuSupportedFeaturesFreeMembers, [.features ⟨2, 500⟩]⟩])
        ∧ nativeCalls mid = []
        ∧ (0 < 2 → 500 ≠ NULL → Event.memcpy 300 500 8 ∈ mid))
    ∧ (∃ o m1 mid, ZigC.zwgpuDeviceGetFeatures envSample memSample 1 200 = some (o, m1)
        ∧ o.trace = Event.call ⟨.wgpuDeviceGetFeatures, [.word 1, .tempRef]⟩
          :: (mid ++ [Event.call ⟨.wgpuSupportedFeaturesFreeMembers, [.features ⟨2, 500⟩]⟩])
        ∧ nativeCalls mid = []
        ∧ (0 < 2 → 500 ≠ NULL → 900 ≠ NULL → Event.memcpy 900 500 8 ∈ mid)) :=
  have h := getFeatures_frees_once envSample memSample 1 200 2 500 ⟨9, 300⟩
    rfl (fun _ _ => ⟨[41, 42], rfl, by decide⟩) (by decide) (by decide) rfl
  ⟨h.2.2.1 (fun _ _ => ⟨by decide, by decide, [0, 0, 0], rfl, by decide⟩),
    h.2.2.2 (fun _ => rfl)⟩


/-- C19: in `src/c/lib.c`, `zwgpuDeviceGetFeatures` never reads the
`featureCount` the caller passed in.  Two runs that differ only in that member
(`k` against `k2`) have the same outcome (same events, so the same `memcpy`
length) and leave the same struct; and for a native list of `n > 0` elements
and caller storage that holds them, both runs copy with the length
`sizeof(WGPUFeatureName) * n`, write exactly the `n` native elements and report
`featureCount = n`, whatever `k` and `k2` are. -/
theorem getFeatures_ignores_incoming_count (E : Env) (m : Mem) (device js k k2 d : Nat)
    (hjs : js ≠ NULL) (hcs : m.featureStructs js = some ⟨k, d⟩) :
    (C.zwgpuDeviceGetFeatures E m device js).map (fun r => (r.1, r.2.loadFeatures js))
      = (C.zwgpuDeviceGetFeatures E
          ⟨m.structs, fun a => if a = js then some ⟨k2, d⟩ else m.featureStructs a, m.arrays⟩
          device js).map (fun r => (r.1, r.2.loadFeatures js))
    ∧ (∀ n q f st, E.nativeFeatures device = ⟨n, q⟩ → 0 < n → q ≠ NULL →
        m.arrays q = some f → n ≤ f.length → sizeof_WGPUFeatureName * n < 2 ^ E.sizeBits →
        d ≠ NULL → m.arrays d = some st → n ≤ st.length → d ≠ q →
        ∃ o m1 m2, C.zwgpuDeviceGetFeatures E m device js = some (o, m1)
          ∧ C.zwgpuDeviceGetFeatures E
              ⟨m.structs, fun a => if a = js then some ⟨k2, d⟩ else m.featureStructs a, m.arrays⟩
              device js = some (o, m2)
          ∧ Event.memcpy d q (sizeof_WGPUFeatureName * n) ∈ o.trace
          ∧ m1.loadFeatures js = some ⟨n, d⟩ ∧ m2.loadFeatures js = some ⟨n, d⟩
          ∧ m1.loadArray d = some (f.take n ++ st.drop n)
          ∧ m2.loadArray d = some (f.take n ++ st.drop n)
          ∧ (f.take n).length = n) := by
  have hl1 : m.loadFeatures js = some ⟨k, d⟩ := by
    simp [Mem.loadFeatures, hjs, hcs]
  have hl2 : Mem.loadFeatures
      ⟨m.structs, fun a => if a = js then some ⟨k2, d⟩ else m.featureStructs a, m.arrays⟩ js
      = some ⟨k2, d⟩ := loadFeatures_written _ _ _ _ _ hjs
  constructor
  · refine c_getFeatures_congr E E m _ device js rfl rfl ?_ rfl (fun _ _ => rfl)
    rw [hl1, hl2]
    rfl
  · intro n q f st hresp hn hq hf hfn hfit hd hst hsn hdq
    have h1 := c_getFeatures_copy E m device js n q k d f st hresp hn hq hf hfn hfit hjs hcs hd
      hst hsn hdq
    have h2 := c_getFeatures_copy E
      ⟨m.structs, fun a => if a = js then some ⟨k2, d⟩ else m.featureStructs a, m.arrays⟩
      device js n q k2 d f st hresp hn hq hf hfn hfit hjs (by simp) hd hst hsn hdq
    refine ⟨_, _, _, h1, h2, by simp, ?_, ?_, ?_, ?_, ?_⟩
    · simp [Mem.loadFeatures, hjs]
    · simp [Mem.loadFeatures, hjs]
    · simp [Mem.loadArray, hd]
    · simp [Mem.loadArray, hd]
    · rw [List.length_take]
      omega

/-- Witness for C19: the caller declares `featureCount = 9` in one run and `0`
in the other, with storage for three elements; both runs copy the two native
feature names. -/
theorem getFeatures_ignores_incoming_count_witness :
    ∃ o m1 m2, C.zwgpuDeviceGetFeatures envSample memSample 1 200 = some (o, m1)
      ∧ C.zwgpuDeviceGetFeatures envSample
          ⟨memSample.structs,
            fun a => if a = 200 then some ⟨0, 300⟩ else memSample.featureStructs a,
            memSample.arrays⟩ 1 200 = some (o, m2)
      ∧ Event.memcpy 300 500 8 ∈ o.trace
      ∧ m1.loadFeatures 200 = some ⟨2, 300⟩ ∧ m2.loadFeatures 200 = some ⟨2, 300⟩
      ∧ m1.loadArray 300 = some [41, 42, 0]
      ∧ m2.loadArray 300 = some [41, 42, 0]
      ∧ ([41, 42].take 2).length = 2 :=
  (getFeatures_ignores_incoming_count envSample memSample 1 200 9 0 300 (by decide) rfl).2
    2 500 [41, 42] [0, 0, 0] rfl (by decide) (by decide) rfl (by decide) (by decide) (by decide)
    rfl (by decide) (by decide)

/-- C20: the byte length of the feature copy on a target with 64-bit `size_t`
and 4-byte feature names.  On every defined run, in both files, every `memcpy`
length and every `malloc` size is `(4 * n) mod 2^64` for the native
`featureCount` `n`, the same value at every use; it is `4 * n` for every
`n < 2^62`; and for such `n`, when `src/zig-c/lib.c` copies, the block it
allocated has `4 * featureCount` bytes and holds exactly the `featureCount`
elements it reports. -/
theorem getFeatures_byte_length (E : Env) (m : Mem) (device js : Nat) (hw : E.sizeBits = 64) :
    (∀ o m1, C.zwgpuDeviceGetFeatures E m device js = some (o, m1) →
      ∀ dst src len, Event.memcpy dst src len ∈ o.trace →
        len = (4 * (E.nativeFeatures device).featureCount) % 2 ^ 64)
    ∧ (∀ o m1, ZigC.zwgpuDeviceGetFeatures E m device js = some (o, m1) →
      (∀ dst src len, Event.memcpy dst src len ∈ o.trace →
        len = (4 * (E.nativeFeatures device).featureCount) % 2 ^ 64)
      ∧ (∀ size p, Event.malloc size p ∈ o.trace →
        size = (4 * (E.nativeFeatures device).featureCount) % 2 ^ 64))
    ∧ ((E.nativeFeatures device).featureCount < 2 ^ 62 →
      (4 * (E.nativeFeatures device).featureCount) % 2 ^ 64
        = 4 * (E.nativeFeatures device).featureCount)
    ∧ (∀ n q f cs, E.nativeFeatures device = ⟨n, q⟩ → 0 < n → n < 2 ^ 62 → q ≠ NULL →
        m.arrays q = some f → n ≤ f.length →
        E.mallocResult (4 * n) ≠ NULL → m.arrays (E.mallocResult (4 * n)) = none →
        js ≠ NULL → m.featureStructs js = some cs →
        ∃ o m1 r arr, ZigC.zwgpuDeviceGetFeatures E m device js = some (o, m1)
          ∧ m1.loadFeatures js = some r ∧ r.featureCount = n
          ∧ Event.malloc (4 * r.featureCount) r.features ∈ o.trace
          ∧ Event.memcpy r.features q (4 * r.featureCount) ∈ o.trace
          ∧ m1.loadArray r.features = some arr ∧ arr.length = r.featureCount) := by
  have hlen : toSizeT E.sizeBits (sizeof_WGPUFeatureName * (E.nativeFeatures device).featureCount)
      = (4 * (E.nativeFeatures device).featureCount) % 2 ^ 64 := by
    simp [toSizeT, sizeof_WGPUFeatureName, hw]
  refine ⟨?_, ?_, ?_, ?_⟩
  · intro o m1 h dst src len hmem
    rcases c_getFeatures_trace E m device js o m1 h with ⟨_, _, c0, _, ht⟩ | ⟨_, ht⟩
    · rw [ht, hlen] at hmem
      simp at hmem
      exact hmem.2.2
    · rw [ht] at hmem
      simp at hmem
  · intro o m1 h
    rcases zig_getFeatures_trace E m device js o m1 h with
      ⟨_, _, _, ht⟩ | ⟨_, _, _, ht⟩ | ⟨_, ht⟩
    · rw [ht, hlen]
      constructor
      · intro dst src len hmem
        simp at hmem
        exact hmem.2.2
      · intro size p hmem
        simp at hmem
        exact hmem.1
    · rw [ht, hlen]
      constructor
      · intro dst src len hmem
        simp at hmem
      · intro size p hmem
        simp at hmem
        exact hmem.1
    · rw [ht]
      constructor
      · intro dst src len hmem
        simp at hmem
      · intro size p hmem
        simp at hmem
  · intro hn
    apply Nat.mod_eq_of_lt
    omega
  · intro n q f cs hresp hn hn62 hq hf hfn hp hfresh hjs hcs
    have hfit : sizeof_WGPUFeatureName * n < 2 ^ E.sizeBits := by
      rw [hw]
      simp only [sizeof_WGPUFeatureName]
      omega
    have h4 : sizeof_WGPUFeatureName * n = 4 * n := rfl
    rw [← h4] at hp hfresh
    refine ⟨_, _, ⟨n, E.mallocResult (sizeof_WGPUFeatureName * n)⟩, f.take n,
      zig_getFeatures_copy E m device js n q _ f cs hresp hn hq hf hfn hfit rfl hp hfresh hjs
        hcs, ?_, rfl, ?_, ?_, ?_, ?_⟩
    · simp [Mem.loadFeatures, hjs]
    · simp [sizeof_WGPUFeatureName]
    · simp [sizeof_WGPUFeatureName]
    · simp [Mem.loadArray, hp]
    · simp [List.length_take]
      exact hfn

/-- Witness for C20: the sample 64-bit target with two native features; the
block of `8` bytes at `900` holds exactly two elements. -/
theorem getFeatures_byte_length_witness :
    ∃ o m1 r arr, ZigC.zwgpuDeviceGetFeatures envSample memSample 1 200 = some (o, m1)
      ∧ m1.loadFeatures 200 = some r ∧ r.featureCount = 2
      ∧ Event.malloc (4 * r.featureCount) r.features ∈ o.trace
      ∧ Event.memcpy r.features 500 (4 * r.featureCount) ∈ o.trace
      ∧ m1.loadArray r.features = some arr ∧ arr.length = r.featureCount :=
  (getFeatures_byte_length envSample memSample 1 200 rfl).2.2.2 2 500 [41, 42] ⟨9, 300⟩
    rfl (by decide) (by decide) (by decide) rfl (by decide) (by decide) rfl (by decide) rfl

end BunWebgpu
